import Mathlib

/-!
# janet-libMPSSE: channel lifecycle and transfer engine

A shallow embedding of `src/c/module.c`, `src/c/i2c.c` and `src/c/spi.c`.

* A Janet C function `JANET_FN(name, ...)` receives `(int32_t argc, Janet *argv)`.
  It is embedded as a function of `argc : Nat`, `argv : Nat → Janet` (the
  fiber stack window: slots at or past `argc` hold stack residue) and the
  machine state, and returns how the call ended together with the machine
  state it left behind.  A `janet_panic` keeps every store made before it.
* Channel objects and buffers are mutable memory reached through pointers, so
  the machine state carries one memory per object kind, indexed by address.
* The vendor library (libMPSSE / D2XX) is a parameter: every entry point is a
  function of the calls made so far and of its arguments, and each call is
  appended to `Machine.trace`.
* C integers are `Nat`/`Int` with explicit wrap-around (`toUInt32`, `toInt32`,
  `toUInt8`).  A Janet number is modelled by its integral value; a number with
  a fractional part takes the failing branch of every `janet_get*integer`,
  like an integer out of range.
-/

namespace Mpsse

/-! ## Machine integers -/

/-- Conversion to `uint32_t`. -/
def toUInt32 (x : Int) : Nat := (x % 4294967296).toNat

/-- Conversion to `int32_t` (two's complement). -/
def toInt32 (x : Int) : Int := (x + 2147483648) % 4294967296 - 2147483648

/-- Conversion to `uint8_t`. -/
def toUInt8 (x : Int) : Nat := (x % 256).toNat

def INT32_MAX : Int := 2147483647

/-! ## Status codes (`module.c`) -/

/-- Modelled from the spec: the closed status enumeration `FT_STATUS` of the
vendor header `ftd2xx.h` (not under src/), in the order of the glossary, which
is the order of `ft_status_string`. -/
inductive FT_STATUS where
  | FT_OK
  | FT_INVALID_HANDLE
  | FT_DEVICE_NOT_FOUND
  | FT_DEVICE_NOT_OPENED
  | FT_IO_ERROR
  | FT_INSUFFICIENT_RESOURCES
  | FT_INVALID_PARAMETER
  | FT_INVALID_BAUD_RATE
  | FT_DEVICE_NOT_OPENED_FOR_ERASE
  | FT_DEVICE_NOT_OPENED_FOR_WRITE
  | FT_FAILED_TO_WRITE_DEVICE
  | FT_EEPROM_READ_FAILED
  | FT_EEPROM_WRITE_FAILED
  | FT_EEPROM_ERASE_FAILED
  | FT_EEPROM_NOT_PRESENT
  | FT_EEPROM_NOT_PROGRAMMED
  | FT_INVALID_ARGS
  | FT_NOT_SUPPORTED
  | FT_OTHER_ERROR
  | FT_DEVICE_LIST_NOT_READY
  deriving DecidableEq, Repr

export FT_STATUS (FT_OK FT_INVALID_HANDLE FT_DEVICE_NOT_FOUND FT_DEVICE_NOT_OPENED)

/-- The numeric value of a status code: its position in the enumeration. -/
def FT_STATUS.toNat (s : FT_STATUS) : Nat := s.toCtorIdx

/-- The table `ft_status_string` of `module.c`. -/
def ft_status_string : List String :=
  [ "ok",
    "invalid-handle",
    "device-not-found",
    "device-not-opened",
    "io-error",
    "insufficient-resources",
    "invalid-parameter",
    "invalid-baud-rate",
    "device-not-opened-for-erase",
    "device-not-opened-for-write",
    "failed-to-write-device",
    "eeprom-read-failed",
    "eeprom-write-failed",
    "eeprom-erase-failed",
    "eeprom-not-present",
    "eeprom-not-programmed",
    "invalid-args",
    "not-supported",
    "other-error",
    "device-list-not-ready" ]

/-- The entry `ft_status_string[status]`. -/
def ft_status_name (status : FT_STATUS) : String := ft_status_string.getD status.toNat ""

/-! ## Janet values and the Janet C API -/

/-- A native handle `FT_HANDLE` (a pointer); `NULL` is `0`. -/
abbrev FT_HANDLE := Nat

def NULL : Nat := 0

/-- The vendor record `FT_DEVICE_LIST_INFO_NODE` filled by a channel-info query. -/
structure FT_DEVICE_LIST_INFO_NODE where
  Flags : Nat
  Type_ : Nat
  ID : Nat
  LocId : Nat
  SerialNumber : String
  Description : String
  ftHandle : FT_HANDLE
  deriving DecidableEq, Repr

/-- A Janet value.  `buffer p` and `abstract name p` point into the memories of
`Machine`; `abstract` carries the name of its `JanetAbstractType`.  `struct` is
the seven-key struct built by the info functions (keys `serial`,
`description`, `id`, `locid`, `handle`, `type`, `flags`, in this order). -/
inductive Janet where
  | nil
  | boolean (b : Bool)
  | number (n : Int)
  | keyword (s : String)
  | string (s : String)
  | buffer (p : Nat)
  | abstract (type_name : String) (p : Nat)
  | struct (serial description : String) (id locid : Int) (handle : Nat) (type flags : Int)
  deriving DecidableEq, Repr

/-- How a C function call ends: it returns a value, or it panics
(`janet_panic`, `janet_panicf` or a failed `janet_get*`). -/
inductive Outcome where
  | ret (v : Janet)
  | panic (msg : String)
  deriving DecidableEq, Repr

def Outcome.isPanic : Outcome → Bool
  | .panic _ => true
  | .ret _ => false

def janet_wrap_nil : Janet := .nil

def janet_wrap_boolean (b : Bool) : Janet := .boolean b

/-- The macro `janet_wrap_integer(x)`: the number `(int32_t) x`. -/
def janet_wrap_integer (x : Int) : Janet := .number (toInt32 x)

def janet_ckeywordv (s : String) : Janet := .keyword s

/-- The value `janet_getinteger(argv, n)`: `none` stands for its panic (the slot is not
a number within `int32_t`). -/
def janet_getinteger (argv : Nat → Janet) (n : Nat) : Option Int :=
  match argv n with
  | .number x => if -2147483648 ≤ x ∧ x ≤ 2147483647 then some x else none
  | _ => none

/-- The value `janet_getuinteger(argv, n)`: `none` stands for its panic (the slot is not
a number within `uint32_t`). -/
def janet_getuinteger (argv : Nat → Janet) (n : Nat) : Option Nat :=
  match argv n with
  | .number x => if 0 ≤ x ∧ x ≤ 4294967295 then some x.toNat else none
  | _ => none

/-- The value `janet_optinteger(argv, argc, n, dflt)`: the default when the slot is
missing or nil, `janet_getinteger` otherwise. -/
def janet_optinteger (argv : Nat → Janet) (argc n : Nat) (dflt : Int) : Option Int :=
  if argc ≤ n then some dflt
  else if argv n = .nil then some dflt
  else janet_getinteger argv n

/-- The value `janet_getkeyword(argv, n)`: `none` stands for its panic. -/
def janet_getkeyword (argv : Nat → Janet) (n : Nat) : Option String :=
  match argv n with
  | .keyword s => some s
  | _ => none

/-- The value `janet_optkeyword(argv, argc, n, dflt)`. -/
def janet_optkeyword (argv : Nat → Janet) (argc n : Nat) (dflt : String) : Option String :=
  if argc ≤ n then some dflt
  else if argv n = .nil then some dflt
  else janet_getkeyword argv n

/-- The value `janet_getstring(argv, n)`: `none` stands for its panic. -/
def janet_getstring (argv : Nat → Janet) (n : Nat) : Option String :=
  match argv n with
  | .string s => some s
  | _ => none

/-- The pointer `janet_getbuffer(argv, n)`: `none` stands for its panic. -/
def janet_getbuffer (argv : Nat → Janet) (n : Nat) : Option Nat :=
  match argv n with
  | .buffer p => some p
  | _ => none

/-- The pointer `janet_getabstract(argv, n, type)`: `none` stands for its panic (the
slot is not an abstract of that type). -/
def janet_getabstract (argv : Nat → Janet) (n : Nat) (type_name : String) : Option Nat :=
  match argv n with
  | .abstract t p => if t = type_name then some p else none
  | _ => none

/-- The type tags of `janet_type` / `janet_checktype`. -/
inductive JanetType where
  | JANET_NIL
  | JANET_BOOLEAN
  | JANET_NUMBER
  | JANET_KEYWORD
  | JANET_STRING
  | JANET_BUFFER
  | JANET_ABSTRACT
  | JANET_STRUCT
  deriving DecidableEq, Repr

export JanetType (JANET_NIL JANET_BOOLEAN JANET_NUMBER JANET_KEYWORD JANET_STRING JANET_BUFFER
  JANET_ABSTRACT JANET_STRUCT)

def janet_type : Janet → JanetType
  | .nil => JANET_NIL
  | .boolean _ => JANET_BOOLEAN
  | .number _ => JANET_NUMBER
  | .keyword _ => JANET_KEYWORD
  | .string _ => JANET_STRING
  | .buffer _ => JANET_BUFFER
  | .abstract _ _ => JANET_ABSTRACT
  | .struct _ _ _ _ _ _ _ => JANET_STRUCT

def janet_checktype (x : Janet) (t : JanetType) : Bool := decide (janet_type x = t)

/-- The check `janet_arity(argc, min, max)`: does it let the call through? -/
def janet_arity (argc min max : Nat) : Bool := decide (min ≤ argc ∧ argc ≤ max)

/-- The check `janet_fixarity(argc, n)`: does it let the call through? -/
def janet_fixarity (argc n : Nat) : Bool := decide (argc = n)

/-- The check of `janet_buffer_extra(buffer, n)` on a buffer holding `count`
bytes: with `n` received as `int32_t`, it panics ("buffer overflow") when
`n + count > INT32_MAX`, and otherwise only reserves capacity. -/
def janet_buffer_extra (count : Nat) (n : Int) : Bool :=
  decide (toInt32 n + (count : Int) ≤ INT32_MAX)

/-! ## Channel objects -/

namespace I2C

/-- Modelled from the spec: the static config `ChannelConfig` of the vendor
header `libmpsse_i2c.h` (not under src/): clock rate, latency timer and static
option bits. -/
structure ChannelConfig where
  ClockRate : Nat
  LatencyTimer : Nat
  Options : Nat
  deriving DecidableEq, Repr

/-- The struct `channel_t` of `i2c.c`. -/
structure channel_t where
  index : Nat
  id : Nat
  handle : FT_HANDLE
  config : ChannelConfig
  read_options : Nat
  write_options : Nat
  deriving DecidableEq, Repr

end I2C

namespace SPI

/-- Modelled from the spec: the static config `ChannelConfig` of the vendor
header `libmpsse_spi.h` (not under src/): clock rate, latency timer and static
option bits. -/
structure ChannelConfig where
  ClockRate : Nat
  LatencyTimer : Nat
  configOptions : Nat
  deriving DecidableEq, Repr

/-- The struct `channel_t` of `spi.c`. -/
structure channel_t where
  index : Nat
  id : Nat
  handle : FT_HANDLE
  config : ChannelConfig
  read_options : Nat
  write_options : Nat
  deriving DecidableEq, Repr

end SPI

/-! ## The vendor library -/

/-- One call into the vendor library, with the arguments it was given.  A
source pointer is recorded as the bytes that lie behind it.  `FT_WriteGpio` and
`FT_ReadGpio` stand for the vendor calls `FT_WriteGPIO` and `FT_ReadGPIO`. -/
inductive Call where
  | I2C_GetNumChannels
  | I2C_GetChannelInfo (index : Nat)
  | I2C_OpenChannel (index : Nat)
  | I2C_InitChannel (handle : FT_HANDLE) (config : I2C.ChannelConfig)
  | I2C_CloseChannel (handle : FT_HANDLE)
  | I2C_DeviceRead (handle : FT_HANDLE) (address size options : Nat)
  | I2C_DeviceWrite (handle : FT_HANDLE) (address size : Nat) (buffer : List Nat) (options : Nat)
  | SPI_GetNumChannels
  | SPI_GetChannelInfo (index : Nat)
  | SPI_OpenChannel (index : Nat)
  | SPI_InitChannel (handle : FT_HANDLE) (config : SPI.ChannelConfig)
  | SPI_CloseChannel (handle : FT_HANDLE)
  | SPI_Read (handle : FT_HANDLE) (size options : Nat)
  | SPI_Write (handle : FT_HANDLE) (buffer : List Nat) (size options : Nat)
  | SPI_ReadWrite (handle : FT_HANDLE) (inBuffer : List Nat) (size options : Nat)
  | SPI_IsBusy (handle : FT_HANDLE)
  | FT_WriteGpio (handle : FT_HANDLE) (dir value : Nat)
  | FT_ReadGpio (handle : FT_HANDLE)
  deriving DecidableEq, Repr

/-- The vendor library, a parameter of the embedding.  Each entry point
answers from the calls made before it (first argument) and its own arguments;
what it writes through an out-pointer is part of its answer.  A read answers
with the status, the byte count it reports and the bytes it left at the
destination, by offset.  The constants are those of the vendor headers that
the sources use and that are not under src/. -/
structure Transport where
  I2C_GetNumChannels : List Call → FT_STATUS × Nat
  I2C_GetChannelInfo : List Call → Nat → FT_STATUS × FT_DEVICE_LIST_INFO_NODE
  I2C_OpenChannel : List Call → Nat → FT_STATUS × FT_HANDLE
  I2C_InitChannel : List Call → FT_HANDLE → I2C.ChannelConfig → FT_STATUS
  I2C_CloseChannel : List Call → FT_HANDLE → FT_STATUS
  I2C_DeviceRead : List Call → FT_HANDLE → Nat → Nat → Nat → FT_STATUS × Nat × (Nat → Nat)
  I2C_DeviceWrite : List Call → FT_HANDLE → Nat → Nat → List Nat → Nat → FT_STATUS × Nat
  SPI_GetNumChannels : List Call → FT_STATUS × Nat
  SPI_GetChannelInfo : List Call → Nat → FT_STATUS × FT_DEVICE_LIST_INFO_NODE
  SPI_OpenChannel : List Call → Nat → FT_STATUS × FT_HANDLE
  SPI_InitChannel : List Call → FT_HANDLE → SPI.ChannelConfig → FT_STATUS
  SPI_CloseChannel : List Call → FT_HANDLE → FT_STATUS
  SPI_Read : List Call → FT_HANDLE → Nat → Nat → FT_STATUS × Nat × (Nat → Nat)
  SPI_Write : List Call → FT_HANDLE → List Nat → Nat → Nat → FT_STATUS × Nat
  SPI_ReadWrite : List Call → FT_HANDLE → List Nat → Nat → Nat → FT_STATUS × Nat × (Nat → Nat)
  SPI_IsBusy : List Call → FT_HANDLE → FT_STATUS × Bool
  FT_WriteGpio : List Call → FT_HANDLE → Nat → Nat → FT_STATUS
  FT_ReadGpio : List Call → FT_HANDLE → FT_STATUS × Nat
  FT_FLAGS_OPENED : Nat
  I2C_TRANSFER_OPTIONS_START_BIT : Nat
  I2C_TRANSFER_OPTIONS_STOP_BIT : Nat
  I2C_TRANSFER_OPTIONS_BREAK_ON_NACK : Nat
  I2C_TRANSFER_OPTIONS_NACK_LAST_BYTE : Nat
  I2C_TRANSFER_OPTIONS_FAST_TRANSFER_BITS : Nat
  I2C_TRANSFER_OPTIONS_FAST_TRANSFER_BYTES : Nat
  I2C_TRANSFER_OPTIONS_NO_ADDRESS : Nat
  I2C_DISABLE_3PHASE_CLOCKING : Nat
  SPI_TRANSFER_OPTIONS_SIZE_IN_BITS : Nat
  SPI_TRANSFER_OPTIONS_CHIPSELECT_ENABLE : Nat
  SPI_CONFIG_OPTION_MODE0 : Nat
  SPI_CONFIG_OPTION_MODE1 : Nat
  SPI_CONFIG_OPTION_MODE2 : Nat
  SPI_CONFIG_OPTION_MODE3 : Nat
  SPI_CONFIG_OPTION_CS_DBUS3 : Nat
  SPI_CONFIG_OPTION_CS_DBUS4 : Nat
  SPI_CONFIG_OPTION_CS_DBUS5 : Nat
  SPI_CONFIG_OPTION_CS_DBUS6 : Nat
  SPI_CONFIG_OPTION_CS_DBUS7 : Nat
  SPI_CONFIG_OPTION_CS_ACTIVELOW : Nat

/-! ## Machine state -/

/-- The state the C functions read and write: the vendor calls made so far,
the dynamic bindings of the fiber (`janet_setdyn` / `janet_dyn`), the memory
behind `i2c/channel` abstracts, behind `spi/channel` abstracts and behind
buffers (the `count` bytes of each), and the last address handed out by
`janet_abstract`. -/
structure Machine where
  trace : List Call
  dyn : String → Janet
  i2c_mem : Nat → I2C.channel_t
  spi_mem : Nat → SPI.channel_t
  buf_mem : Nat → List Nat
  brk : Nat

/-- Record a call into the vendor library. -/
def Machine.call (m : Machine) (c : Call) : Machine :=
  { m with trace := m.trace ++ [c] }

def janet_setdyn (name : String) (value : Janet) (m : Machine) : Machine :=
  { m with dyn := Function.update m.dyn name value }

def janet_dyn (name : String) (m : Machine) : Janet := m.dyn name

/-- A store into the `i2c/channel` object at address `p`. -/
def Machine.set_i2c (m : Machine) (p : Nat) (c : I2C.channel_t) : Machine :=
  { m with i2c_mem := Function.update m.i2c_mem p c }

/-- A store into the `spi/channel` object at address `p`. -/
def Machine.set_spi (m : Machine) (p : Nat) (c : SPI.channel_t) : Machine :=
  { m with spi_mem := Function.update m.spi_mem p c }

/-- The statement `buffer->count += n` after the vendor left `dest` behind
`buffer->data + buffer->count`: the buffer grows by the `n` bytes found there. -/
def Machine.buffer_grow (m : Machine) (p : Nat) (n : Nat) (dest : Nat → Nat) : Machine :=
  { m with buf_mem := Function.update m.buf_mem p (m.buf_mem p ++ (List.range n).map dest) }

/-- A C function returns `v`. -/
def ret (r : Janet × Machine) : Outcome × Machine := (.ret r.1, r.2)

/-- The signature of a `JANET_FN`. -/
abbrev CFun := Transport → Nat → (Nat → Janet) → Machine → Outcome × Machine

/-! ## `i2c.c` -/

namespace I2C

/-- The name of the `JanetAbstractType` `channel_type` of `i2c.c`. -/
def channel_type : String := "i2c/channel"

/-- The function `set_status_dyn` of `i2c.c`: save the status keyword to the dynamic
binding `i2c-err` and hand the value back. -/
def set_status_dyn (status : FT_STATUS) (value : Janet) (m : Machine) : Janet × Machine :=
  (value, janet_setdyn "i2c-err" (janet_ckeywordv (ft_status_name status)) m)

def cfun_i2c_get_err : CFun := fun _ argc _ m =>
  if !janet_arity argc 0 1 then (.panic "arity mismatch", m) else
  (.ret (janet_dyn "i2c-err" m), m)

def cfun_i2c_channelcount : CFun := fun T argc _ m =>
  if !janet_fixarity argc 0 then (.panic "arity mismatch", m) else
  let r := T.I2C_GetNumChannels m.trace
  let m := m.call .I2C_GetNumChannels
  ret (set_status_dyn r.1 (janet_wrap_integer r.2) m)

/-- The body of `cfun_i2c_getchannelinfo` from `I2C_GetChannelInfo(--index, &chaninfo)` on. -/
def getchannelinfo_query (T : Transport) (index : Nat) (m : Machine) : Outcome × Machine :=
  let index := toUInt32 ((index : Int) - 1)
  let r := T.I2C_GetChannelInfo m.trace index
  let m := m.call (.I2C_GetChannelInfo index)
  let status := r.1
  let chaninfo := r.2
  if status ≠ FT_OK then ret (set_status_dyn status janet_wrap_nil m) else
  ret (set_status_dyn FT_OK
    (.struct chaninfo.SerialNumber chaninfo.Description (toInt32 chaninfo.ID)
      (toInt32 chaninfo.LocId) chaninfo.ftHandle (toInt32 chaninfo.Type_)
      (toInt32 chaninfo.Flags)) m)

def cfun_i2c_getchannelinfo : CFun := fun T argc argv m =>
  if !janet_fixarity argc 1 then (.panic "arity mismatch", m) else
  if janet_checktype (argv 0) JANET_NUMBER then
    match janet_getuinteger argv 0 with
    | none => (.panic "bad slot #0, expected 32 bit unsigned integer", m)
    | some index =>
      if index < 1 then ret (set_status_dyn FT_INVALID_HANDLE janet_wrap_nil m)
      else getchannelinfo_query T index m
  else if janet_checktype (argv 0) JANET_ABSTRACT then
    match janet_getabstract argv 0 channel_type with
    | none => (.panic "bad slot #0, expected i2c/channel", m)
    | some p => getchannelinfo_query T (m.i2c_mem p).index m
  else (.panic "invalid type, expected <i2c/channel> or index, got %t", m)

def cfun_i2c_get_id : CFun := fun _ argc argv m =>
  if !janet_fixarity argc 1 then (.panic "arity mismatch", m) else
  match janet_getabstract argv 0 channel_type with
  | none => (.panic "bad slot #0, expected i2c/channel", m)
  | some c => (.ret (janet_wrap_integer (m.i2c_mem c).id), m)

def cfun_i2c_openchannel : CFun := fun T argc argv m =>
  if !janet_fixarity argc 1 then (.panic "arity mismatch", m) else
  match janet_getuinteger argv 0 with
  | none => (.panic "bad slot #0, expected 32 bit unsigned integer", m)
  | some index =>
    if index < 1 then ret (set_status_dyn FT_INVALID_HANDLE janet_wrap_nil m) else
    -- janet_abstract: a fresh object; its memory is whatever was there
    let c := m.brk + 1
    let m := { m with brk := c }
    -- memset(&c->config, 0x0, sizeof(ChannelConfig)); c->index = index;
    let m := m.set_i2c c { m.i2c_mem c with config := ⟨0, 0, 0⟩, index := index }
    let r := T.I2C_OpenChannel m.trace (index - 1)
    let m := (m.call (.I2C_OpenChannel (index - 1))).set_i2c c { m.i2c_mem c with handle := r.2 }
    if r.1 ≠ FT_OK then ret (set_status_dyn r.1 janet_wrap_nil m) else
    let r := T.I2C_GetChannelInfo m.trace (index - 1)
    let m := m.call (.I2C_GetChannelInfo (index - 1))
    if r.1 ≠ FT_OK then
      -- bailout: the status of this close is dropped
      let m := m.call (.I2C_CloseChannel (m.i2c_mem c).handle)
      let m := m.set_i2c c { m.i2c_mem c with handle := NULL }
      (.panic "failed to get channel info on a newly opened channel: %s", m)
    else
    let m := m.set_i2c c { m.i2c_mem c with id := r.2.ID }
    ret (set_status_dyn FT_OK (.abstract channel_type c) m)

def KW_ID : Nat := 0
def KW_LOCID : Nat := 1
def KW_TYPE : Nat := 2
def KW_SERIAL : Nat := 3
def KW_DESC : Nat := 4

/-- The loop `for (int i = 0; i < chans; i++)` of `cfun_i2c_find`, entered at `i`
with `fuel` iterations allowed (the caller allows `chans`). -/
def find_loop (T : Transport) (filter id : Nat) (str : String) (chans : Nat) :
    Nat → Nat → Machine → Outcome × Machine
  | 0, _, m => ret (set_status_dyn FT_DEVICE_NOT_FOUND janet_wrap_nil m)
  | fuel + 1, i, m =>
    if i < chans then
      let r := T.I2C_GetChannelInfo m.trace i
      let m := m.call (.I2C_GetChannelInfo i)
      let status := r.1
      let chaninfo := r.2
      if status ≠ FT_OK then ret (set_status_dyn status janet_wrap_nil m) else
      let found : Bool :=
        if filter = KW_ID then chaninfo.ID == id
        else if filter = KW_LOCID then chaninfo.LocId == id
        else if filter = KW_TYPE then chaninfo.Type_ == id
        else if filter = KW_SERIAL then chaninfo.SerialNumber == str
        else if filter = KW_DESC then chaninfo.Description == str
        else true
      if found then ret (set_status_dyn FT_OK (janet_wrap_integer ((i : Int) + 1)) m)
      else find_loop T filter id str chans fuel (i + 1) m
    else ret (set_status_dyn FT_DEVICE_NOT_FOUND janet_wrap_nil m)

def cfun_i2c_find : CFun := fun T argc argv m =>
  if !janet_fixarity argc 2 then (.panic "arity mismatch", m) else
  if !janet_checktype (argv 0) JANET_KEYWORD then (.panic "expected keyword but got %t", m) else
  if janet_checktype (argv 1) JANET_NIL then (.panic "value cannot be nil", m) else
  let r := T.I2C_GetNumChannels m.trace
  let m := m.call .I2C_GetNumChannels
  let chans := r.2
  if r.1 ≠ FT_OK then ret (set_status_dyn r.1 janet_wrap_nil m) else
  match janet_getkeyword argv 0 with
  | none => (.panic "bad slot #0, expected keyword", m)
  | some kw =>
    if kw = "id" ∨ kw = "locid" ∨ kw = "type" then
      let filter := if kw = "id" then KW_ID else if kw = "locid" then KW_LOCID else KW_TYPE
      if janet_checktype (argv 1) JANET_NUMBER then
        match janet_getinteger argv 1 with
        | none => (.panic "bad slot #1, expected 32 bit signed integer", m)
        | some id => find_loop T filter (toUInt32 id) "" chans chans 0 m
      else (.panic "expected integer value, got %t", m)
    else if kw = "serial" ∨ kw = "description" then
      let filter := if kw = "serial" then KW_SERIAL else KW_DESC
      if janet_checktype (argv 1) JANET_STRING then
        match janet_getstring argv 1 with
        | none => (.panic "bad slot #1, expected string", m)
        | some str => find_loop T filter 0 str chans chans 0 m
      else (.panic "expected string value, got %t", m)
    else (.panic "invalid keyword %v", m)

/-- The body of `cfun_i2c_is_open` from `if (janet_checktype(argv[0], JANET_NUMBER) || index > 0)` on. -/
def is_open_query (T : Transport) (argv : Nat → Janet) (index : Nat) (m : Machine) :
    Outcome × Machine :=
  let query := fun (index : Nat) =>
    let r := T.I2C_GetChannelInfo m.trace (index - 1)
    let m := m.call (.I2C_GetChannelInfo (index - 1))
    if r.1 ≠ FT_OK then ret (set_status_dyn r.1 (janet_wrap_boolean false) m) else
    ret (set_status_dyn r.1 (janet_wrap_boolean (r.2.Flags &&& T.FT_FLAGS_OPENED != 0)) m)
  if janet_checktype (argv 0) JANET_NUMBER ∨ index > 0 then
    if index = 0 then
      match janet_getuinteger argv 0 with
      | none => (.panic "bad slot #0, expected 32 bit unsigned integer", m)
      | some index => if index = 0 then (.ret (janet_wrap_boolean false), m) else query index
    else query index
  else (.panic "invalid type %t, expected <i2c/channel> or index.", m)

def cfun_i2c_is_open : CFun := fun T argc argv m =>
  if !janet_fixarity argc 1 then (.panic "arity mismatch", m) else
  if janet_checktype (argv 0) JANET_ABSTRACT then
    match janet_getabstract argv 0 channel_type with
    | none => (.panic "bad slot #0, expected i2c/channel", m)
    | some c =>
      if NULL = (m.i2c_mem c).handle then (.ret (janet_wrap_boolean false), m)
      else is_open_query T argv (m.i2c_mem c).index m
  else is_open_query T argv 0 m

def READ_TRANSFER_OPT : Nat := 0
def WRITE_TRANSFER_OPT : Nat := 1

/-- The loop `for (int i = 1; i < argc; i++)` of `transfer_option_keywords`, entered at
`i` with `n` iterations left and the bits composed so far.  An error is the
panic of the function. -/
def transfer_option_loop (T : Transport) (argv : Nat → Janet) (rw : Nat) :
    Nat → Nat → Nat → Except String Nat
  | 0, _, options => .ok options
  | n + 1, i, options =>
    match argv i with
    | .keyword opt =>
      if opt = "start" then
        transfer_option_loop T argv rw n (i + 1) (options ||| T.I2C_TRANSFER_OPTIONS_START_BIT)
      else if opt = "stop" then
        transfer_option_loop T argv rw n (i + 1) (options ||| T.I2C_TRANSFER_OPTIONS_STOP_BIT)
      else if rw = WRITE_TRANSFER_OPT ∧ opt = "break-on-nak" then
        transfer_option_loop T argv rw n (i + 1) (options ||| T.I2C_TRANSFER_OPTIONS_BREAK_ON_NACK)
      else if rw = READ_TRANSFER_OPT ∧ opt = "nak-last-byte" then
        transfer_option_loop T argv rw n (i + 1) (options ||| T.I2C_TRANSFER_OPTIONS_NACK_LAST_BYTE)
      else if opt = "fast-transfer-bits" then
        transfer_option_loop T argv rw n (i + 1)
          (options ||| T.I2C_TRANSFER_OPTIONS_FAST_TRANSFER_BITS)
      else if opt = "fast-transfer-bytes" then
        transfer_option_loop T argv rw n (i + 1)
          (options ||| T.I2C_TRANSFER_OPTIONS_FAST_TRANSFER_BYTES)
      else if opt = "no-address" then
        transfer_option_loop T argv rw n (i + 1) (options ||| T.I2C_TRANSFER_OPTIONS_NO_ADDRESS)
      else .error "invalid I2C transfer option %p"
    | _ => .error "invalid I2C transfer option type; expected keyword, got %t"

/-- Set option bits from Janet keywords; `rw` is either `READ_` or `WRITE_TRANSFER_OPT`. -/
def transfer_option_keywords (T : Transport) (argc : Nat) (argv : Nat → Janet) (rw : Nat) :
    Except String Nat :=
  transfer_option_loop T argv rw (argc - 1) 1 0

def cfun_i2c_set_write_options : CFun := fun T argc argv m =>
  if !janet_arity argc 1 6 then (.panic "arity mismatch", m) else
  match janet_getabstract argv 0 channel_type with
  | none => (.panic "bad slot #0, expected i2c/channel", m)
  | some c =>
    match transfer_option_keywords T argc argv WRITE_TRANSFER_OPT with
    | .error msg => (.panic msg, m)
    | .ok options =>
      let m := m.set_i2c c { m.i2c_mem c with write_options := options }
      ret (set_status_dyn FT_OK janet_wrap_nil m)

def cfun_i2c_set_read_options : CFun := fun T argc argv m =>
  if !janet_arity argc 1 6 then (.panic "arity mismatch", m) else
  match janet_getabstract argv 0 channel_type with
  | none => (.panic "bad slot #0, expected i2c/channel", m)
  | some c =>
    match transfer_option_keywords T argc argv READ_TRANSFER_OPT with
    | .error msg => (.panic msg, m)
    | .ok options =>
      let m := m.set_i2c c { m.i2c_mem c with read_options := options }
      ret (set_status_dyn FT_OK janet_wrap_nil m)

def I2C_ENABLE_DRIVE_ONLY_ZERO : Nat := 0x0002

/-- The loop `for (int i = 1; i < argc; i++)` of `cfun_i2c_set_config_options`. -/
def config_option_loop (T : Transport) (argv : Nat → Janet) : Nat → Nat → Nat → Except String Nat
  | 0, _, options => .ok options
  | n + 1, i, options =>
    match argv i with
    | .keyword opt =>
      if opt = "disable-3phase-clocking" then
        config_option_loop T argv n (i + 1) (options ||| T.I2C_DISABLE_3PHASE_CLOCKING)
      else if opt = "enable-drive-only" then
        config_option_loop T argv n (i + 1) (options ||| I2C_ENABLE_DRIVE_ONLY_ZERO)
      else .error "invalid I2C config option %p, in slot #%d"
    | _ => .error "invalid I2C config option type, expected keyword but got %t in slot #%d"

def cfun_i2c_set_config_options : CFun := fun T argc argv m =>
  if !janet_arity argc 1 3 then (.panic "arity mismatch", m) else
  match janet_getabstract argv 0 channel_type with
  | none => (.panic "bad slot #0, expected i2c/channel", m)
  | some c =>
    match config_option_loop T argv (argc - 1) 1 0 with
    | .error msg => (.panic msg, m)
    | .ok options =>
      let m := m.set_i2c c
        { m.i2c_mem c with config := { (m.i2c_mem c).config with Options := options } }
      ret (set_status_dyn FT_OK janet_wrap_nil m)

/-- Modelled from the spec: the clock presets of the vendor enumeration
`I2C_CLOCKRATE` (not under src/): standard=100k, fast=400k, fast-plus=1M,
high-speed=3.4M. -/
def I2C_CLOCK_STANDARD_MODE : Nat := 100000

/-- Modelled from the spec: see `I2C_CLOCK_STANDARD_MODE`. -/
def I2C_CLOCK_FAST_MODE : Nat := 400000

/-- Modelled from the spec: see `I2C_CLOCK_STANDARD_MODE`. -/
def I2C_CLOCK_FAST_MODE_PLUS : Nat := 1000000

/-- Modelled from the spec: see `I2C_CLOCK_STANDARD_MODE`. -/
def I2C_CLOCK_HIGH_SPEED_MODE : Nat := 3400000

/-- The clock rate computed by `cfun_i2c_initchannel` before it stores it; an error is
a panic.  `rate` is compared as an unsigned value. -/
def initchannel_rate (argc : Nat) (argv : Nat → Janet) : Except String Nat :=
  if janet_checktype (argv 1) JANET_KEYWORD then
    match janet_optkeyword argv argc 1 "standard" with
    | none => .error "bad slot #1, expected keyword"
    | some clock =>
      if clock = "fast" then .ok I2C_CLOCK_FAST_MODE
      else if clock = "fast-plus" then .ok I2C_CLOCK_FAST_MODE_PLUS
      else if clock = "high-speed" then .ok I2C_CLOCK_HIGH_SPEED_MODE
      else .ok I2C_CLOCK_STANDARD_MODE
  else if janet_checktype (argv 1) JANET_NUMBER then
    match janet_getuinteger argv 2 with
    | none => .error "bad slot #2, expected 32 bit unsigned integer"
    | some rate =>
      if rate > 3400000 then .error "clock rate %d is out of range. Expected 0 to 3,400,000"
      else .ok rate
  else .ok I2C_CLOCK_STANDARD_MODE

def cfun_i2c_initchannel : CFun := fun T argc argv m =>
  if !janet_arity argc 1 3 then (.panic "arity mismatch", m) else
  match janet_getabstract argv 0 channel_type with
  | none => (.panic "bad slot #0, expected i2c/channel", m)
  | some c =>
    match initchannel_rate argc argv with
    | .error msg => (.panic msg, m)
    | .ok rate =>
      let m := m.set_i2c c
        { m.i2c_mem c with config := { (m.i2c_mem c).config with ClockRate := rate } }
      match janet_optinteger argv argc 2 255 with
      | none => (.panic "bad slot #2, expected 32 bit signed integer", m)
      | some l =>
        let latency := toUInt8 l
        if latency < 1 ∨ latency > 255 then
          (.panic "latency %d out of range. expected 1 to 255", m)
        else
        let m := m.set_i2c c
          { m.i2c_mem c with config := { (m.i2c_mem c).config with LatencyTimer := latency } }
        if NULL = (m.i2c_mem c).handle then
          ret (set_status_dyn FT_DEVICE_NOT_OPENED (janet_wrap_boolean false) m)
        else
        let status := T.I2C_InitChannel m.trace (m.i2c_mem c).handle (m.i2c_mem c).config
        let m := m.call (.I2C_InitChannel (m.i2c_mem c).handle (m.i2c_mem c).config)
        ret (set_status_dyn status (janet_wrap_boolean (status == FT_OK)) m)

def cfun_i2c_closechannel : CFun := fun T argc argv m =>
  if !janet_fixarity argc 1 then (.panic "arity mismatch", m) else
  match janet_getabstract argv 0 channel_type with
  | none => (.panic "bad slot #0, expected i2c/channel", m)
  | some c =>
    if NULL = c ∨ NULL = (m.i2c_mem c).handle then
      ret (set_status_dyn FT_DEVICE_NOT_OPENED (janet_wrap_boolean false) m)
    else
    let status := T.I2C_CloseChannel m.trace (m.i2c_mem c).handle
    let m := m.call (.I2C_CloseChannel (m.i2c_mem c).handle)
    let m := m.set_i2c c { m.i2c_mem c with handle := NULL }
    ret (set_status_dyn status (janet_wrap_boolean (status == FT_OK)) m)

def cfun_ft_gpio_write : CFun := fun T argc argv m =>
  if !janet_fixarity argc 3 then (.panic "arity mismatch", m) else
  match janet_getinteger argv 1 with
  | none => (.panic "bad slot #1, expected 32 bit signed integer", m)
  | some d =>
    let dir := toUInt8 d
    match janet_getinteger argv 2 with
    | none => (.panic "bad slot #2, expected 32 bit signed integer", m)
    | some v =>
      let value := toUInt8 v
      match janet_getabstract argv 0 channel_type with
      | none => (.panic "bad slot #0, expected i2c/channel", m)
      | some c =>
        if NULL = (m.i2c_mem c).handle then
          ret (set_status_dyn FT_DEVICE_NOT_OPENED janet_wrap_nil m)
        else
        let status := T.FT_WriteGpio m.trace (m.i2c_mem c).handle dir value
        let m := m.call (.FT_WriteGpio (m.i2c_mem c).handle dir value)
        ret (set_status_dyn status janet_wrap_nil m)

def cfun_ft_gpio_read : CFun := fun T argc argv m =>
  if !janet_fixarity argc 1 then (.panic "arity mismatch", m) else
  match janet_getabstract argv 0 channel_type with
  | none => (.panic "bad slot #0, expected i2c/channel", m)
  | some c =>
    if NULL = (m.i2c_mem c).handle then
      ret (set_status_dyn FT_DEVICE_NOT_OPENED janet_wrap_nil m)
    else
    let r := T.FT_ReadGpio m.trace (m.i2c_mem c).handle
    let m := m.call (.FT_ReadGpio (m.i2c_mem c).handle)
    ret (set_status_dyn r.1 (janet_wrap_integer (toUInt8 r.2)) m)

def cfun_i2c_deviceread : CFun := fun T argc argv m =>
  if !janet_fixarity argc 4 then (.panic "arity mismatch", m) else
  match janet_getuinteger argv 1 with
  | none => (.panic "bad slot #1, expected 32 bit unsigned integer", m)
  | some address =>
    if address > 127 then
      (.panic "i2c address %d is out of range. Expected 7-bit address <= 127.", m)
    else
    match janet_getuinteger argv 2 with
    | none => (.panic "bad slot #2, expected 32 bit unsigned integer", m)
    | some size =>
      if size < 1 then (.panic "read size must be greater than 0", m) else
      match janet_getbuffer argv 3 with
      | none => (.panic "bad slot #3, expected buffer", m)
      | some buffer =>
        if !janet_buffer_extra (m.buf_mem buffer).length size then (.panic "buffer overflow", m)
        else
        match janet_getabstract argv 0 channel_type with
        | none => (.panic "bad slot #0, expected i2c/channel", m)
        | some c =>
          if NULL = (m.i2c_mem c).handle then
            ret (set_status_dyn FT_DEVICE_NOT_OPENED (janet_wrap_integer 0) m)
          else
          let r := T.I2C_DeviceRead m.trace (m.i2c_mem c).handle address size
            (m.i2c_mem c).read_options
          let status := r.1
          let readsz := r.2.1
          let m := m.call (.I2C_DeviceRead (m.i2c_mem c).handle address size
            (m.i2c_mem c).read_options)
          let m := if readsz > 0 then m.buffer_grow buffer readsz r.2.2 else m
          ret (set_status_dyn status (janet_wrap_integer readsz) m)

def cfun_i2c_devicewrite : CFun := fun T argc argv m =>
  if !janet_fixarity argc 4 then (.panic "arity mismatch", m) else
  match janet_getinteger argv 1 with
  | none => (.panic "bad slot #1, expected 32 bit signed integer", m)
  | some a =>
    let address := toUInt32 a
    if address > 127 then (.panic "i2c address %d is out of range. Expected <= 127.", m) else
    match janet_getinteger argv 2 with
    | none => (.panic "bad slot #2, expected 32 bit signed integer", m)
    | some s =>
      let size := toUInt32 s
      match janet_getabstract argv 0 channel_type with
      | none => (.panic "bad slot #0, expected i2c/channel", m)
      | some c =>
        if NULL = (m.i2c_mem c).handle then
          ret (set_status_dyn FT_DEVICE_NOT_OPENED (janet_wrap_integer 0) m)
        else
        let send := fun (buf : List Nat) =>
          let r := T.I2C_DeviceWrite m.trace (m.i2c_mem c).handle address size buf
            (m.i2c_mem c).write_options
          let m := m.call (.I2C_DeviceWrite (m.i2c_mem c).handle address size buf
            (m.i2c_mem c).write_options)
          ret (set_status_dyn r.1 (janet_wrap_integer r.2) m)
        if janet_checktype (argv 3) JANET_NUMBER then
          if size > 1 then (.panic "expected size == 1 when passed an integer, got %d", m) else
          match janet_getuinteger argv 3 with
          | none => (.panic "bad slot #3, expected 32 bit unsigned integer", m)
          | some b => send [toUInt8 b]
        else
          match janet_getbuffer argv 3 with
          | none => (.panic "bad slot #3, expected buffer", m)
          | some buffer =>
            if size > (m.buf_mem buffer).length then
              (.panic "write size %d larger than buffer count %d", m)
            else send (m.buf_mem buffer)

/-- The table `channel_methods` of `i2c.c`. -/
def channel_methods : List (String × CFun) :=
  [ ("err", cfun_i2c_get_err),
    ("info", cfun_i2c_getchannelinfo),
    ("id", cfun_i2c_get_id),
    ("is-open", cfun_i2c_is_open),
    ("close", cfun_i2c_closechannel),
    ("init", cfun_i2c_initchannel),
    ("read", cfun_i2c_deviceread),
    ("write", cfun_i2c_devicewrite),
    ("read-opt", cfun_i2c_set_read_options),
    ("write-opt", cfun_i2c_set_write_options),
    ("config", cfun_i2c_set_config_options) ]

/-- The finalizer `channel_gc` of `i2c.c`, run on the object at address `p`. -/
def channel_gc (T : Transport) (p : Nat) (m : Machine) : Int × Machine :=
  let c := p
  if c ≠ NULL ∧ (m.i2c_mem c).handle ≠ NULL then
    let status := T.I2C_CloseChannel m.trace (m.i2c_mem c).handle
    let m := m.call (.I2C_CloseChannel (m.i2c_mem c).handle)
    let m := m.set_i2c c { m.i2c_mem c with handle := NULL }
    (0, (set_status_dyn status janet_wrap_nil m).2)
  else
    (0, (set_status_dyn FT_DEVICE_NOT_OPENED janet_wrap_nil m).2)

/-- The functions registered by `i2c_register`. -/
def cfuns : List (String × CFun) :=
  [ ("i2c/err", cfun_i2c_get_err),
    ("i2c/channels", cfun_i2c_channelcount),
    ("i2c/info", cfun_i2c_getchannelinfo),
    ("i2c/find-by", cfun_i2c_find),
    ("i2c/id", cfun_i2c_get_id),
    ("i2c/read-opt", cfun_i2c_set_read_options),
    ("i2c/write-opt", cfun_i2c_set_write_options),
    ("i2c/config", cfun_i2c_set_config_options),
    ("i2c/open", cfun_i2c_openchannel),
    ("i2c/is-open", cfun_i2c_is_open),
    ("i2c/init", cfun_i2c_initchannel),
    ("i2c/close", cfun_i2c_closechannel),
    ("i2c/read", cfun_i2c_deviceread),
    ("i2c/write", cfun_i2c_devicewrite),
    ("i2c/gpio-read", cfun_ft_gpio_read),
    ("i2c/gpio-write", cfun_ft_gpio_write) ]

end I2C

/-! ## `spi.c` -/

namespace SPI

/-- The name of the `JanetAbstractType` `channel_type` of `spi.c`. -/
def channel_type : String := "spi/channel"

/-- The function `set_status_dyn` of `spi.c`: save the status keyword to the dynamic
binding `ft-err` and hand the value back. -/
def set_status_dyn (status : FT_STATUS) (value : Janet) (m : Machine) : Janet × Machine :=
  (value, janet_setdyn "ft-err" (janet_ckeywordv (ft_status_name status)) m)

def cfun_spi_get_err : CFun := fun _ argc _ m =>
  if !janet_arity argc 0 1 then (.panic "arity mismatch", m) else
  (.ret (janet_dyn "ft-err" m), m)

def cfun_spi_channelcount : CFun := fun T argc _ m =>
  if !janet_fixarity argc 0 then (.panic "arity mismatch", m) else
  let r := T.SPI_GetNumChannels m.trace
  let m := m.call .SPI_GetNumChannels
  ret (set_status_dyn r.1 (janet_wrap_integer r.2) m)

/-- The body of `cfun_spi_getchannelinfo` from `SPI_GetChannelInfo(--index, &chaninfo)` on. -/
def getchannelinfo_query (T : Transport) (index : Nat) (m : Machine) : Outcome × Machine :=
  let index := toUInt32 ((index : Int) - 1)
  let r := T.SPI_GetChannelInfo m.trace index
  let m := m.call (.SPI_GetChannelInfo index)
  let status := r.1
  let chaninfo := r.2
  if status ≠ FT_OK then ret (set_status_dyn status janet_wrap_nil m) else
  ret (set_status_dyn FT_OK
    (.struct chaninfo.SerialNumber chaninfo.Description (toInt32 chaninfo.ID)
      (toInt32 chaninfo.LocId) chaninfo.ftHandle (toInt32 chaninfo.Type_)
      (toInt32 chaninfo.Flags)) m)

def cfun_spi_getchannelinfo : CFun := fun T argc argv m =>
  if !janet_fixarity argc 1 then (.panic "arity mismatch", m) else
  if janet_type (argv 0) = JANET_NUMBER then
    match janet_getuinteger argv 0 with
    | none => (.panic "bad slot #0, expected 32 bit unsigned integer", m)
    | some index =>
      if index < 1 then ret (set_status_dyn FT_INVALID_HANDLE janet_wrap_nil m)
      else getchannelinfo_query T index m
  else if janet_type (argv 0) = JANET_ABSTRACT then
    match janet_getabstract argv 0 channel_type with
    | none => (.panic "bad slot #0, expected spi/channel", m)
    | some p => getchannelinfo_query T (m.spi_mem p).index m
  else (.panic "invalid type, expected <spi/channel> or index, got %t", m)

def cfun_spi_get_id : CFun := fun _ argc argv m =>
  if !janet_fixarity argc 1 then (.panic "arity mismatch", m) else
  match janet_getabstract argv 0 channel_type with
  | none => (.panic "bad slot #0, expected spi/channel", m)
  | some c => (.ret (janet_wrap_integer (m.spi_mem c).id), m)

def cfun_spi_openchannel : CFun := fun T argc argv m =>
  if !janet_fixarity argc 1 then (.panic "arity mismatch", m) else
  match janet_getuinteger argv 0 with
  | none => (.panic "bad slot #0, expected 32 bit unsigned integer", m)
  | some index =>
    if index < 1 then ret (set_status_dyn FT_INVALID_HANDLE janet_wrap_nil m) else
    -- janet_abstract: a fresh object; its memory is whatever was there
    let c := m.brk + 1
    let m := { m with brk := c }
    -- memset(&c->config, 0x0, sizeof(ChannelConfig)); c->index = index;
    let m := m.set_spi c { m.spi_mem c with config := ⟨0, 0, 0⟩, index := index }
    let r := T.SPI_OpenChannel m.trace (index - 1)
    let m := (m.call (.SPI_OpenChannel (index - 1))).set_spi c { m.spi_mem c with handle := r.2 }
    if r.1 ≠ FT_OK then ret (set_status_dyn r.1 janet_wrap_nil m) else
    let r := T.SPI_GetChannelInfo m.trace (index - 1)
    let m := m.call (.SPI_GetChannelInfo (index - 1))
    if r.1 ≠ FT_OK then
      -- bailout: the status of this close is dropped
      let m := m.call (.SPI_CloseChannel (m.spi_mem c).handle)
      let m := m.set_spi c { m.spi_mem c with handle := NULL }
      (.panic "failed to get channel info on a newly opened channel: %s", m)
    else
    let m := m.set_spi c { m.spi_mem c with id := r.2.ID }
    ret (set_status_dyn FT_OK (.abstract channel_type c) m)

def KW_ID : Nat := 0
def KW_LOCID : Nat := 1
def KW_TYPE : Nat := 2
def KW_SERIAL : Nat := 3
def KW_DESC : Nat := 4

/-- The loop `for (int i = 0; i < chans; i++)` of `cfun_spi_find`, entered at `i`
with `fuel` iterations allowed (the caller allows `chans`). -/
def find_loop (T : Transport) (filter id : Nat) (str : String) (chans : Nat) :
    Nat → Nat → Machine → Outcome × Machine
  | 0, _, m => ret (set_status_dyn FT_DEVICE_NOT_FOUND janet_wrap_nil m)
  | fuel + 1, i, m =>
    if i < chans then
      let r := T.SPI_GetChannelInfo m.trace i
      let m := m.call (.SPI_GetChannelInfo i)
      let status := r.1
      let chaninfo := r.2
      if status ≠ FT_OK then ret (set_status_dyn status janet_wrap_nil m) else
      let found : Bool :=
        if filter = KW_ID then chaninfo.ID == id
        else if filter = KW_LOCID then chaninfo.LocId == id
        else if filter = KW_TYPE then chaninfo.Type_ == id
        else if filter = KW_SERIAL then chaninfo.SerialNumber == str
        else if filter = KW_DESC then chaninfo.Description == str
        else true
      if found then ret (set_status_dyn FT_OK (janet_wrap_integer ((i : Int) + 1)) m)
      else find_loop T filter id str chans fuel (i + 1) m
    else ret (set_status_dyn FT_DEVICE_NOT_FOUND janet_wrap_nil m)

def cfun_spi_find : CFun := fun T argc argv m =>
  if !janet_fixarity argc 2 then (.panic "arity mismatch", m) else
  if !janet_checktype (argv 0) JANET_KEYWORD then (.panic "expected keyword but got %t", m) else
  if janet_checktype (argv 1) JANET_NIL then (.panic "value cannot be nil", m) else
  let r := T.SPI_GetNumChannels m.trace
  let m := m.call .SPI_GetNumChannels
  let chans := r.2
  if r.1 ≠ FT_OK then ret (set_status_dyn r.1 janet_wrap_nil m) else
  match janet_getkeyword argv 0 with
  | none => (.panic "bad slot #0, expected keyword", m)
  | some kw =>
    if kw = "id" ∨ kw = "locid" ∨ kw = "type" then
      let filter := if kw = "id" then KW_ID else if kw = "locid" then KW_LOCID else KW_TYPE
      if janet_checktype (argv 1) JANET_NUMBER then
        match janet_getinteger argv 1 with
        | none => (.panic "bad slot #1, expected 32 bit signed integer", m)
        | some id => find_loop T filter (toUInt32 id) "" chans chans 0 m
      else (.panic "expected integer value, got %t", m)
    else if kw = "serial" ∨ kw = "description" then
      let filter := if kw = "serial" then KW_SERIAL else KW_DESC
      if janet_checktype (argv 1) JANET_STRING then
        match janet_getstring argv 1 with
        | none => (.panic "bad slot #1, expected string", m)
        | some str => find_loop T filter 0 str chans chans 0 m
      else (.panic "expected string value, got %t", m)
    else (.panic "invalid keyword %v", m)

/-- The body of `cfun_spi_is_open` from `if (janet_checktype(argv[0], JANET_NUMBER) || index > 0)` on. -/
def is_open_query (T : Transport) (argv : Nat → Janet) (index : Nat) (m : Machine) :
    Outcome × Machine :=
  let query := fun (index : Nat) =>
    let r := T.SPI_GetChannelInfo m.trace (index - 1)
    let m := m.call (.SPI_GetChannelInfo (index - 1))
    if r.1 ≠ FT_OK then ret (set_status_dyn r.1 (janet_wrap_boolean false) m) else
    ret (set_status_dyn r.1 (janet_wrap_boolean (r.2.Flags &&& T.FT_FLAGS_OPENED != 0)) m)
  if janet_checktype (argv 0) JANET_NUMBER ∨ index > 0 then
    if index = 0 then
      match janet_getuinteger argv 0 with
      | none => (.panic "bad slot #0, expected 32 bit unsigned integer", m)
      | some index => if index = 0 then (.ret (janet_wrap_boolean false), m) else query index
    else query index
  else (.panic "invalid type %t, expected <spi/channel> or index.", m)

def cfun_spi_is_open : CFun := fun T argc argv m =>
  if !janet_fixarity argc 1 then (.panic "arity mismatch", m) else
  if janet_checktype (argv 0) JANET_ABSTRACT then
    match janet_getabstract argv 0 channel_type with
    | none => (.panic "bad slot #0, expected spi/channel", m)
    | some c =>
      if NULL = (m.spi_mem c).handle then (.ret (janet_wrap_boolean false), m)
      else is_open_query T argv (m.spi_mem c).index m
  else is_open_query T argv 0 m

/-- The loop `for (int i = 1; i < argc; i++)` of `spi_transfer_option_keywords`, entered
at `i` with `n` iterations left and the bits composed so far.  An error is the
panic of the function. -/
def spi_transfer_option_loop (T : Transport) (argv : Nat → Janet) :
    Nat → Nat → Nat → Except String Nat
  | 0, _, options => .ok options
  | n + 1, i, options =>
    match argv i with
    | .keyword opt =>
      if opt = "size-in-bits" then
        spi_transfer_option_loop T argv n (i + 1) (options ||| T.SPI_TRANSFER_OPTIONS_SIZE_IN_BITS)
      else if opt = "cs" then
        spi_transfer_option_loop T argv n (i + 1)
          (options ||| T.SPI_TRANSFER_OPTIONS_CHIPSELECT_ENABLE)
      else .error "invalid SPI transfer option %p"
    | _ => .error "invalid SPI transfer option type; expected keyword, got %t"

def spi_transfer_option_keywords (T : Transport) (argc : Nat) (argv : Nat → Janet) :
    Except String Nat :=
  spi_transfer_option_loop T argv (argc - 1) 1 0

def cfun_spi_set_write_options : CFun := fun T argc argv m =>
  if !janet_arity argc 1 3 then (.panic "arity mismatch", m) else
  match janet_getabstract argv 0 channel_type with
  | none => (.panic "bad slot #0, expected spi/channel", m)
  | some c =>
    match spi_transfer_option_keywords T argc argv with
    | .error msg => (.panic msg, m)
    | .ok options =>
      let m := m.set_spi c { m.spi_mem c with write_options := options }
      ret (set_status_dyn FT_OK janet_wrap_nil m)

def cfun_spi_set_read_options : CFun := fun T argc argv m =>
  if !janet_arity argc 1 3 then (.panic "arity mismatch", m) else
  match janet_getabstract argv 0 channel_type with
  | none => (.panic "bad slot #0, expected spi/channel", m)
  | some c =>
    match spi_transfer_option_keywords T argc argv with
    | .error msg => (.panic msg, m)
    | .ok options =>
      let m := m.set_spi c { m.spi_mem c with read_options := options }
      ret (set_status_dyn FT_OK janet_wrap_nil m)

/-- The loop `for (int i = 1; i < argc; i++)` of `cfun_spi_set_config_options`. -/
def config_option_loop (T : Transport) (argv : Nat → Janet) : Nat → Nat → Nat → Except String Nat
  | 0, _, options => .ok options
  | n + 1, i, options =>
    match argv i with
    | .keyword opt =>
      if opt = "mode0" then
        config_option_loop T argv n (i + 1) (options ||| T.SPI_CONFIG_OPTION_MODE0)
      else if opt = "mode1" then
        config_option_loop T argv n (i + 1) (options ||| T.SPI_CONFIG_OPTION_MODE1)
      else if opt = "mode2" then
        config_option_loop T argv n (i + 1) (options ||| T.SPI_CONFIG_OPTION_MODE2)
      else if opt = "mode3" then
        config_option_loop T argv n (i + 1) (options ||| T.SPI_CONFIG_OPTION_MODE3)
      else if opt = "bus3" then
        config_option_loop T argv n (i + 1) (options ||| T.SPI_CONFIG_OPTION_CS_DBUS3)
      else if opt = "bus4" then
        config_option_loop T argv n (i + 1) (options ||| T.SPI_CONFIG_OPTION_CS_DBUS4)
      else if opt = "bus5" then
        config_option_loop T argv n (i + 1) (options ||| T.SPI_CONFIG_OPTION_CS_DBUS5)
      else if opt = "bus6" then
        config_option_loop T argv n (i + 1) (options ||| T.SPI_CONFIG_OPTION_CS_DBUS6)
      else if opt = "bus7" then
        config_option_loop T argv n (i + 1) (options ||| T.SPI_CONFIG_OPTION_CS_DBUS7)
      else if opt = "active-low" then
        config_option_loop T argv n (i + 1) (options ||| T.SPI_CONFIG_OPTION_CS_ACTIVELOW)
      else .error "invalid SPI config option %p, in slot #%d"
    | _ => .error "invalid SPI config option type, expected keyword but got %t in slot #%d"

def cfun_spi_set_config_options : CFun := fun T argc argv m =>
  if !janet_arity argc 1 4 then (.panic "arity mismatch", m) else
  match janet_getabstract argv 0 channel_type with
  | none => (.panic "bad slot #0, expected spi/channel", m)
  | some c =>
    match config_option_loop T argv (argc - 1) 1 0 with
    | .error msg => (.panic msg, m)
    | .ok options =>
      let m := m.set_spi c
        { m.spi_mem c with config := { (m.spi_mem c).config with configOptions := options } }
      ret (set_status_dyn FT_OK janet_wrap_nil m)

def cfun_spi_initchannel : CFun := fun T argc argv m =>
  if !janet_arity argc 1 3 then (.panic "arity mismatch", m) else
  match janet_getabstract argv 0 channel_type with
  | none => (.panic "bad slot #0, expected spi/channel", m)
  | some c =>
    match janet_getuinteger argv 2 with
    | none => (.panic "bad slot #2, expected 32 bit unsigned integer", m)
    | some clock =>
      if clock > 30000000 then
        (.panic "clockrate %d is out of range. Expected 0 to 30,000,000 Hz", m)
      else
      let m := m.set_spi c
        { m.spi_mem c with config := { (m.spi_mem c).config with ClockRate := clock } }
      match janet_optinteger argv argc 2 255 with
      | none => (.panic "bad slot #2, expected 32 bit signed integer", m)
      | some l =>
        let latency := toUInt8 l
        -- latency is a uint8_t: `latency < 0 || latency > 255`
        if (latency : Int) < 0 ∨ latency > 255 then
          (.panic "latency %d out of range. expected 0 to 255", m)
        else
        let m := m.set_spi c
          { m.spi_mem c with config := { (m.spi_mem c).config with LatencyTimer := latency } }
        if NULL = (m.spi_mem c).handle then
          ret (set_status_dyn FT_DEVICE_NOT_OPENED (janet_wrap_boolean false) m)
        else
        let status := T.SPI_InitChannel m.trace (m.spi_mem c).handle (m.spi_mem c).config
        let m := m.call (.SPI_InitChannel (m.spi_mem c).handle (m.spi_mem c).config)
        ret (set_status_dyn status (janet_wrap_boolean (status == FT_OK)) m)

def cfun_spi_closechannel : CFun := fun T argc argv m =>
  if !janet_fixarity argc 1 then (.panic "arity mismatch", m) else
  match janet_getabstract argv 0 channel_type with
  | none => (.panic "bad slot #0, expected spi/channel", m)
  | some c =>
    if NULL = c ∨ NULL = (m.spi_mem c).handle then
      ret (set_status_dyn FT_DEVICE_NOT_OPENED (janet_wrap_boolean false) m)
    else
    let status := T.SPI_CloseChannel m.trace (m.spi_mem c).handle
    let m := m.call (.SPI_CloseChannel (m.spi_mem c).handle)
    let m := m.set_spi c { m.spi_mem c with handle := NULL }
    ret (set_status_dyn status (janet_wrap_boolean (status == FT_OK)) m)

def cfun_spi_deviceread : CFun := fun T argc argv m =>
  if !janet_fixarity argc 3 then (.panic "arity mismatch", m) else
  match janet_getuinteger argv 1 with
  | none => (.panic "bad slot #1, expected 32 bit unsigned integer", m)
  | some size =>
    if size < 1 then (.panic "read size must be greater than 0", m) else
    match janet_getbuffer argv 2 with
    | none => (.panic "bad slot #2, expected buffer", m)
    | some buffer =>
      if !janet_buffer_extra (m.buf_mem buffer).length size then (.panic "buffer overflow", m)
      else
      match janet_getabstract argv 0 channel_type with
      | none => (.panic "bad slot #0, expected spi/channel", m)
      | some c =>
        if NULL = (m.spi_mem c).handle then
          ret (set_status_dyn FT_DEVICE_NOT_OPENED (janet_wrap_integer 0) m)
        else
        let r := T.SPI_Read m.trace (m.spi_mem c).handle size (m.spi_mem c).read_options
        let status := r.1
        let readsz := r.2.1
        let m := m.call (.SPI_Read (m.spi_mem c).handle size (m.spi_mem c).read_options)
        let m := if readsz > 0 then m.buffer_grow buffer readsz r.2.2 else m
        ret (set_status_dyn status (janet_wrap_integer readsz) m)

def cfun_spi_devicewrite : CFun := fun T argc argv m =>
  if !janet_fixarity argc 3 then (.panic "arity mismatch", m) else
  match janet_getinteger argv 1 with
  | none => (.panic "bad slot #1, expected 32 bit signed integer", m)
  | some s =>
    let size := toUInt32 s
    if size ≤ 0 then (.panic "buffer size %d is out of range. Expected > 0", m) else
    match janet_getabstract argv 0 channel_type with
    | none => (.panic "bad slot #0, expected spi/channel", m)
    | some c =>
      if NULL = (m.spi_mem c).handle then
        ret (set_status_dyn FT_DEVICE_NOT_OPENED (janet_wrap_integer 0) m)
      else
      let send := fun (buf : List Nat) =>
        let r := T.SPI_Write m.trace (m.spi_mem c).handle buf size (m.spi_mem c).write_options
        let m := m.call (.SPI_Write (m.spi_mem c).handle buf size (m.spi_mem c).write_options)
        ret (set_status_dyn r.1 (janet_wrap_integer r.2) m)
      if janet_checktype (argv 2) JANET_NUMBER then
        if size > 1 then (.panic "expected size == 1 when passed an integer, got %d", m) else
        match janet_getuinteger argv 2 with
        | none => (.panic "bad slot #2, expected 32 bit unsigned integer", m)
        | some b => send [toUInt8 b]
      else
        match janet_getbuffer argv 2 with
        | none => (.panic "bad slot #2, expected buffer", m)
        | some buffer =>
          if size > (m.buf_mem buffer).length then
            (.panic "write size %d larger than buffer size %d", m)
          else send (m.buf_mem buffer)

def cfun_spi_readwrite : CFun := fun T argc argv m =>
  if !janet_fixarity argc 4 then (.panic "arity mismatch", m) else
  match janet_getabstract argv 0 channel_type with
  | none => (.panic "bad slot #0, expected spi/channel", m)
  | some c =>
    if NULL = (m.spi_mem c).handle then
      ret (set_status_dyn FT_DEVICE_NOT_OPENED (janet_wrap_integer 0) m)
    else
    match janet_getuinteger argv 1 with
    | none => (.panic "bad slot #1, expected 32 bit unsigned integer", m)
    | some size =>
      if size ≤ 0 then (.panic "buffer size %d is out of range. Expected > 0", m) else
      match janet_getbuffer argv 2 with
      | none => (.panic "bad slot #2, expected buffer", m)
      | some sendbuf =>
        if size < (m.buf_mem sendbuf).length then
          (.panic "write size %d larger than sendbuf size %d", m)
        else
        match janet_getbuffer argv 3 with
        | none => (.panic "bad slot #3, expected buffer", m)
        | some recvbuf =>
          if !janet_buffer_extra (m.buf_mem recvbuf).length size then
            (.panic "buffer overflow", m)
          else
          let r := T.SPI_ReadWrite m.trace (m.spi_mem c).handle (m.buf_mem sendbuf) size
            (m.spi_mem c).write_options
          let status := r.1
          let transfer_sz := r.2.1
          let m := m.call (.SPI_ReadWrite (m.spi_mem c).handle (m.buf_mem sendbuf) size
            (m.spi_mem c).write_options)
          let m := if transfer_sz > 0 then m.buffer_grow recvbuf transfer_sz r.2.2 else m
          ret (set_status_dyn status (janet_wrap_integer transfer_sz) m)

def cfun_spi_is_busy : CFun := fun T argc argv m =>
  if !janet_fixarity argc 1 then (.panic "arity mismatch", m) else
  match janet_getabstract argv 0 channel_type with
  | none => (.panic "bad slot #0, expected spi/channel", m)
  | some c =>
    if NULL = (m.spi_mem c).handle then
      ret (set_status_dyn FT_DEVICE_NOT_OPENED (janet_wrap_integer 0) m)
    else
    let r := T.SPI_IsBusy m.trace (m.spi_mem c).handle
    let m := m.call (.SPI_IsBusy (m.spi_mem c).handle)
    ret (set_status_dyn r.1 (janet_wrap_boolean r.2) m)

def cfun_spi_gpio_write : CFun := fun T argc argv m =>
  if !janet_fixarity argc 3 then (.panic "arity mismatch", m) else
  match janet_getinteger argv 1 with
  | none => (.panic "bad slot #1, expected 32 bit signed integer", m)
  | some d =>
    let dir := toUInt8 d
    match janet_getinteger argv 2 with
    | none => (.panic "bad slot #2, expected 32 bit signed integer", m)
    | some v =>
      let value := toUInt8 v
      match janet_getabstract argv 0 channel_type with
      | none => (.panic "bad slot #0, expected spi/channel", m)
      | some c =>
        if NULL = (m.spi_mem c).handle then
          ret (set_status_dyn FT_DEVICE_NOT_OPENED janet_wrap_nil m)
        else
        let status := T.FT_WriteGpio m.trace (m.spi_mem c).handle dir value
        let m := m.call (.FT_WriteGpio (m.spi_mem c).handle dir value)
        ret (set_status_dyn status janet_wrap_nil m)

def cfun_spi_gpio_read : CFun := fun T argc argv m =>
  if !janet_fixarity argc 1 then (.panic "arity mismatch", m) else
  match janet_getabstract argv 0 channel_type with
  | none => (.panic "bad slot #0, expected spi/channel", m)
  | some c =>
    if NULL = (m.spi_mem c).handle then
      ret (set_status_dyn FT_DEVICE_NOT_OPENED janet_wrap_nil m)
    else
    let r := T.FT_ReadGpio m.trace (m.spi_mem c).handle
    let m := m.call (.FT_ReadGpio (m.spi_mem c).handle)
    ret (set_status_dyn r.1 (janet_wrap_integer (toUInt8 r.2)) m)

/-- The table `channel_methods` of `spi.c`. -/
def channel_methods : List (String × CFun) :=
  [ ("err", cfun_spi_get_err),
    ("info", cfun_spi_getchannelinfo),
    ("id", cfun_spi_get_id),
    ("is-open", cfun_spi_is_open),
    ("is-busy", cfun_spi_is_busy),
    ("close", cfun_spi_closechannel),
    ("init", cfun_spi_initchannel),
    ("read", cfun_spi_deviceread),
    ("write", cfun_spi_devicewrite),
    ("readwrite", cfun_spi_readwrite),
    ("read-opt", cfun_spi_set_read_options),
    ("write-opt", cfun_spi_set_write_options),
    ("config", cfun_spi_set_config_options) ]

/-- The finalizer `channel_gc` of `spi.c`, run on the object at address `p`. -/
def channel_gc (T : Transport) (p : Nat) (m : Machine) : Int × Machine :=
  let c := p
  if c ≠ NULL ∧ (m.spi_mem c).handle ≠ NULL then
    let status := T.SPI_CloseChannel m.trace (m.spi_mem c).handle
    let m := m.call (.SPI_CloseChannel (m.spi_mem c).handle)
    let m := m.set_spi c { m.spi_mem c with handle := NULL }
    (0, (set_status_dyn status janet_wrap_nil m).2)
  else
    (0, (set_status_dyn FT_DEVICE_NOT_OPENED janet_wrap_nil m).2)

/-- The functions registered by `spi_register`. -/
def cfuns : List (String × CFun) :=
  [ ("spi/err", cfun_spi_get_err),
    ("spi/channels", cfun_spi_channelcount),
    ("spi/info", cfun_spi_getchannelinfo),
    ("spi/find-by", cfun_spi_find),
    ("spi/id", cfun_spi_get_id),
    ("spi/read-opt", cfun_spi_set_read_options),
    ("spi/write-opt", cfun_spi_set_write_options),
    ("spi/config", cfun_spi_set_config_options),
    ("spi/open", cfun_spi_openchannel),
    ("spi/is-open", cfun_spi_is_open),
    ("spi/is-busy", cfun_spi_is_busy),
    ("spi/init", cfun_spi_initchannel),
    ("spi/close", cfun_spi_closechannel),
    ("spi/read", cfun_spi_deviceread),
    ("spi/write", cfun_spi_devicewrite),
    ("spi/readwrite", cfun_spi_readwrite),
    ("spi/gpio-read", cfun_spi_gpio_read),
    ("spi/gpio-write", cfun_spi_gpio_write) ]

end SPI

/-! ## Sequences of calls -/

/-- One call of a registered function: the name it is registered under and
the arguments it receives. -/
structure Op where
  name : String
  argc : Nat
  argv : Nat → Janet

/-- Is the call a call of the function registered as `name` with exactly one argument? -/
def Op.isCall1 (name : String) (op : Op) : Bool := op.name == name && op.argc == 1

/-- Run one call of a function of `i2c_register` (an unknown name runs nothing);
a panic is caught by the caller and the machine state is kept. -/
def I2C.step (T : Transport) (m : Machine) (op : Op) : Machine :=
  match I2C.cfuns.lookup op.name with
  | some f => (f T op.argc op.argv m).2
  | none => m

/-- Run a sequence of calls of functions of `i2c_register`. -/
def I2C.run (T : Transport) (ops : List Op) (m : Machine) : Machine :=
  ops.foldl (I2C.step T) m

/-- Run one call of a function of `spi_register` (an unknown name runs nothing);
a panic is caught by the caller and the machine state is kept. -/
def SPI.step (T : Transport) (m : Machine) (op : Op) : Machine :=
  match SPI.cfuns.lookup op.name with
  | some f => (f T op.argc op.argv m).2
  | none => m

/-- Run a sequence of calls of functions of `spi_register`. -/
def SPI.run (T : Transport) (ops : List Op) (m : Machine) : Machine :=
  ops.foldl (SPI.step T) m

def Call.isClose : Call → Bool
  | .I2C_CloseChannel _ => true
  | .SPI_CloseChannel _ => true
  | _ => false

/-- The close calls of a trace, in order. -/
def closeCalls (tr : List Call) : List Call := tr.filter Call.isClose

/-- Between `m` and `m'` the native handle of the `i2c/channel` object at `p`
and the close calls of the trace stayed as they were. -/
def I2C.Kept (p : Nat) (m m' : Machine) : Prop :=
  (m'.i2c_mem p).handle = (m.i2c_mem p).handle ∧ closeCalls m'.trace = closeCalls m.trace

/-- Between `m` and `m'` the native handle of the `spi/channel` object at `p`
and the close calls of the trace stayed as they were. -/
def SPI.Kept (p : Nat) (m m' : Machine) : Prop :=
  (m'.spi_mem p).handle = (m.spi_mem p).handle ∧ closeCalls m'.trace = closeCalls m.trace

/-! ## A concrete machine

A transport that answers every call with `FT_OK`, hands out the native handle
`7`, reports two channels and delivers the bytes `100, 101, ...`; and a
machine whose channel objects hold the native handle `7` except the objects at
address `2`, which are closed, and whose buffers hold `[1, 2, 3]`. -/

def demoInfo : FT_DEVICE_LIST_INFO_NODE :=
  { Flags := 1, Type_ := 8, ID := 11, LocId := 22, SerialNumber := "FT1", Description := "cable",
    ftHandle := 7 }

def demoTransport : Transport where
  I2C_GetNumChannels := fun _ => (FT_OK, 2)
  I2C_GetChannelInfo := fun _ _ => (FT_OK, demoInfo)
  I2C_OpenChannel := fun _ _ => (FT_OK, 7)
  I2C_InitChannel := fun _ _ _ => FT_OK
  I2C_CloseChannel := fun _ _ => FT_OK
  I2C_DeviceRead := fun _ _ _ size _ => (FT_OK, size, fun i => 100 + i)
  I2C_DeviceWrite := fun _ _ _ size _ _ => (FT_OK, size)
  SPI_GetNumChannels := fun _ => (FT_OK, 2)
  SPI_GetChannelInfo := fun _ _ => (FT_OK, demoInfo)
  SPI_OpenChannel := fun _ _ => (FT_OK, 7)
  SPI_InitChannel := fun _ _ _ => FT_OK
  SPI_CloseChannel := fun _ _ => FT_OK
  SPI_Read := fun _ _ size _ => (FT_OK, size, fun i => 100 + i)
  SPI_Write := fun _ _ _ size _ => (FT_OK, size)
  SPI_ReadWrite := fun _ _ _ size _ => (FT_OK, size, fun i => 100 + i)
  SPI_IsBusy := fun _ _ => (FT_OK, false)
  FT_WriteGpio := fun _ _ _ _ => FT_OK
  FT_ReadGpio := fun _ _ => (FT_OK, 5)
  FT_FLAGS_OPENED := 1
  I2C_TRANSFER_OPTIONS_START_BIT := 1
  I2C_TRANSFER_OPTIONS_STOP_BIT := 2
  I2C_TRANSFER_OPTIONS_BREAK_ON_NACK := 4
  I2C_TRANSFER_OPTIONS_NACK_LAST_BYTE := 8
  I2C_TRANSFER_OPTIONS_FAST_TRANSFER_BITS := 32
  I2C_TRANSFER_OPTIONS_FAST_TRANSFER_BYTES := 16
  I2C_TRANSFER_OPTIONS_NO_ADDRESS := 64
  I2C_DISABLE_3PHASE_CLOCKING := 1
  SPI_TRANSFER_OPTIONS_SIZE_IN_BITS := 1
  SPI_TRANSFER_OPTIONS_CHIPSELECT_ENABLE := 2
  SPI_CONFIG_OPTION_MODE0 := 0
  SPI_CONFIG_OPTION_MODE1 := 1
  SPI_CONFIG_OPTION_MODE2 := 2
  SPI_CONFIG_OPTION_MODE3 := 3
  SPI_CONFIG_OPTION_CS_DBUS3 := 0
  SPI_CONFIG_OPTION_CS_DBUS4 := 4
  SPI_CONFIG_OPTION_CS_DBUS5 := 8
  SPI_CONFIG_OPTION_CS_DBUS6 := 12
  SPI_CONFIG_OPTION_CS_DBUS7 := 16
  SPI_CONFIG_OPTION_CS_ACTIVELOW := 32

def demoMachine : Machine where
  trace := []
  dyn := fun _ => .nil
  i2c_mem := fun p => ⟨1, 11, if p = 2 then NULL else 7, ⟨0, 0, 0⟩, 0, 0⟩
  spi_mem := fun p => ⟨1, 11, if p = 2 then NULL else 7, ⟨0, 0, 0⟩, 0, 0⟩
  buf_mem := fun _ => [1, 2, 3]
  brk := 2

/-- The argument window of a call with the arguments `l`; the stack past them holds nil. -/
def argvOf (l : List Janet) : Nat → Janet := fun i => l.getD i .nil

/-- A read, a close and a write on the `i2c/channel` object at address 3. -/
def demoI2cOps : List Op :=
  [ ⟨"i2c/read", 4, argvOf [.abstract I2C.channel_type 3, .number 80, .number 2, .buffer 0]⟩,
    ⟨"i2c/close", 1, argvOf [.abstract I2C.channel_type 3]⟩,
    ⟨"i2c/write", 4, argvOf [.abstract I2C.channel_type 3, .number 80, .number 1, .number 5]⟩ ]

/-- A read, a close and a write on the `spi/channel` object at address 3. -/
def demoSpiOps : List Op :=
  [ ⟨"spi/read", 3, argvOf [.abstract SPI.channel_type 3, .number 2, .buffer 0]⟩,
    ⟨"spi/close", 1, argvOf [.abstract SPI.channel_type 3]⟩,
    ⟨"spi/write", 3, argvOf [.abstract SPI.channel_type 3, .number 1, .number 5]⟩ ]

/-! ## Token lists -/

/-- The tokens that the branches of the loop body of `transfer_option_keywords`
test for when the direction is `rw`. -/
def I2C.inVocabulary (rw : Nat) (t : String) : Prop :=
  t = "start" ∨ t = "stop" ∨ t = "fast-transfer-bits" ∨ t = "fast-transfer-bytes" ∨
  t = "no-address" ∨ (rw = I2C.WRITE_TRANSFER_OPT ∧ t = "break-on-nak") ∨
  (rw = I2C.READ_TRANSFER_OPT ∧ t = "nak-last-byte")

/-- Compose the bits of a list of tokens, starting from `o`: `bit` gives the
bit of an accepted token and none for a rejected one, `err` is the message of
the panic. -/
def composeBits (bit : String → Option Nat) (err : String) :
    List String → Nat → Except String Nat
  | [], o => .ok o
  | t :: ts, o =>
    match bit t with
    | some b => composeBits bit err ts (o ||| b)
    | none => .error err

/-- The bitwise or of the bits of the tokens of a list. -/
def orBits (bit : String → Option Nat) (l : List String) : Nat :=
  l.foldr (fun t acc => (bit t).getD 0 ||| acc) 0

/-- The branch that the loop body of `transfer_option_keywords` takes on a keyword. -/
def I2C.transfer_option_bit (T : Transport) (rw : Nat) (opt : String) : Option Nat :=
  if opt = "start" then some T.I2C_TRANSFER_OPTIONS_START_BIT
  else if opt = "stop" then some T.I2C_TRANSFER_OPTIONS_STOP_BIT
  else if rw = I2C.WRITE_TRANSFER_OPT ∧ opt = "break-on-nak" then
    some T.I2C_TRANSFER_OPTIONS_BREAK_ON_NACK
  else if rw = I2C.READ_TRANSFER_OPT ∧ opt = "nak-last-byte" then
    some T.I2C_TRANSFER_OPTIONS_NACK_LAST_BYTE
  else if opt = "fast-transfer-bits" then some T.I2C_TRANSFER_OPTIONS_FAST_TRANSFER_BITS
  else if opt = "fast-transfer-bytes" then some T.I2C_TRANSFER_OPTIONS_FAST_TRANSFER_BYTES
  else if opt = "no-address" then some T.I2C_TRANSFER_OPTIONS_NO_ADDRESS
  else none

/-- The branch that the loop body of `cfun_i2c_set_config_options` takes on a keyword. -/
def I2C.config_option_bit (T : Transport) (opt : String) : Option Nat :=
  if opt = "disable-3phase-clocking" then some T.I2C_DISABLE_3PHASE_CLOCKING
  else if opt = "enable-drive-only" then some I2C.I2C_ENABLE_DRIVE_ONLY_ZERO
  else none

/-- The branch that the loop body of `spi_transfer_option_keywords` takes on a keyword. -/
def SPI.spi_transfer_option_bit (T : Transport) (opt : String) : Option Nat :=
  if opt = "size-in-bits" then some T.SPI_TRANSFER_OPTIONS_SIZE_IN_BITS
  else if opt = "cs" then some T.SPI_TRANSFER_OPTIONS_CHIPSELECT_ENABLE
  else none

/-- The branch that the loop body of `cfun_spi_set_config_options` takes on a keyword. -/
def SPI.config_option_bit (T : Transport) (opt : String) : Option Nat :=
  if opt = "mode0" then some T.SPI_CONFIG_OPTION_MODE0
  else if opt = "mode1" then some T.SPI_CONFIG_OPTION_MODE1
  else if opt = "mode2" then some T.SPI_CONFIG_OPTION_MODE2
  else if opt = "mode3" then some T.SPI_CONFIG_OPTION_MODE3
  else if opt = "bus3" then some T.SPI_CONFIG_OPTION_CS_DBUS3
  else if opt = "bus4" then some T.SPI_CONFIG_OPTION_CS_DBUS4
  else if opt = "bus5" then some T.SPI_CONFIG_OPTION_CS_DBUS5
  else if opt = "bus6" then some T.SPI_CONFIG_OPTION_CS_DBUS6
  else if opt = "bus7" then some T.SPI_CONFIG_OPTION_CS_DBUS7
  else if opt = "active-low" then some T.SPI_CONFIG_OPTION_CS_ACTIVELOW
  else none

/-- The argument window of a call with the handle `x` and the keyword tokens `l`. -/
def tokenArgv (x : Janet) (l : List String) : Nat → Janet := argvOf (x :: l.map .keyword)

/-- Between `m` and `m'` the dynamic binding `k` stayed as it was. -/
def DynKept (k : String) (m m' : Machine) : Prop := m'.dyn k = m.dyn k

/-! ## The scan of `find` -/

/-- The test of the loop body of `cfun_i2c_find` on the descriptor of a channel: does the
scan stop with `found`? -/
def I2C.find_test (filter id : Nat) (str : String) (chaninfo : FT_DEVICE_LIST_INFO_NODE) : Bool :=
  if filter = I2C.KW_ID then chaninfo.ID == id
  else if filter = I2C.KW_LOCID then chaninfo.LocId == id
  else if filter = I2C.KW_TYPE then chaninfo.Type_ == id
  else if filter = I2C.KW_SERIAL then chaninfo.SerialNumber == str
  else if filter = I2C.KW_DESC then chaninfo.Description == str
  else true

/-- The trace when the scan of `cfun_i2c_find`, started at the trace `tr`, has queried
the channels before `i`. -/
def I2C.scan_trace (tr : List Call) (i : Nat) : List Call :=
  tr ++ (List.range i).map Call.I2C_GetChannelInfo

/-- The test of the loop body of `cfun_spi_find` on the descriptor of a channel: does the
scan stop with `found`? -/
def SPI.find_test (filter id : Nat) (str : String) (chaninfo : FT_DEVICE_LIST_INFO_NODE) : Bool :=
  if filter = SPI.KW_ID then chaninfo.ID == id
  else if filter = SPI.KW_LOCID then chaninfo.LocId == id
  else if filter = SPI.KW_TYPE then chaninfo.Type_ == id
  else if filter = SPI.KW_SERIAL then chaninfo.SerialNumber == str
  else if filter = SPI.KW_DESC then chaninfo.Description == str
  else true

/-- The trace when the scan of `cfun_spi_find`, started at the trace `tr`, has queried
the channels before `i`. -/
def SPI.scan_trace (tr : List Call) (i : Nat) : List Call :=
  tr ++ (List.range i).map Call.SPI_GetChannelInfo

/-- The predicate of `find` in the words of the contract: the descriptor field that
the keyword names equals the given value. -/
def descriptorMatches (kw : String) (value : Janet) (d : FT_DEVICE_LIST_INFO_NODE) : Bool :=
  if kw = "id" then value == .number d.ID
  else if kw = "locid" then value == .number d.LocId
  else if kw = "type" then value == .number d.Type_
  else if kw = "serial" then value == .string d.SerialNumber
  else if kw = "description" then value == .string d.Description
  else false

/-- The arguments of `find` are well typed: one of the five keywords, with a number (an
`int32_t` that is not negative) for `id`, `locid` and `type` and a string for `serial` and
`description`. -/
def findArgs (kw : String) (value : Janet) : Prop :=
  ((kw = "id" ∨ kw = "locid" ∨ kw = "type") ∧
    ∃ v : Nat, v ≤ 2147483647 ∧ value = .number v) ∨
  ((kw = "serial" ∨ kw = "description") ∧ ∃ s : String, value = .string s)

/-- A transport like `demoTransport` whose two channels have the serials `FT1` and
`FT2` and the unique ids 11 and 12. -/
def twoChannelTransport : Transport :=
  { demoTransport with
    I2C_GetChannelInfo := fun _ i =>
      (FT_OK, { demoInfo with SerialNumber := if i = 0 then "FT1" else "FT2", ID := 11 + i })
    SPI_GetChannelInfo := fun _ i =>
      (FT_OK, { demoInfo with SerialNumber := if i = 0 then "FT1" else "FT2", ID := 11 + i }) }

/-- A transport like `demoTransport` whose info query fails with an i/o error for the
first of its two channels. -/
def failingInfoTransport : Transport :=
  { demoTransport with
    I2C_GetChannelInfo := fun _ i => (if i = 0 then .FT_IO_ERROR else FT_OK, demoInfo)
    SPI_GetChannelInfo := fun _ i => (if i = 0 then .FT_IO_ERROR else FT_OK, demoInfo) }

/-! ## Transports that fail -/

/-- A transport like `demoTransport` whose open calls fail with device-not-found. -/
def failingOpenTransport : Transport :=
  { demoTransport with
    I2C_OpenChannel := fun _ _ => (FT_DEVICE_NOT_FOUND, 0)
    SPI_OpenChannel := fun _ _ => (FT_DEVICE_NOT_FOUND, 0) }

/-- A transport like `demoTransport` whose init calls fail with an i/o error. -/
def failingInitTransport : Transport :=
  { demoTransport with
    I2C_InitChannel := fun _ _ _ => .FT_IO_ERROR
    SPI_InitChannel := fun _ _ _ => .FT_IO_ERROR }

/-! ## Helper lemmas -/

theorem ft_status_name_invalid_handle :
    ft_status_name FT_INVALID_HANDLE = "invalid-handle" := rfl

theorem ft_status_name_not_opened :
    ft_status_name FT_DEVICE_NOT_OPENED = "device-not-opened" := rfl

theorem toInt32_small (n : Nat) (h : n ≤ 2147483647) : toInt32 (n : Int) = n := by
  simp only [toInt32]; omega

/-- The statement `if (readsz > 0) buffer->count += readsz` appends `readsz`
bytes in both branches and touches nothing else. -/
theorem grow_or_keep (m : Machine) (b n : Nat) (dest : Nat → Nat) :
    (if n > 0 then m.buffer_grow b n dest else m).buf_mem b
      = m.buf_mem b ++ (List.range n).map dest ∧
    (if n > 0 then m.buffer_grow b n dest else m).trace = m.trace ∧
    (if n > 0 then m.buffer_grow b n dest else m).dyn = m.dyn := by
  by_cases hn : n > 0
  · simp [hn, Machine.buffer_grow]
  · have : n = 0 := by omega
    subst this
    simp

/-- The path of `cfun_i2c_deviceread` on an open handle when every argument check passes. -/
theorem i2c_deviceread_open (T : Transport) (m : Machine) (argv : Nat → Janet) (c b : Nat)
    (a s : Nat)
    (h0 : argv 0 = .abstract I2C.channel_type c) (hh : (m.i2c_mem c).handle ≠ NULL)
    (h1 : argv 1 = .number a) (ha : a ≤ 127)
    (h2 : argv 2 = .number s) (hs : 1 ≤ s)
    (h3 : argv 3 = .buffer b) (hroom : (m.buf_mem b).length + s ≤ 2147483647) :
    I2C.cfun_i2c_deviceread T 4 argv m =
      (let r := T.I2C_DeviceRead m.trace (m.i2c_mem c).handle a s (m.i2c_mem c).read_options
       let m1 := m.call (.I2C_DeviceRead (m.i2c_mem c).handle a s (m.i2c_mem c).read_options)
       ret (I2C.set_status_dyn r.1 (janet_wrap_integer r.2.1)
         (if r.2.1 > 0 then m1.buffer_grow b r.2.1 r.2.2 else m1))) := by
  have e1 : ¬ (NULL = (m.i2c_mem c).handle) := fun h => hh h.symm
  have r1 : toInt32 (s : Int) + ((m.buf_mem b).length : Int) ≤ INT32_MAX := by
    simp only [toInt32, INT32_MAX]; omega
  have a1 : ¬ (127 < a) := by omega
  have a2 : ¬ (s < 1) := by omega
  have a4 : (a : Int) ≤ 4294967295 := by omega
  have a5 : (s : Int) ≤ 4294967295 := by omega
  simp only [I2C.cfun_i2c_deviceread, janet_fixarity, janet_getuinteger, janet_getbuffer,
    janet_getabstract, janet_buffer_extra, h0, h1, h2, h3]
  simp [e1, a1, a2, a4, a5, r1]

/-- The path of `cfun_spi_deviceread` on an open handle when every argument check passes. -/
theorem spi_deviceread_open (T : Transport) (m : Machine) (argv : Nat → Janet) (c b : Nat)
    (s : Nat)
    (h0 : argv 0 = .abstract SPI.channel_type c) (hh : (m.spi_mem c).handle ≠ NULL)
    (h1 : argv 1 = .number s) (hs : 1 ≤ s)
    (h2 : argv 2 = .buffer b) (hroom : (m.buf_mem b).length + s ≤ 2147483647) :
    SPI.cfun_spi_deviceread T 3 argv m =
      (let r := T.SPI_Read m.trace (m.spi_mem c).handle s (m.spi_mem c).read_options
       let m1 := m.call (.SPI_Read (m.spi_mem c).handle s (m.spi_mem c).read_options)
       ret (SPI.set_status_dyn r.1 (janet_wrap_integer r.2.1)
         (if r.2.1 > 0 then m1.buffer_grow b r.2.1 r.2.2 else m1))) := by
  have e1 : ¬ (NULL = (m.spi_mem c).handle) := fun h => hh h.symm
  have r1 : toInt32 (s : Int) + ((m.buf_mem b).length : Int) ≤ INT32_MAX := by
    simp only [toInt32, INT32_MAX]; omega
  have a2 : ¬ (s < 1) := by omega
  have a5 : (s : Int) ≤ 4294967295 := by omega
  simp only [SPI.cfun_spi_deviceread, janet_fixarity, janet_getuinteger, janet_getbuffer,
    janet_getabstract, janet_buffer_extra, h0, h1, h2]
  simp [e1, a2, a5, r1]

/-! ## Close -/

/-- C1: for both families, `close` on a handle whose native handle is non-null
calls the transport close exactly once (the trace grows by that one call),
leaves the native handle null whatever status the transport reported, returns
true exactly when that status is ok, and a following last-status query of the
family answers with the keyword of that status. -/
theorem close_releases_native_handle (T : Transport) (m : Machine)
    (argv : Nat → Janet) (c : Nat) (argv' : Nat → Janet) (c' : Nat)
    (hc : c ≠ NULL) (h0 : argv 0 = .abstract I2C.channel_type c)
    (hh : (m.i2c_mem c).handle ≠ NULL)
    (hc' : c' ≠ NULL) (h0' : argv' 0 = .abstract SPI.channel_type c')
    (hh' : (m.spi_mem c').handle ≠ NULL) :
    ((I2C.cfun_i2c_closechannel T 1 argv m).2.trace
        = m.trace ++ [Call.I2C_CloseChannel (m.i2c_mem c).handle] ∧
      ((I2C.cfun_i2c_closechannel T 1 argv m).2.i2c_mem c).handle = NULL ∧
      (I2C.cfun_i2c_closechannel T 1 argv m).1
        = .ret (.boolean (decide (T.I2C_CloseChannel m.trace (m.i2c_mem c).handle = FT_OK))) ∧
      (I2C.cfun_i2c_get_err T 0 argv (I2C.cfun_i2c_closechannel T 1 argv m).2).1
        = .ret (.keyword (ft_status_name
            (T.I2C_CloseChannel m.trace (m.i2c_mem c).handle)))) ∧
    ((SPI.cfun_spi_closechannel T 1 argv' m).2.trace
        = m.trace ++ [Call.SPI_CloseChannel (m.spi_mem c').handle] ∧
      ((SPI.cfun_spi_closechannel T 1 argv' m).2.spi_mem c').handle = NULL ∧
      (SPI.cfun_spi_closechannel T 1 argv' m).1
        = .ret (.boolean (decide (T.SPI_CloseChannel m.trace (m.spi_mem c').handle = FT_OK))) ∧
      (SPI.cfun_spi_get_err T 0 argv' (SPI.cfun_spi_closechannel T 1 argv' m).2).1
        = .ret (.keyword (ft_status_name
            (T.SPI_CloseChannel m.trace (m.spi_mem c').handle)))) := by
  have e1 : ¬ (NULL = c) := fun h => hc h.symm
  have e2 : ¬ (NULL = (m.i2c_mem c).handle) := fun h => hh h.symm
  have e3 : ¬ (NULL = c') := fun h => hc' h.symm
  have e4 : ¬ (NULL = (m.spi_mem c').handle) := fun h => hh' h.symm
  refine ⟨?_, ?_⟩
  · simp [I2C.cfun_i2c_closechannel, I2C.cfun_i2c_get_err, janet_fixarity, janet_arity,
      janet_getabstract, h0, e1, e2, ret, I2C.set_status_dyn, janet_setdyn, janet_dyn,
      Machine.call, Machine.set_i2c, janet_wrap_boolean, janet_ckeywordv]
    rfl
  · simp [SPI.cfun_spi_closechannel, SPI.cfun_spi_get_err, janet_fixarity, janet_arity,
      janet_getabstract, h0', e3, e4, ret, SPI.set_status_dyn, janet_setdyn, janet_dyn,
      Machine.call, Machine.set_spi, janet_wrap_boolean, janet_ckeywordv]
    rfl

/-- Witness of C1 on the concrete machine: closing the open channels at address 1. -/
theorem close_releases_native_handle_witness :
    (I2C.cfun_i2c_closechannel demoTransport 1 (argvOf [.abstract I2C.channel_type 1])
        demoMachine).2.trace = demoMachine.trace ++ [Call.I2C_CloseChannel 7] ∧
    ((SPI.cfun_spi_closechannel demoTransport 1 (argvOf [.abstract SPI.channel_type 1])
        demoMachine).2.spi_mem 1).handle = NULL :=
  ⟨(close_releases_native_handle demoTransport demoMachine
      (argvOf [.abstract I2C.channel_type 1]) 1 (argvOf [.abstract SPI.channel_type 1]) 1
      (by decide) (by decide) (by decide) (by decide) (by decide) (by decide)).1.1,
   (close_releases_native_handle demoTransport demoMachine
      (argvOf [.abstract I2C.channel_type 1]) 1 (argvOf [.abstract SPI.channel_type 1]) 1
      (by decide) (by decide) (by decide) (by decide) (by decide) (by decide)).2.2.1⟩

/-- C2: for both families and every handle, open or already closed, the second
of two `close` calls in a row returns false, leaves device-not-opened as the
last status, changes no channel object (the native handle is null after the
first call and stays null), makes no transport call, and over the two calls
the transport close is called at most once. -/
theorem close_idempotent (T : Transport) (m : Machine) (argv : Nat → Janet) (c : Nat)
    (argv' : Nat → Janet) (c' : Nat)
    (hc : c ≠ NULL) (h0 : argv 0 = .abstract I2C.channel_type c)
    (hc' : c' ≠ NULL) (h0' : argv' 0 = .abstract SPI.channel_type c') :
    ((I2C.cfun_i2c_closechannel T 1 argv (I2C.cfun_i2c_closechannel T 1 argv m).2).1
        = .ret (.boolean false) ∧
      (I2C.cfun_i2c_get_err T 0 argv
          (I2C.cfun_i2c_closechannel T 1 argv (I2C.cfun_i2c_closechannel T 1 argv m).2).2).1
        = .ret (.keyword "device-not-opened") ∧
      (I2C.cfun_i2c_closechannel T 1 argv (I2C.cfun_i2c_closechannel T 1 argv m).2).2.i2c_mem
        = (I2C.cfun_i2c_closechannel T 1 argv m).2.i2c_mem ∧
      ((I2C.cfun_i2c_closechannel T 1 argv m).2.i2c_mem c).handle = NULL ∧
      (I2C.cfun_i2c_closechannel T 1 argv (I2C.cfun_i2c_closechannel T 1 argv m).2).2.trace
        = (I2C.cfun_i2c_closechannel T 1 argv m).2.trace ∧
      ((I2C.cfun_i2c_closechannel T 1 argv (I2C.cfun_i2c_closechannel T 1 argv m).2).2.trace
          = m.trace ∨
        (I2C.cfun_i2c_closechannel T 1 argv (I2C.cfun_i2c_closechannel T 1 argv m).2).2.trace
          = m.trace ++ [Call.I2C_CloseChannel (m.i2c_mem c).handle])) ∧
    ((SPI.cfun_spi_closechannel T 1 argv' (SPI.cfun_spi_closechannel T 1 argv' m).2).1
        = .ret (.boolean false) ∧
      (SPI.cfun_spi_get_err T 0 argv'
          (SPI.cfun_spi_closechannel T 1 argv' (SPI.cfun_spi_closechannel T 1 argv' m).2).2).1
        = .ret (.keyword "device-not-opened") ∧
      (SPI.cfun_spi_closechannel T 1 argv' (SPI.cfun_spi_closechannel T 1 argv' m).2).2.spi_mem
        = (SPI.cfun_spi_closechannel T 1 argv' m).2.spi_mem ∧
      ((SPI.cfun_spi_closechannel T 1 argv' m).2.spi_mem c').handle = NULL ∧
      (SPI.cfun_spi_closechannel T 1 argv' (SPI.cfun_spi_closechannel T 1 argv' m).2).2.trace
        = (SPI.cfun_spi_closechannel T 1 argv' m).2.trace ∧
      ((SPI.cfun_spi_closechannel T 1 argv' (SPI.cfun_spi_closechannel T 1 argv' m).2).2.trace
          = m.trace ∨
        (SPI.cfun_spi_closechannel T 1 argv' (SPI.cfun_spi_closechannel T 1 argv' m).2).2.trace
          = m.trace ++ [Call.SPI_CloseChannel (m.spi_mem c').handle])) := by
  have e1 : ¬ (NULL = c) := fun h => hc h.symm
  have e3 : ¬ (NULL = c') := fun h => hc' h.symm
  refine ⟨?_, ?_⟩
  · by_cases hh : NULL = (m.i2c_mem c).handle
    · simp [I2C.cfun_i2c_closechannel, I2C.cfun_i2c_get_err, janet_fixarity, janet_arity,
        janet_getabstract, h0, e1, hh.symm, ret, I2C.set_status_dyn, janet_setdyn, janet_dyn,
        Machine.call, Machine.set_i2c, janet_wrap_boolean, janet_ckeywordv,
        ft_status_name_not_opened]
    · simp [I2C.cfun_i2c_closechannel, I2C.cfun_i2c_get_err, janet_fixarity, janet_arity,
        janet_getabstract, h0, e1, hh, ret, I2C.set_status_dyn, janet_setdyn, janet_dyn,
        Machine.call, Machine.set_i2c, janet_wrap_boolean, janet_ckeywordv,
        ft_status_name_not_opened]
  · by_cases hh : NULL = (m.spi_mem c').handle
    · simp [SPI.cfun_spi_closechannel, SPI.cfun_spi_get_err, janet_fixarity, janet_arity,
        janet_getabstract, h0', e3, hh.symm, ret, SPI.set_status_dyn, janet_setdyn, janet_dyn,
        Machine.call, Machine.set_spi, janet_wrap_boolean, janet_ckeywordv,
        ft_status_name_not_opened]
    · simp [SPI.cfun_spi_closechannel, SPI.cfun_spi_get_err, janet_fixarity, janet_arity,
        janet_getabstract, h0', e3, hh, ret, SPI.set_status_dyn, janet_setdyn, janet_dyn,
        Machine.call, Machine.set_spi, janet_wrap_boolean, janet_ckeywordv,
        ft_status_name_not_opened]

/-- Witness of C2 on the concrete machine: closing the open channels at address 1 twice. -/
theorem close_idempotent_witness :
    (I2C.cfun_i2c_closechannel demoTransport 1 (argvOf [.abstract I2C.channel_type 1])
        (I2C.cfun_i2c_closechannel demoTransport 1 (argvOf [.abstract I2C.channel_type 1])
          demoMachine).2).1 = .ret (.boolean false) ∧
    (SPI.cfun_spi_closechannel demoTransport 1 (argvOf [.abstract SPI.channel_type 1])
        (SPI.cfun_spi_closechannel demoTransport 1 (argvOf [.abstract SPI.channel_type 1])
          demoMachine).2).1 = .ret (.boolean false) :=
  ⟨(close_idempotent demoTransport demoMachine
      (argvOf [.abstract I2C.channel_type 1]) 1 (argvOf [.abstract SPI.channel_type 1]) 1
      (by decide) (by decide) (by decide) (by decide)).1.1,
   (close_idempotent demoTransport demoMachine
      (argvOf [.abstract I2C.channel_type 1]) 1 (argvOf [.abstract SPI.channel_type 1]) 1
      (by decide) (by decide) (by decide) (by decide)).2.1⟩

/-! ## Index zero -/

/-- C5: for every index < 1 of the unsigned index argument (index 0) and both
families, `open` and `info` return nil, make no transport call and leave
invalid-handle as the family's last status. -/
theorem index_zero_rejected (T : Transport) (m : Machine) (argv : Nat → Janet) (index : Nat)
    (hi : index < 1) (h0 : argv 0 = .number index) :
    (I2C.cfun_i2c_openchannel T 1 argv m).1 = .ret .nil ∧
    (I2C.cfun_i2c_openchannel T 1 argv m).2.trace = m.trace ∧
    (I2C.cfun_i2c_get_err T 0 argv (I2C.cfun_i2c_openchannel T 1 argv m).2).1
      = .ret (.keyword "invalid-handle") ∧
    (I2C.cfun_i2c_getchannelinfo T 1 argv m).1 = .ret .nil ∧
    (I2C.cfun_i2c_getchannelinfo T 1 argv m).2.trace = m.trace ∧
    (I2C.cfun_i2c_get_err T 0 argv (I2C.cfun_i2c_getchannelinfo T 1 argv m).2).1
      = .ret (.keyword "invalid-handle") ∧
    (SPI.cfun_spi_openchannel T 1 argv m).1 = .ret .nil ∧
    (SPI.cfun_spi_openchannel T 1 argv m).2.trace = m.trace ∧
    (SPI.cfun_spi_get_err T 0 argv (SPI.cfun_spi_openchannel T 1 argv m).2).1
      = .ret (.keyword "invalid-handle") ∧
    (SPI.cfun_spi_getchannelinfo T 1 argv m).1 = .ret .nil ∧
    (SPI.cfun_spi_getchannelinfo T 1 argv m).2.trace = m.trace ∧
    (SPI.cfun_spi_get_err T 0 argv (SPI.cfun_spi_getchannelinfo T 1 argv m).2).1
      = .ret (.keyword "invalid-handle") := by
  have hz : index = 0 := by omega
  subst hz
  simp [I2C.cfun_i2c_openchannel, I2C.cfun_i2c_getchannelinfo, I2C.cfun_i2c_get_err,
    SPI.cfun_spi_openchannel, SPI.cfun_spi_getchannelinfo, SPI.cfun_spi_get_err,
    janet_fixarity, janet_arity, janet_getuinteger, janet_checktype, janet_type, h0, ret,
    I2C.set_status_dyn, SPI.set_status_dyn, janet_setdyn, janet_dyn, janet_wrap_nil,
    janet_ckeywordv, ft_status_name_invalid_handle]

/-- Witness of C5 on the concrete machine: `(i2c/open 0)` and `(spi/info 0)`. -/
theorem index_zero_rejected_witness :
    (I2C.cfun_i2c_openchannel demoTransport 1 (argvOf [.number 0]) demoMachine).1 = .ret .nil ∧
    (SPI.cfun_spi_getchannelinfo demoTransport 1 (argvOf [.number 0]) demoMachine).2.trace
      = demoMachine.trace :=
  ⟨(index_zero_rejected demoTransport demoMachine (argvOf [.number 0]) 0
      (by decide) (by decide)).1,
   (index_zero_rejected demoTransport demoMachine (argvOf [.number 0]) 0
      (by decide) (by decide)).2.2.2.2.2.2.2.2.2.2.1⟩

/-! ## Argument checks of the transfers -/

/-- C6: the I2C read panics whenever its address is above 127 or its size is
below 1, and then leaves the whole machine state as it was (no transport
call, no status recorded), whatever the state of the handle; on a call with
four arguments, a channel, an unsigned address, an unsigned 32-bit size and a
sink that can grow by that size, it panics exactly in these cases.  The I2C
write panics for every address above 127, again leaving the machine state as
it was. -/
theorem i2c_address_size_violation (T : Transport) (m : Machine) (argc : Nat)
    (argv : Nat → Janet) (a s : Int) (c b : Nat)
    (h1 : argv 1 = .number a) (h2 : argv 2 = .number s) :
    ((a > 127 ∨ s < 1) →
      (I2C.cfun_i2c_deviceread T argc argv m).1.isPanic = true ∧
      (I2C.cfun_i2c_deviceread T argc argv m).2 = m) ∧
    (argc = 4 → argv 0 = .abstract I2C.channel_type c → argv 3 = .buffer b →
      0 ≤ a → s ≤ 4294967295 → ((m.buf_mem b).length : Int) + s ≤ INT32_MAX →
      ((I2C.cfun_i2c_deviceread T argc argv m).1.isPanic = true ↔ (a > 127 ∨ s < 1))) ∧
    (a > 127 →
      (I2C.cfun_i2c_devicewrite T argc argv m).1.isPanic = true ∧
      (I2C.cfun_i2c_devicewrite T argc argv m).2 = m) := by
  refine ⟨?_, ?_, ?_⟩
  · intro h
    unfold I2C.cfun_i2c_deviceread
    simp only [janet_getuinteger, h1, h2]
    repeat' split
    all_goals first
      | exact ⟨rfl, rfl⟩
      | omega
      | (simp_all; done)
      | (simp_all; omega)
  · intro hargc h0 h3 ha hs hroom
    constructor
    · intro hp
      by_contra hn
      have hs0 : 0 ≤ s := by omega
      lift a to ℕ using ha
      lift s to ℕ using hs0
      have hroom' : toInt32 (s : Int) + ((m.buf_mem b).length : Int) ≤ INT32_MAX := by
        simp only [toInt32, INT32_MAX] at *
        omega
      have e1 : ¬ (127 < a) := by omega
      have e2 : ¬ (s < 1) := by omega
      have e3 : (a : Int) ≤ 4294967295 := by omega
      revert hp
      by_cases hN : NULL = (m.i2c_mem c).handle <;>
      simp [I2C.cfun_i2c_deviceread, hargc, janet_fixarity, janet_getuinteger, h1, h2, h3, h0,
        janet_getbuffer, janet_getabstract, janet_buffer_extra, e1, e2, e3, hs, hroom', ret,
        Outcome.isPanic, hN]
    · intro h
      unfold I2C.cfun_i2c_deviceread
      simp only [janet_getuinteger, h1, h2]
      repeat' split
      all_goals first
        | rfl
        | omega
        | (simp_all; done)
        | (simp_all; omega)
  · intro h
    unfold I2C.cfun_i2c_devicewrite
    simp only [janet_getinteger, h1, h2]
    repeat' split
    all_goals first
      | exact ⟨rfl, rfl⟩
      | omega
      | (simp_all [toUInt32]; done)
      | (simp_all [toUInt32]; omega)

/-- Witness of C6 on the concrete machine: address 200 with size 1, on the open channel. -/
theorem i2c_address_size_violation_witness :
    ((I2C.cfun_i2c_deviceread demoTransport 4
        (argvOf [.abstract I2C.channel_type 1, .number 200, .number 1, .buffer 0])
        demoMachine).1.isPanic = true ∧
      (I2C.cfun_i2c_deviceread demoTransport 4
        (argvOf [.abstract I2C.channel_type 1, .number 200, .number 1, .buffer 0])
        demoMachine).2 = demoMachine) ∧
    ((I2C.cfun_i2c_deviceread demoTransport 4
        (argvOf [.abstract I2C.channel_type 1, .number 200, .number 1, .buffer 0])
        demoMachine).1.isPanic = true ↔ ((200 : Int) > 127 ∨ (1 : Int) < 1)) ∧
    ((I2C.cfun_i2c_devicewrite demoTransport 4
        (argvOf [.abstract I2C.channel_type 1, .number 200, .number 1, .buffer 0])
        demoMachine).1.isPanic = true ∧
      (I2C.cfun_i2c_devicewrite demoTransport 4
        (argvOf [.abstract I2C.channel_type 1, .number 200, .number 1, .buffer 0])
        demoMachine).2 = demoMachine) :=
  ⟨(i2c_address_size_violation demoTransport demoMachine 4
      (argvOf [.abstract I2C.channel_type 1, .number 200, .number 1, .buffer 0]) 200 1 1 0
      (by decide) (by decide)).1 (Or.inl (by decide)),
   (i2c_address_size_violation demoTransport demoMachine 4
      (argvOf [.abstract I2C.channel_type 1, .number 200, .number 1, .buffer 0]) 200 1 1 0
      (by decide) (by decide)).2.1 rfl (by decide) (by decide) (by decide) (by decide)
      (by decide),
   (i2c_address_size_violation demoTransport demoMachine 4
      (argvOf [.abstract I2C.channel_type 1, .number 200, .number 1, .buffer 0]) 200 1 1 0
      (by decide) (by decide)).2.2 (by decide)⟩

/-- C7: `cfun_i2c_devicewrite` tests only `size > 1` for a numeric source, under the
message "expected size == 1".  On the open channel of the concrete machine
`(i2c/write chan 80 0 5)` therefore does not panic: it calls the transport write
with size 0 and returns its result.  The same call with size 2 panics and leaves
the machine as it was, and so does the SPI write `(spi/write chan 0 5)`, whose
function tests `size <= 0`. -/
theorem i2c_numeric_write_size_zero_reaches_transport :
    (I2C.cfun_i2c_devicewrite demoTransport 4
        (argvOf [.abstract I2C.channel_type 1, .number 80, .number 0, .number 5]) demoMachine).1
      = .ret (.number 0) ∧
    (I2C.cfun_i2c_devicewrite demoTransport 4
        (argvOf [.abstract I2C.channel_type 1, .number 80, .number 0, .number 5])
        demoMachine).2.trace
      = [Call.I2C_DeviceWrite 7 80 0 [5] 0] ∧
    (I2C.cfun_i2c_devicewrite demoTransport 4
        (argvOf [.abstract I2C.channel_type 1, .number 80, .number 2, .number 5])
        demoMachine).1.isPanic = true ∧
    (I2C.cfun_i2c_devicewrite demoTransport 4
        (argvOf [.abstract I2C.channel_type 1, .number 80, .number 2, .number 5])
        demoMachine).2 = demoMachine ∧
    (SPI.cfun_spi_devicewrite demoTransport 3
        (argvOf [.abstract SPI.channel_type 1, .number 0, .number 5]) demoMachine).1.isPanic
      = true ∧
    (SPI.cfun_spi_devicewrite demoTransport 3
        (argvOf [.abstract SPI.channel_type 1, .number 0, .number 5]) demoMachine).2
      = demoMachine :=
  ⟨by decide, by decide, by decide, rfl, by decide, rfl⟩

/-- The size check of the writes with a numeric source, as far as the code makes it:
on an open handle, a write whose source is a number and whose size is neither 1
nor, for I2C, 0 panics and leaves the whole machine state as it was (no
transport write, no status recorded). -/
theorem numeric_write_size_violation (T : Transport) (m : Machine) (argc argc' : Nat)
    (argv argv' : Nat → Janet) (c c' : Nat) (s b s' b' : Int)
    (h0 : argv 0 = .abstract I2C.channel_type c) (hh : (m.i2c_mem c).handle ≠ NULL)
    (h2 : argv 2 = .number s) (h3 : argv 3 = .number b) (hs : s ≠ 1) (hs0 : s ≠ 0)
    (h0' : argv' 0 = .abstract SPI.channel_type c') (hh' : (m.spi_mem c').handle ≠ NULL)
    (h1' : argv' 1 = .number s') (h2' : argv' 2 = .number b') (hs' : s' ≠ 1) :
    ((I2C.cfun_i2c_devicewrite T argc argv m).1.isPanic = true ∧
      (I2C.cfun_i2c_devicewrite T argc argv m).2 = m) ∧
    ((SPI.cfun_spi_devicewrite T argc' argv' m).1.isPanic = true ∧
      (SPI.cfun_spi_devicewrite T argc' argv' m).2 = m) := by
  have e1 : ¬ (NULL = (m.i2c_mem c).handle) := fun h => hh h.symm
  have e2 : ¬ (NULL = (m.spi_mem c').handle) := fun h => hh' h.symm
  constructor
  · unfold I2C.cfun_i2c_devicewrite
    simp only [janet_getinteger, janet_getabstract, janet_checktype, janet_type, h0, h2, h3]
    repeat' split
    all_goals first
      | exact ⟨rfl, rfl⟩
      | omega
      | (simp_all [toUInt32]; done)
      | (simp_all [toUInt32]; omega)
  · unfold SPI.cfun_spi_devicewrite
    simp only [janet_getinteger, janet_getabstract, janet_checktype, janet_type, h0', h1', h2']
    repeat' split
    all_goals first
      | exact ⟨rfl, rfl⟩
      | omega
      | (simp_all [toUInt32]; done)
      | (simp_all [toUInt32]; omega)

/-- The size check on the concrete machine: size 2 for I2C, size 0 for SPI. -/
theorem numeric_write_size_violation_witness :
    ((I2C.cfun_i2c_devicewrite demoTransport 4
        (argvOf [.abstract I2C.channel_type 1, .number 80, .number 2, .number 5])
        demoMachine).1.isPanic = true ∧
      (I2C.cfun_i2c_devicewrite demoTransport 4
        (argvOf [.abstract I2C.channel_type 1, .number 80, .number 2, .number 5])
        demoMachine).2 = demoMachine) ∧
    ((SPI.cfun_spi_devicewrite demoTransport 3
        (argvOf [.abstract SPI.channel_type 1, .number 0, .number 5]) demoMachine).1.isPanic
        = true ∧
      (SPI.cfun_spi_devicewrite demoTransport 3
        (argvOf [.abstract SPI.channel_type 1, .number 0, .number 5]) demoMachine).2
        = demoMachine) :=
  numeric_write_size_violation demoTransport demoMachine 4 3
    (argvOf [.abstract I2C.channel_type 1, .number 80, .number 2, .number 5])
    (argvOf [.abstract SPI.channel_type 1, .number 0, .number 5]) 1 1 2 5 0 5
    (by decide) (by decide) (by decide) (by decide) (by decide) (by decide)
    (by decide) (by decide) (by decide) (by decide) (by decide)

/-- C8: for both families, a write on an open handle whose source is a buffer
of n bytes panics, leaving the whole machine state as it was, whenever its
size is above n; and whatever the size, the call either makes no transport
call or exactly one transport write, of the whole source buffer with a size
that is at most n. -/
theorem buffer_write_size_bounded (T : Transport) (m : Machine) (argc argc' : Nat)
    (argv argv' : Nat → Janet) (c c' b b' : Nat) (s s' : Int)
    (h0 : argv 0 = .abstract I2C.channel_type c) (hh : (m.i2c_mem c).handle ≠ NULL)
    (h2 : argv 2 = .number s) (h3 : argv 3 = .buffer b)
    (h0' : argv' 0 = .abstract SPI.channel_type c') (hh' : (m.spi_mem c').handle ≠ NULL)
    (h1' : argv' 1 = .number s') (h2' : argv' 2 = .buffer b') :
    ((s > (m.buf_mem b).length →
        (I2C.cfun_i2c_devicewrite T argc argv m).1.isPanic = true ∧
        (I2C.cfun_i2c_devicewrite T argc argv m).2 = m) ∧
      ((I2C.cfun_i2c_devicewrite T argc argv m).2.trace = m.trace ∨
        ∃ address size,
          (I2C.cfun_i2c_devicewrite T argc argv m).2.trace
            = m.trace ++ [Call.I2C_DeviceWrite (m.i2c_mem c).handle address size (m.buf_mem b)
                (m.i2c_mem c).write_options] ∧
          size ≤ (m.buf_mem b).length)) ∧
    ((s' > (m.buf_mem b').length →
        (SPI.cfun_spi_devicewrite T argc' argv' m).1.isPanic = true ∧
        (SPI.cfun_spi_devicewrite T argc' argv' m).2 = m) ∧
      ((SPI.cfun_spi_devicewrite T argc' argv' m).2.trace = m.trace ∨
        ∃ size,
          (SPI.cfun_spi_devicewrite T argc' argv' m).2.trace
            = m.trace ++ [Call.SPI_Write (m.spi_mem c').handle (m.buf_mem b') size
                (m.spi_mem c').write_options] ∧
          size ≤ (m.buf_mem b').length)) := by
  have e1 : ¬ (NULL = (m.i2c_mem c).handle) := fun h => hh h.symm
  have e2 : ¬ (NULL = (m.spi_mem c').handle) := fun h => hh' h.symm
  refine ⟨⟨?_, ?_⟩, ⟨?_, ?_⟩⟩
  · intro hgt
    unfold I2C.cfun_i2c_devicewrite
    simp only [janet_getinteger, janet_getabstract, janet_getbuffer, janet_checktype, janet_type,
      h0, h2, h3]
    repeat' split
    all_goals first
      | exact ⟨rfl, rfl⟩
      | omega
      | (simp_all [toUInt32]; done)
      | (simp_all [toUInt32]; omega)
  · unfold I2C.cfun_i2c_devicewrite
    simp only [janet_getinteger, janet_getabstract, janet_getbuffer, janet_checktype, janet_type,
      h0, h2, h3]
    repeat' split
    all_goals first
      | (left; rfl)
      | (simp_all [ret, I2C.set_status_dyn, janet_setdyn, Machine.call]; done)
      | (simp_all [ret, I2C.set_status_dyn, janet_setdyn, Machine.call]
         exact ⟨_, _, ⟨rfl, rfl⟩, by assumption⟩)
  · intro hgt
    unfold SPI.cfun_spi_devicewrite
    simp only [janet_getinteger, janet_getabstract, janet_getbuffer, janet_checktype, janet_type,
      h0', h1', h2']
    repeat' split
    all_goals first
      | exact ⟨rfl, rfl⟩
      | omega
      | (simp_all [toUInt32]; done)
      | (simp_all [toUInt32]; omega)
  · unfold SPI.cfun_spi_devicewrite
    simp only [janet_getinteger, janet_getabstract, janet_getbuffer, janet_checktype, janet_type,
      h0', h1', h2']
    repeat' split
    all_goals first
      | (left; rfl)
      | (simp_all [ret, SPI.set_status_dyn, janet_setdyn, Machine.call])

/-- Witness of C8 on the concrete machine: size 5 from the three-byte buffer. -/
theorem buffer_write_size_bounded_witness :
    ((I2C.cfun_i2c_devicewrite demoTransport 4
        (argvOf [.abstract I2C.channel_type 1, .number 80, .number 5, .buffer 0])
        demoMachine).1.isPanic = true ∧
      (I2C.cfun_i2c_devicewrite demoTransport 4
        (argvOf [.abstract I2C.channel_type 1, .number 80, .number 5, .buffer 0])
        demoMachine).2 = demoMachine) ∧
    ((SPI.cfun_spi_devicewrite demoTransport 3
        (argvOf [.abstract SPI.channel_type 1, .number 5, .buffer 0]) demoMachine).1.isPanic
        = true ∧
      (SPI.cfun_spi_devicewrite demoTransport 3
        (argvOf [.abstract SPI.channel_type 1, .number 5, .buffer 0]) demoMachine).2
        = demoMachine) :=
  ⟨(buffer_write_size_bounded demoTransport demoMachine 4 3
      (argvOf [.abstract I2C.channel_type 1, .number 80, .number 5, .buffer 0])
      (argvOf [.abstract SPI.channel_type 1, .number 5, .buffer 0]) 1 1 0 0 5 5
      (by decide) (by decide) (by decide) (by decide) (by decide) (by decide) (by decide)
      (by decide)).1.1 (by decide),
   (buffer_write_size_bounded demoTransport demoMachine 4 3
      (argvOf [.abstract I2C.channel_type 1, .number 80, .number 5, .buffer 0])
      (argvOf [.abstract SPI.channel_type 1, .number 5, .buffer 0]) 1 1 0 0 5 5
      (by decide) (by decide) (by decide) (by decide) (by decide) (by decide) (by decide)
      (by decide)).2.1 (by decide)⟩

/-- C9: for both families, a read on an open handle whose arguments pass every
check (I2C address at most 127, size at least 1, a sink that can grow by the
size) and for which the transport reports a byte count n within the size:
the sink afterwards is its contents before followed by the n bytes the
transport left at the destination (so it grows by exactly n and keeps its
old contents), the call returns n, a following last-status query answers with
the keyword of the transport status whatever n is, and the call made exactly
one transport read. -/
theorem read_appends_delivered_bytes (T : Transport) (m : Machine)
    (argv argv' : Nat → Janet) (c c' b b' : Nat) (a s s' : Nat)
    (h0 : argv 0 = .abstract I2C.channel_type c) (hh : (m.i2c_mem c).handle ≠ NULL)
    (h1 : argv 1 = .number a) (ha : a ≤ 127)
    (h2 : argv 2 = .number s) (hs : 1 ≤ s)
    (h3 : argv 3 = .buffer b) (hroom : (m.buf_mem b).length + s ≤ 2147483647)
    (hn : (T.I2C_DeviceRead m.trace (m.i2c_mem c).handle a s (m.i2c_mem c).read_options).2.1 ≤ s)
    (h0' : argv' 0 = .abstract SPI.channel_type c') (hh' : (m.spi_mem c').handle ≠ NULL)
    (h1' : argv' 1 = .number s') (hs' : 1 ≤ s')
    (h2' : argv' 2 = .buffer b') (hroom' : (m.buf_mem b').length + s' ≤ 2147483647)
    (hn' : (T.SPI_Read m.trace (m.spi_mem c').handle s' (m.spi_mem c').read_options).2.1 ≤ s') :
    ((I2C.cfun_i2c_deviceread T 4 argv m).2.buf_mem b
        = m.buf_mem b ++ (List.range
            (T.I2C_DeviceRead m.trace (m.i2c_mem c).handle a s (m.i2c_mem c).read_options).2.1).map
            (T.I2C_DeviceRead m.trace (m.i2c_mem c).handle a s (m.i2c_mem c).read_options).2.2 ∧
      ((I2C.cfun_i2c_deviceread T 4 argv m).2.buf_mem b).length
        = (m.buf_mem b).length
          + (T.I2C_DeviceRead m.trace (m.i2c_mem c).handle a s (m.i2c_mem c).read_options).2.1 ∧
      ((I2C.cfun_i2c_deviceread T 4 argv m).2.buf_mem b).take (m.buf_mem b).length = m.buf_mem b ∧
      (I2C.cfun_i2c_deviceread T 4 argv m).1
        = .ret (.number
            (T.I2C_DeviceRead m.trace (m.i2c_mem c).handle a s (m.i2c_mem c).read_options).2.1) ∧
      (I2C.cfun_i2c_get_err T 0 argv (I2C.cfun_i2c_deviceread T 4 argv m).2).1
        = .ret (.keyword (ft_status_name
            (T.I2C_DeviceRead m.trace (m.i2c_mem c).handle a s (m.i2c_mem c).read_options).1)) ∧
      (I2C.cfun_i2c_deviceread T 4 argv m).2.trace
        = m.trace ++ [Call.I2C_DeviceRead (m.i2c_mem c).handle a s (m.i2c_mem c).read_options]) ∧
    ((SPI.cfun_spi_deviceread T 3 argv' m).2.buf_mem b'
        = m.buf_mem b' ++ (List.range
            (T.SPI_Read m.trace (m.spi_mem c').handle s' (m.spi_mem c').read_options).2.1).map
            (T.SPI_Read m.trace (m.spi_mem c').handle s' (m.spi_mem c').read_options).2.2 ∧
      ((SPI.cfun_spi_deviceread T 3 argv' m).2.buf_mem b').length
        = (m.buf_mem b').length
          + (T.SPI_Read m.trace (m.spi_mem c').handle s' (m.spi_mem c').read_options).2.1 ∧
      ((SPI.cfun_spi_deviceread T 3 argv' m).2.buf_mem b').take (m.buf_mem b').length
        = m.buf_mem b' ∧
      (SPI.cfun_spi_deviceread T 3 argv' m).1
        = .ret (.number
            (T.SPI_Read m.trace (m.spi_mem c').handle s' (m.spi_mem c').read_options).2.1) ∧
      (SPI.cfun_spi_get_err T 0 argv' (SPI.cfun_spi_deviceread T 3 argv' m).2).1
        = .ret (.keyword (ft_status_name
            (T.SPI_Read m.trace (m.spi_mem c').handle s' (m.spi_mem c').read_options).1)) ∧
      (SPI.cfun_spi_deviceread T 3 argv' m).2.trace
        = m.trace ++ [Call.SPI_Read (m.spi_mem c').handle s' (m.spi_mem c').read_options]) := by
  constructor
  · rw [i2c_deviceread_open T m argv c b a s h0 hh h1 ha h2 hs h3 hroom]
    generalize T.I2C_DeviceRead m.trace (m.i2c_mem c).handle a s (m.i2c_mem c).read_options
      = r at hn ⊢
    have g := grow_or_keep
      (m.call (.I2C_DeviceRead (m.i2c_mem c).handle a s (m.i2c_mem c).read_options)) b r.2.1 r.2.2
    have w : toInt32 (r.2.1 : Int) = r.2.1 := toInt32_small _ (by omega)
    have hb : (ret (I2C.set_status_dyn r.1 (janet_wrap_integer (r.2.1 : Int))
        (if r.2.1 > 0 then
          (m.call (.I2C_DeviceRead (m.i2c_mem c).handle a s (m.i2c_mem c).read_options)).buffer_grow
            b r.2.1 r.2.2
         else m.call (.I2C_DeviceRead (m.i2c_mem c).handle a s (m.i2c_mem c).read_options)))).2.buf_mem b
        = m.buf_mem b ++ (List.range r.2.1).map r.2.2 := g.1
    refine ⟨hb, ?_, ?_, ?_, ?_, ?_⟩
    · rw [hb]; simp
    · rw [hb]; simp
    · show Outcome.ret (janet_wrap_integer (r.2.1 : Int)) = _
      simp only [janet_wrap_integer, w]
    · simp [I2C.cfun_i2c_get_err, janet_arity, janet_dyn, ret, I2C.set_status_dyn, janet_setdyn,
        janet_ckeywordv]
    · exact g.2.1
  · rw [spi_deviceread_open T m argv' c' b' s' h0' hh' h1' hs' h2' hroom']
    generalize T.SPI_Read m.trace (m.spi_mem c').handle s' (m.spi_mem c').read_options
      = r at hn' ⊢
    have g := grow_or_keep
      (m.call (.SPI_Read (m.spi_mem c').handle s' (m.spi_mem c').read_options)) b' r.2.1 r.2.2
    have w : toInt32 (r.2.1 : Int) = r.2.1 := toInt32_small _ (by omega)
    have hb : (ret (SPI.set_status_dyn r.1 (janet_wrap_integer (r.2.1 : Int))
        (if r.2.1 > 0 then
          (m.call (.SPI_Read (m.spi_mem c').handle s' (m.spi_mem c').read_options)).buffer_grow
            b' r.2.1 r.2.2
         else m.call (.SPI_Read (m.spi_mem c').handle s' (m.spi_mem c').read_options)))).2.buf_mem b'
        = m.buf_mem b' ++ (List.range r.2.1).map r.2.2 := g.1
    refine ⟨hb, ?_, ?_, ?_, ?_, ?_⟩
    · rw [hb]; simp
    · rw [hb]; simp
    · show Outcome.ret (janet_wrap_integer (r.2.1 : Int)) = _
      simp only [janet_wrap_integer, w]
    · simp [SPI.cfun_spi_get_err, janet_arity, janet_dyn, ret, SPI.set_status_dyn, janet_setdyn,
        janet_ckeywordv]
    · exact g.2.1

/-- Witness of C9 on the concrete machine: two bytes read into the buffer `[1, 2, 3]`. -/
theorem read_appends_delivered_bytes_witness :
    ((I2C.cfun_i2c_deviceread demoTransport 4
        (argvOf [.abstract I2C.channel_type 1, .number 5, .number 2, .buffer 0])
        demoMachine).2.buf_mem 0).length = (demoMachine.buf_mem 0).length + 2 ∧
    (SPI.cfun_spi_deviceread demoTransport 3
        (argvOf [.abstract SPI.channel_type 1, .number 2, .buffer 0]) demoMachine).1
      = .ret (.number 2) :=
  ⟨(read_appends_delivered_bytes demoTransport demoMachine
      (argvOf [.abstract I2C.channel_type 1, .number 5, .number 2, .buffer 0])
      (argvOf [.abstract SPI.channel_type 1, .number 2, .buffer 0]) 1 1 0 0 5 2 2
      (by decide) (by decide) (by decide) (by decide) (by decide) (by decide) (by decide)
      (by decide) (by decide) (by decide) (by decide) (by decide) (by decide) (by decide)
      (by decide) (by decide)).1.2.1,
   (read_appends_delivered_bytes demoTransport demoMachine
      (argvOf [.abstract I2C.channel_type 1, .number 5, .number 2, .buffer 0])
      (argvOf [.abstract SPI.channel_type 1, .number 2, .buffer 0]) 1 1 0 0 5 2 2
      (by decide) (by decide) (by decide) (by decide) (by decide) (by decide) (by decide)
      (by decide) (by decide) (by decide) (by decide) (by decide) (by decide) (by decide)
      (by decide) (by decide)).2.2.2.2.1⟩

/-- C10: the check of `cfun_spi_readwrite` on the source buffer runs the other
way round.  On the open channel of the concrete machine, with the three-byte
source `[1, 2, 3]`: size 2, which the source can supply, panics with no
transport call; size 5, which it cannot, is accepted and the duplex transfer
is made with size 5. -/
theorem readwrite_source_check_reversed :
    (SPI.cfun_spi_readwrite demoTransport 4
        (argvOf [.abstract SPI.channel_type 1, .number 2, .buffer 0, .buffer 1]) demoMachine)
      = (.panic "write size %d larger than sendbuf size %d", demoMachine) ∧
    (SPI.cfun_spi_readwrite demoTransport 4
        (argvOf [.abstract SPI.channel_type 1, .number 5, .buffer 0, .buffer 1]) demoMachine).1
      = .ret (.number 5) ∧
    (SPI.cfun_spi_readwrite demoTransport 4
        (argvOf [.abstract SPI.channel_type 1, .number 5, .buffer 0, .buffer 1])
        demoMachine).2.trace
      = [Call.SPI_ReadWrite 7 [1, 2, 3] 5 0] :=
  ⟨rfl, by decide, by decide⟩

/-! ## The native handle across calls -/

theorem closeCalls_append (tr : List Call) (c : Call) (h : c.isClose = false) :
    closeCalls (tr ++ [c]) = closeCalls tr := by
  simp [closeCalls, List.filter_append, h]

theorem i2c_kept_other (T : Transport) (argc : Nat) (argv : Nat → Janet) (m : Machine)
    (p : Nat) (h0 : argv 0 = .abstract I2C.channel_type p) (f : CFun)
    (hf : f = I2C.cfun_i2c_get_err ∨ f = I2C.cfun_i2c_channelcount ∨
       f = I2C.cfun_i2c_getchannelinfo ∨ f = I2C.cfun_i2c_find ∨ f = I2C.cfun_i2c_get_id ∨
       f = I2C.cfun_i2c_set_read_options ∨ f = I2C.cfun_i2c_set_write_options ∨
       f = I2C.cfun_i2c_set_config_options ∨ f = I2C.cfun_i2c_openchannel ∨
       f = I2C.cfun_i2c_is_open ∨ f = I2C.cfun_i2c_initchannel ∨
       f = I2C.cfun_i2c_deviceread ∨ f = I2C.cfun_i2c_devicewrite ∨
       f = I2C.cfun_ft_gpio_read ∨ f = I2C.cfun_ft_gpio_write) :
    I2C.Kept p m (f T argc argv m).2 := by
  rcases hf with h | h | h | h | h | h | h | h | h | h | h | h | h | h | h <;> subst h
  · unfold I2C.cfun_i2c_get_err
    split <;> exact ⟨rfl, rfl⟩
  · unfold I2C.cfun_i2c_channelcount
    split
    · exact ⟨rfl, rfl⟩
    · exact ⟨rfl, closeCalls_append _ _ rfl⟩
  · unfold I2C.cfun_i2c_getchannelinfo I2C.getchannelinfo_query
    dsimp only
    repeat' split
    all_goals first
      | exact ⟨rfl, rfl⟩
      | exact ⟨rfl, closeCalls_append _ _ rfl⟩
  · unfold I2C.cfun_i2c_find
    simp [janet_checktype, janet_type, h0]
    split <;> exact ⟨rfl, rfl⟩
  · unfold I2C.cfun_i2c_get_id
    repeat' split
    all_goals exact ⟨rfl, rfl⟩
  · unfold I2C.cfun_i2c_set_read_options
    dsimp only
    repeat' split
    all_goals first
      | exact ⟨rfl, rfl⟩
      | (constructor
         · simp [ret, I2C.set_status_dyn, janet_setdyn, Machine.set_i2c, Function.update_apply]
           repeat' split
           all_goals simp_all
         · rfl)
  · unfold I2C.cfun_i2c_set_write_options
    dsimp only
    repeat' split
    all_goals first
      | exact ⟨rfl, rfl⟩
      | (constructor
         · simp [ret, I2C.set_status_dyn, janet_setdyn, Machine.set_i2c, Function.update_apply]
           repeat' split
           all_goals simp_all
         · rfl)
  · unfold I2C.cfun_i2c_set_config_options
    dsimp only
    repeat' split
    all_goals first
      | exact ⟨rfl, rfl⟩
      | (constructor
         · simp [ret, I2C.set_status_dyn, janet_setdyn, Machine.set_i2c, Function.update_apply]
           repeat' split
           all_goals simp_all
         · rfl)
  · unfold I2C.cfun_i2c_openchannel
    simp [janet_getuinteger, h0]
    split <;> exact ⟨rfl, rfl⟩
  · unfold I2C.cfun_i2c_is_open I2C.is_open_query
    dsimp only
    repeat' split
    all_goals first
      | exact ⟨rfl, rfl⟩
      | exact ⟨rfl, closeCalls_append _ _ rfl⟩
  · unfold I2C.cfun_i2c_initchannel
    dsimp only
    repeat' split
    all_goals first
      | exact ⟨rfl, rfl⟩
      | exact ⟨rfl, closeCalls_append _ _ rfl⟩
      | (constructor
         · simp [ret, I2C.set_status_dyn, janet_setdyn, Machine.set_i2c, Machine.call,
             Function.update_apply]
           repeat' split
           all_goals simp_all
         · simp [ret, I2C.set_status_dyn, janet_setdyn, Machine.set_i2c, Machine.call,
             closeCalls, Call.isClose])
  · unfold I2C.cfun_i2c_deviceread
    dsimp only
    repeat' split
    all_goals first
      | exact ⟨rfl, rfl⟩
      | exact ⟨rfl, closeCalls_append _ _ rfl⟩
  · unfold I2C.cfun_i2c_devicewrite
    dsimp only
    repeat' split
    all_goals first
      | exact ⟨rfl, rfl⟩
      | exact ⟨rfl, closeCalls_append _ _ rfl⟩
  · unfold I2C.cfun_ft_gpio_read
    dsimp only
    repeat' split
    all_goals first
      | exact ⟨rfl, rfl⟩
      | exact ⟨rfl, closeCalls_append _ _ rfl⟩
  · unfold I2C.cfun_ft_gpio_write
    dsimp only
    repeat' split
    all_goals first
      | exact ⟨rfl, rfl⟩
      | exact ⟨rfl, closeCalls_append _ _ rfl⟩

theorem i2c_lookup (name : String) (f : CFun) (h : I2C.cfuns.lookup name = some f) :
    (name = "i2c/close" ∧ f = I2C.cfun_i2c_closechannel) ∨
    (name ≠ "i2c/close" ∧
      (f = I2C.cfun_i2c_get_err ∨ f = I2C.cfun_i2c_channelcount ∨
       f = I2C.cfun_i2c_getchannelinfo ∨ f = I2C.cfun_i2c_find ∨ f = I2C.cfun_i2c_get_id ∨
       f = I2C.cfun_i2c_set_read_options ∨ f = I2C.cfun_i2c_set_write_options ∨
       f = I2C.cfun_i2c_set_config_options ∨ f = I2C.cfun_i2c_openchannel ∨
       f = I2C.cfun_i2c_is_open ∨ f = I2C.cfun_i2c_initchannel ∨
       f = I2C.cfun_i2c_deviceread ∨ f = I2C.cfun_i2c_devicewrite ∨
       f = I2C.cfun_ft_gpio_read ∨ f = I2C.cfun_ft_gpio_write)) := by
  simp only [I2C.cfuns, List.lookup] at h
  repeat' split at h
  all_goals simp_all


theorem i2c_close_open (T : Transport) (argv : Nat → Janet) (m : Machine) (p : Nat)
    (h0 : argv 0 = .abstract I2C.channel_type p) (hp : p ≠ NULL)
    (hh : (m.i2c_mem p).handle ≠ NULL) :
    ((I2C.cfun_i2c_closechannel T 1 argv m).2.i2c_mem p).handle = NULL ∧
    (I2C.cfun_i2c_closechannel T 1 argv m).2.trace
      = m.trace ++ [Call.I2C_CloseChannel (m.i2c_mem p).handle] := by
  have e1 : ¬ (NULL = p) := fun h => hp h.symm
  have e2 : ¬ (NULL = (m.i2c_mem p).handle) := fun h => hh h.symm
  simp [I2C.cfun_i2c_closechannel, janet_fixarity, janet_getabstract, h0, e1, e2, ret,
    I2C.set_status_dyn, janet_setdyn, Machine.call, Machine.set_i2c]

theorem i2c_close_kept (T : Transport) (argc : Nat) (argv : Nat → Janet) (m : Machine) (p : Nat)
    (h0 : argv 0 = .abstract I2C.channel_type p)
    (h : argc ≠ 1 ∨ (m.i2c_mem p).handle = NULL) :
    I2C.Kept p m (I2C.cfun_i2c_closechannel T argc argv m).2 := by
  unfold I2C.cfun_i2c_closechannel
  simp only [janet_getabstract, h0, janet_fixarity]
  repeat' split
  all_goals first
    | exact ⟨rfl, rfl⟩
    | (exfalso; simp_all)

theorem i2c_step_close (T : Transport) (m : Machine) (op : Op) (p : Nat)
    (h0 : op.argv 0 = .abstract I2C.channel_type p) (hp : p ≠ NULL)
    (hh : (m.i2c_mem p).handle ≠ NULL) (hc : op.isCall1 "i2c/close" = true) :
    ((I2C.step T m op).i2c_mem p).handle = NULL ∧
    (I2C.step T m op).trace = m.trace ++ [Call.I2C_CloseChannel (m.i2c_mem p).handle] := by
  simp only [Op.isCall1, Bool.and_eq_true, beq_iff_eq] at hc
  have hl : I2C.cfuns.lookup op.name = some I2C.cfun_i2c_closechannel := by
    rw [hc.1]; rfl
  simp only [I2C.step, hl, hc.2]
  exact i2c_close_open T op.argv m p h0 hp hh

theorem i2c_step_kept (T : Transport) (m : Machine) (op : Op) (p : Nat)
    (h0 : op.argv 0 = .abstract I2C.channel_type p)
    (h : op.isCall1 "i2c/close" = false ∨ (m.i2c_mem p).handle = NULL) :
    I2C.Kept p m (I2C.step T m op) := by
  unfold I2C.step
  cases hl : I2C.cfuns.lookup op.name with
  | none => exact ⟨rfl, rfl⟩
  | some f =>
    dsimp only
    rcases i2c_lookup op.name f hl with ⟨hn, hf⟩ | ⟨_, hf⟩
    · subst hf
      apply i2c_close_kept T op.argc op.argv m p h0
      rcases h with h | h
      · left
        intro ha
        simp [Op.isCall1, hn, ha] at h
      · right; exact h
    · exact i2c_kept_other T op.argc op.argv m p h0 f hf

theorem i2c_kept_trans (p : Nat) (m1 m2 m3 : Machine) (h1 : I2C.Kept p m1 m2)
    (h2 : I2C.Kept p m2 m3) : I2C.Kept p m1 m3 :=
  ⟨h2.1.trans h1.1, h2.2.trans h1.2⟩

theorem i2c_run_kept (T : Transport) (p : Nat) (ops : List Op) :
    ∀ (m : Machine), (∀ op ∈ ops, op.argv 0 = .abstract I2C.channel_type p) →
      ((∀ op ∈ ops, op.isCall1 "i2c/close" = false) ∨ (m.i2c_mem p).handle = NULL) →
      I2C.Kept p m (I2C.run T ops m) := by
  induction ops with
  | nil => intro m _ _; exact ⟨rfl, rfl⟩
  | cons op rest ih =>
    intro m hops h
    have h0 := hops op (List.mem_cons_self _ _)
    have hk : I2C.Kept p m (I2C.step T m op) := by
      apply i2c_step_kept T m op p h0
      rcases h with h | h
      · left; exact h op (List.mem_cons_self _ _)
      · right; exact h
    have hr : I2C.Kept p (I2C.step T m op) (I2C.run T rest (I2C.step T m op)) := by
      apply ih _ (fun o ho => hops o (List.mem_cons_of_mem _ ho))
      rcases h with h | h
      · left; exact fun o ho => h o (List.mem_cons_of_mem _ ho)
      · right; rw [hk.1]; exact h
    exact i2c_kept_trans p _ _ _ hk hr

theorem i2c_run_append (T : Transport) (xs ys : List Op) (m : Machine) :
    I2C.run T (xs ++ ys) m = I2C.run T ys (I2C.run T xs m) := by
  simp [I2C.run, List.foldl_append]

theorem i2c_gc_trace (T : Transport) (p : Nat) (m : Machine) :
    ((m.i2c_mem p).handle = NULL → (I2C.channel_gc T p m).2.trace = m.trace) ∧
    (p ≠ NULL → (m.i2c_mem p).handle ≠ NULL →
      (I2C.channel_gc T p m).2.trace = m.trace ++ [Call.I2C_CloseChannel (m.i2c_mem p).handle]) := by
  constructor
  · intro h
    simp [I2C.channel_gc, h, I2C.set_status_dyn, janet_setdyn]
  · intro hp hh
    simp [I2C.channel_gc, hp, hh, I2C.set_status_dyn, janet_setdyn, Machine.call, Machine.set_i2c]

theorem i2c_open_nonnull (T : Transport) (argc : Nat) (argv : Nat → Janet) (m0 m : Machine)
    (t : String) (p : Nat)
    (h : I2C.cfun_i2c_openchannel T argc argv m0 = (.ret (.abstract t p), m)) : p ≠ NULL := by
  unfold I2C.cfun_i2c_openchannel at h
  dsimp only at h
  repeat' split at h
  all_goals simp_all [ret, I2C.set_status_dyn, janet_wrap_nil, NULL]
  all_goals omega


/-- The I2C half of C3. -/
theorem i2c_handle_closed_once (T : Transport) (m0 m : Machine) (argv0 : Nat → Janet) (p : Nat) (ops : List Op)
    (hopen : I2C.cfun_i2c_openchannel T 1 argv0 m0 = (.ret (.abstract I2C.channel_type p), m))
    (hh : (m.i2c_mem p).handle ≠ NULL)
    (hops : ∀ op ∈ ops, op.argv 0 = .abstract I2C.channel_type p) :
    (closeCalls (I2C.channel_gc T p (I2C.run T ops m)).2.trace
        = closeCalls m.trace ++ [Call.I2C_CloseChannel (m.i2c_mem p).handle]) ∧
    (∀ pre op post, ops = pre ++ op :: post →
        (∀ o ∈ pre, o.isCall1 "i2c/close" = false) → op.isCall1 "i2c/close" = true →
        closeCalls (I2C.run T pre m).trace = closeCalls m.trace ∧
        (I2C.step T (I2C.run T pre m) op).trace
          = (I2C.run T pre m).trace ++ [Call.I2C_CloseChannel (m.i2c_mem p).handle] ∧
        closeCalls (I2C.run T ops m).trace
          = closeCalls m.trace ++ [Call.I2C_CloseChannel (m.i2c_mem p).handle] ∧
        (I2C.channel_gc T p (I2C.run T ops m)).2.trace = (I2C.run T ops m).trace) ∧
    ((∀ o ∈ ops, o.isCall1 "i2c/close" = false) →
        closeCalls (I2C.run T ops m).trace = closeCalls m.trace ∧
        (I2C.channel_gc T p (I2C.run T ops m)).2.trace
          = (I2C.run T ops m).trace ++ [Call.I2C_CloseChannel (m.i2c_mem p).handle]) ∧
    (∀ (m' : Machine) (q : Nat), (m'.i2c_mem q).handle = NULL →
        (I2C.channel_gc T q m').2.trace = m'.trace) := by
  have hp : p ≠ NULL := i2c_open_nonnull T 1 argv0 m0 m _ p hopen
  -- the run with a first explicit close
  have hsplit : ∀ pre op post, ops = pre ++ op :: post →
      (∀ o ∈ pre, o.isCall1 "i2c/close" = false) → op.isCall1 "i2c/close" = true →
      closeCalls (I2C.run T pre m).trace = closeCalls m.trace ∧
      (I2C.step T (I2C.run T pre m) op).trace
        = (I2C.run T pre m).trace ++ [Call.I2C_CloseChannel (m.i2c_mem p).handle] ∧
      closeCalls (I2C.run T ops m).trace
        = closeCalls m.trace ++ [Call.I2C_CloseChannel (m.i2c_mem p).handle] ∧
      (I2C.channel_gc T p (I2C.run T ops m)).2.trace = (I2C.run T ops m).trace := by
    intro pre op post hops' hpre hop
    subst hops'
    have hpre_ops : ∀ o ∈ pre, o.argv 0 = .abstract I2C.channel_type p :=
      fun o ho => hops o (List.mem_append_left _ ho)
    have hop0 : op.argv 0 = .abstract I2C.channel_type p :=
      hops op (List.mem_append_right _ (List.mem_cons_self _ _))
    have hpost_ops : ∀ o ∈ post, o.argv 0 = .abstract I2C.channel_type p :=
      fun o ho => hops o (List.mem_append_right _ (List.mem_cons_of_mem _ ho))
    have k1 := i2c_run_kept T p pre m hpre_ops (Or.inl hpre)
    have hh1 : ((I2C.run T pre m).i2c_mem p).handle ≠ NULL := by rw [k1.1]; exact hh
    have k2 := i2c_step_close T (I2C.run T pre m) op p hop0 hp hh1 hop
    rw [k1.1] at k2
    have k3 := i2c_run_kept T p post (I2C.step T (I2C.run T pre m) op) hpost_ops (Or.inr k2.1)
    have hrun : I2C.run T (pre ++ op :: post) m
        = I2C.run T post (I2C.step T (I2C.run T pre m) op) := by
      simp [I2C.run, List.foldl_append]
    refine ⟨k1.2, k2.2, ?_, ?_⟩
    · rw [hrun, k3.2, k2.2]
      simp [closeCalls, List.filter_append, Call.isClose] at k1 ⊢
      exact k1.2
    · rw [hrun]
      exact (i2c_gc_trace T p _).1 (k3.1.trans k2.1)
  have hnone : (∀ o ∈ ops, o.isCall1 "i2c/close" = false) →
      closeCalls (I2C.run T ops m).trace = closeCalls m.trace ∧
      (I2C.channel_gc T p (I2C.run T ops m)).2.trace
        = (I2C.run T ops m).trace ++ [Call.I2C_CloseChannel (m.i2c_mem p).handle] := by
    intro hno
    have k := i2c_run_kept T p ops m hops (Or.inl hno)
    refine ⟨k.2, ?_⟩
    have := (i2c_gc_trace T p (I2C.run T ops m)).2 hp (by rw [k.1]; exact hh)
    rw [k.1] at this
    exact this
  refine ⟨?_, hsplit, hnone, fun m' q hq => (i2c_gc_trace T q m').1 hq⟩
  by_cases hex : ∀ o ∈ ops, o.isCall1 "i2c/close" = false
  · obtain ⟨h1, h2⟩ := hnone hex
    rw [h2]
    simp [closeCalls, List.filter_append, Call.isClose] at h1 ⊢
    exact h1
  · -- split at the first explicit close
    have : ∃ pre op post, ops = pre ++ op :: post ∧
        (∀ o ∈ pre, o.isCall1 "i2c/close" = false) ∧ op.isCall1 "i2c/close" = true := by
      clear hsplit hnone hops
      induction ops with
      | nil => exact absurd (fun o ho => absurd ho (List.not_mem_nil o)) hex
      | cons a rest ih =>
        by_cases ha : a.isCall1 "i2c/close" = true
        · exact ⟨[], a, rest, rfl, fun o ho => absurd ho (List.not_mem_nil o), ha⟩
        · have ha' : a.isCall1 "i2c/close" = false := by simpa using ha
          have hrest : ¬ ∀ o ∈ rest, o.isCall1 "i2c/close" = false := by
            intro hr
            apply hex
            intro o ho
            rcases List.mem_cons.mp ho with rfl | ho
            · exact ha'
            · exact hr o ho
          obtain ⟨pre, op, post, e, hpre, hop⟩ := ih hrest
          refine ⟨a :: pre, op, post, by rw [e]; rfl, ?_, hop⟩
          intro o ho
          rcases List.mem_cons.mp ho with rfl | ho
          · exact ha'
          · exact hpre o ho
    obtain ⟨pre, op, post, e, hpre, hop⟩ := this
    obtain ⟨_, _, h3, h4⟩ := hsplit pre op post e hpre hop
    rw [h4]; exact h3


theorem spi_kept_other (T : Transport) (argc : Nat) (argv : Nat → Janet) (m : Machine)
    (p : Nat) (h0 : argv 0 = .abstract SPI.channel_type p) (f : CFun)
    (hf : f = SPI.cfun_spi_get_err ∨ f = SPI.cfun_spi_channelcount ∨
       f = SPI.cfun_spi_getchannelinfo ∨ f = SPI.cfun_spi_find ∨ f = SPI.cfun_spi_get_id ∨
       f = SPI.cfun_spi_set_read_options ∨ f = SPI.cfun_spi_set_write_options ∨
       f = SPI.cfun_spi_set_config_options ∨ f = SPI.cfun_spi_openchannel ∨
       f = SPI.cfun_spi_is_open ∨ f = SPI.cfun_spi_initchannel ∨
       f = SPI.cfun_spi_deviceread ∨ f = SPI.cfun_spi_devicewrite ∨
       f = SPI.cfun_spi_gpio_read ∨ f = SPI.cfun_spi_gpio_write ∨
       f = SPI.cfun_spi_is_busy ∨ f = SPI.cfun_spi_readwrite) :
    SPI.Kept p m (f T argc argv m).2 := by
  rcases hf with h | h | h | h | h | h | h | h | h | h | h | h | h | h | h | h | h <;> subst h
  · unfold SPI.cfun_spi_get_err
    split <;> exact ⟨rfl, rfl⟩
  · unfold SPI.cfun_spi_channelcount
    split
    · exact ⟨rfl, rfl⟩
    · exact ⟨rfl, closeCalls_append _ _ rfl⟩
  · unfold SPI.cfun_spi_getchannelinfo SPI.getchannelinfo_query
    dsimp only
    repeat' split
    all_goals first
      | exact ⟨rfl, rfl⟩
      | exact ⟨rfl, closeCalls_append _ _ rfl⟩
  · unfold SPI.cfun_spi_find
    simp [janet_checktype, janet_type, h0]
    split <;> exact ⟨rfl, rfl⟩
  · unfold SPI.cfun_spi_get_id
    repeat' split
    all_goals exact ⟨rfl, rfl⟩
  · unfold SPI.cfun_spi_set_read_options
    dsimp only
    repeat' split
    all_goals first
      | exact ⟨rfl, rfl⟩
      | (constructor
         · simp [ret, SPI.set_status_dyn, janet_setdyn, Machine.set_spi, Function.update_apply]
           repeat' split
           all_goals simp_all
         · rfl)
  · unfold SPI.cfun_spi_set_write_options
    dsimp only
    repeat' split
    all_goals first
      | exact ⟨rfl, rfl⟩
      | (constructor
         · simp [ret, SPI.set_status_dyn, janet_setdyn, Machine.set_spi, Function.update_apply]
           repeat' split
           all_goals simp_all
         · rfl)
  · unfold SPI.cfun_spi_set_config_options
    dsimp only
    repeat' split
    all_goals first
      | exact ⟨rfl, rfl⟩
      | (constructor
         · simp [ret, SPI.set_status_dyn, janet_setdyn, Machine.set_spi, Function.update_apply]
           repeat' split
           all_goals simp_all
         · rfl)
  · unfold SPI.cfun_spi_openchannel
    simp [janet_getuinteger, h0]
    split <;> exact ⟨rfl, rfl⟩
  · unfold SPI.cfun_spi_is_open SPI.is_open_query
    dsimp only
    repeat' split
    all_goals first
      | exact ⟨rfl, rfl⟩
      | exact ⟨rfl, closeCalls_append _ _ rfl⟩
  · unfold SPI.cfun_spi_initchannel
    dsimp only
    repeat' split
    all_goals first
      | exact ⟨rfl, rfl⟩
      | exact ⟨rfl, closeCalls_append _ _ rfl⟩
      | (constructor
         · simp [ret, SPI.set_status_dyn, janet_setdyn, Machine.set_spi, Machine.call,
             Function.update_apply]
           repeat' split
           all_goals simp_all
         · simp [ret, SPI.set_status_dyn, janet_setdyn, Machine.set_spi, Machine.call,
             closeCalls, Call.isClose])
  · unfold SPI.cfun_spi_deviceread
    dsimp only
    repeat' split
    all_goals first
      | exact ⟨rfl, rfl⟩
      | exact ⟨rfl, closeCalls_append _ _ rfl⟩
  · unfold SPI.cfun_spi_devicewrite
    dsimp only
    repeat' split
    all_goals first
      | exact ⟨rfl, rfl⟩
      | exact ⟨rfl, closeCalls_append _ _ rfl⟩
  · unfold SPI.cfun_spi_gpio_read
    dsimp only
    repeat' split
    all_goals first
      | exact ⟨rfl, rfl⟩
      | exact ⟨rfl, closeCalls_append _ _ rfl⟩
  · unfold SPI.cfun_spi_gpio_write
    dsimp only
    repeat' split
    all_goals first
      | exact ⟨rfl, rfl⟩
      | exact ⟨rfl, closeCalls_append _ _ rfl⟩
  · unfold SPI.cfun_spi_is_busy
    dsimp only
    repeat' split
    all_goals first
      | exact ⟨rfl, rfl⟩
      | exact ⟨rfl, closeCalls_append _ _ rfl⟩
  · unfold SPI.cfun_spi_readwrite
    dsimp only
    repeat' split
    all_goals first
      | exact ⟨rfl, rfl⟩
      | exact ⟨rfl, closeCalls_append _ _ rfl⟩

theorem spi_lookup (name : String) (f : CFun) (h : SPI.cfuns.lookup name = some f) :
    (name = "spi/close" ∧ f = SPI.cfun_spi_closechannel) ∨
    (name ≠ "spi/close" ∧
      (f = SPI.cfun_spi_get_err ∨ f = SPI.cfun_spi_channelcount ∨
       f = SPI.cfun_spi_getchannelinfo ∨ f = SPI.cfun_spi_find ∨ f = SPI.cfun_spi_get_id ∨
       f = SPI.cfun_spi_set_read_options ∨ f = SPI.cfun_spi_set_write_options ∨
       f = SPI.cfun_spi_set_config_options ∨ f = SPI.cfun_spi_openchannel ∨
       f = SPI.cfun_spi_is_open ∨ f = SPI.cfun_spi_initchannel ∨
       f = SPI.cfun_spi_deviceread ∨ f = SPI.cfun_spi_devicewrite ∨
       f = SPI.cfun_spi_gpio_read ∨ f = SPI.cfun_spi_gpio_write ∨
       f = SPI.cfun_spi_is_busy ∨ f = SPI.cfun_spi_readwrite)) := by
  simp only [SPI.cfuns, List.lookup] at h
  repeat' split at h
  all_goals simp_all


theorem spi_close_open (T : Transport) (argv : Nat → Janet) (m : Machine) (p : Nat)
    (h0 : argv 0 = .abstract SPI.channel_type p) (hp : p ≠ NULL)
    (hh : (m.spi_mem p).handle ≠ NULL) :
    ((SPI.cfun_spi_closechannel T 1 argv m).2.spi_mem p).handle = NULL ∧
    (SPI.cfun_spi_closechannel T 1 argv m).2.trace
      = m.trace ++ [Call.SPI_CloseChannel (m.spi_mem p).handle] := by
  have e1 : ¬ (NULL = p) := fun h => hp h.symm
  have e2 : ¬ (NULL = (m.spi_mem p).handle) := fun h => hh h.symm
  simp [SPI.cfun_spi_closechannel, janet_fixarity, janet_getabstract, h0, e1, e2, ret,
    SPI.set_status_dyn, janet_setdyn, Machine.call, Machine.set_spi]

theorem spi_close_kept (T : Transport) (argc : Nat) (argv : Nat → Janet) (m : Machine) (p : Nat)
    (h0 : argv 0 = .abstract SPI.channel_type p)
    (h : argc ≠ 1 ∨ (m.spi_mem p).handle = NULL) :
    SPI.Kept p m (SPI.cfun_spi_closechannel T argc argv m).2 := by
  unfold SPI.cfun_spi_closechannel
  simp only [janet_getabstract, h0, janet_fixarity]
  repeat' split
  all_goals first
    | exact ⟨rfl, rfl⟩
    | (exfalso; simp_all)

theorem spi_step_close (T : Transport) (m : Machine) (op : Op) (p : Nat)
    (h0 : op.argv 0 = .abstract SPI.channel_type p) (hp : p ≠ NULL)
    (hh : (m.spi_mem p).handle ≠ NULL) (hc : op.isCall1 "spi/close" = true) :
    ((SPI.step T m op).spi_mem p).handle = NULL ∧
    (SPI.step T m op).trace = m.trace ++ [Call.SPI_CloseChannel (m.spi_mem p).handle] := by
  simp only [Op.isCall1, Bool.and_eq_true, beq_iff_eq] at hc
  have hl : SPI.cfuns.lookup op.name = some SPI.cfun_spi_closechannel := by
    rw [hc.1]; rfl
  simp only [SPI.step, hl, hc.2]
  exact spi_close_open T op.argv m p h0 hp hh

theorem spi_step_kept (T : Transport) (m : Machine) (op : Op) (p : Nat)
    (h0 : op.argv 0 = .abstract SPI.channel_type p)
    (h : op.isCall1 "spi/close" = false ∨ (m.spi_mem p).handle = NULL) :
    SPI.Kept p m (SPI.step T m op) := by
  unfold SPI.step
  cases hl : SPI.cfuns.lookup op.name with
  | none => exact ⟨rfl, rfl⟩
  | some f =>
    dsimp only
    rcases spi_lookup op.name f hl with ⟨hn, hf⟩ | ⟨_, hf⟩
    · subst hf
      apply spi_close_kept T op.argc op.argv m p h0
      rcases h with h | h
      · left
        intro ha
        simp [Op.isCall1, hn, ha] at h
      · right; exact h
    · exact spi_kept_other T op.argc op.argv m p h0 f hf

theorem spi_kept_trans (p : Nat) (m1 m2 m3 : Machine) (h1 : SPI.Kept p m1 m2)
    (h2 : SPI.Kept p m2 m3) : SPI.Kept p m1 m3 :=
  ⟨h2.1.trans h1.1, h2.2.trans h1.2⟩

theorem spi_run_kept (T : Transport) (p : Nat) (ops : List Op) :
    ∀ (m : Machine), (∀ op ∈ ops, op.argv 0 = .abstract SPI.channel_type p) →
      ((∀ op ∈ ops, op.isCall1 "spi/close" = false) ∨ (m.spi_mem p).handle = NULL) →
      SPI.Kept p m (SPI.run T ops m) := by
  induction ops with
  | nil => intro m _ _; exact ⟨rfl, rfl⟩
  | cons op rest ih =>
    intro m hops h
    have h0 := hops op (List.mem_cons_self _ _)
    have hk : SPI.Kept p m (SPI.step T m op) := by
      apply spi_step_kept T m op p h0
      rcases h with h | h
      · left; exact h op (List.mem_cons_self _ _)
      · right; exact h
    have hr : SPI.Kept p (SPI.step T m op) (SPI.run T rest (SPI.step T m op)) := by
      apply ih _ (fun o ho => hops o (List.mem_cons_of_mem _ ho))
      rcases h with h | h
      · left; exact fun o ho => h o (List.mem_cons_of_mem _ ho)
      · right; rw [hk.1]; exact h
    exact spi_kept_trans p _ _ _ hk hr

theorem spi_run_append (T : Transport) (xs ys : List Op) (m : Machine) :
    SPI.run T (xs ++ ys) m = SPI.run T ys (SPI.run T xs m) := by
  simp [SPI.run, List.foldl_append]

theorem spi_gc_trace (T : Transport) (p : Nat) (m : Machine) :
    ((m.spi_mem p).handle = NULL → (SPI.channel_gc T p m).2.trace = m.trace) ∧
    (p ≠ NULL → (m.spi_mem p).handle ≠ NULL →
      (SPI.channel_gc T p m).2.trace = m.trace ++ [Call.SPI_CloseChannel (m.spi_mem p).handle]) := by
  constructor
  · intro h
    simp [SPI.channel_gc, h, SPI.set_status_dyn, janet_setdyn]
  · intro hp hh
    simp [SPI.channel_gc, hp, hh, SPI.set_status_dyn, janet_setdyn, Machine.call, Machine.set_spi]

theorem spi_open_nonnull (T : Transport) (argc : Nat) (argv : Nat → Janet) (m0 m : Machine)
    (t : String) (p : Nat)
    (h : SPI.cfun_spi_openchannel T argc argv m0 = (.ret (.abstract t p), m)) : p ≠ NULL := by
  unfold SPI.cfun_spi_openchannel at h
  dsimp only at h
  repeat' split at h
  all_goals simp_all [ret, SPI.set_status_dyn, janet_wrap_nil, NULL]
  all_goals omega


/-- The SPI half of C3. -/
theorem spi_handle_closed_once (T : Transport) (m0 m : Machine) (argv0 : Nat → Janet) (p : Nat) (ops : List Op)
    (hopen : SPI.cfun_spi_openchannel T 1 argv0 m0 = (.ret (.abstract SPI.channel_type p), m))
    (hh : (m.spi_mem p).handle ≠ NULL)
    (hops : ∀ op ∈ ops, op.argv 0 = .abstract SPI.channel_type p) :
    (closeCalls (SPI.channel_gc T p (SPI.run T ops m)).2.trace
        = closeCalls m.trace ++ [Call.SPI_CloseChannel (m.spi_mem p).handle]) ∧
    (∀ pre op post, ops = pre ++ op :: post →
        (∀ o ∈ pre, o.isCall1 "spi/close" = false) → op.isCall1 "spi/close" = true →
        closeCalls (SPI.run T pre m).trace = closeCalls m.trace ∧
        (SPI.step T (SPI.run T pre m) op).trace
          = (SPI.run T pre m).trace ++ [Call.SPI_CloseChannel (m.spi_mem p).handle] ∧
        closeCalls (SPI.run T ops m).trace
          = closeCalls m.trace ++ [Call.SPI_CloseChannel (m.spi_mem p).handle] ∧
        (SPI.channel_gc T p (SPI.run T ops m)).2.trace = (SPI.run T ops m).trace) ∧
    ((∀ o ∈ ops, o.isCall1 "spi/close" = false) →
        closeCalls (SPI.run T ops m).trace = closeCalls m.trace ∧
        (SPI.channel_gc T p (SPI.run T ops m)).2.trace
          = (SPI.run T ops m).trace ++ [Call.SPI_CloseChannel (m.spi_mem p).handle]) ∧
    (∀ (m' : Machine) (q : Nat), (m'.spi_mem q).handle = NULL →
        (SPI.channel_gc T q m').2.trace = m'.trace) := by
  have hp : p ≠ NULL := spi_open_nonnull T 1 argv0 m0 m _ p hopen
  -- the run with a first explicit close
  have hsplit : ∀ pre op post, ops = pre ++ op :: post →
      (∀ o ∈ pre, o.isCall1 "spi/close" = false) → op.isCall1 "spi/close" = true →
      closeCalls (SPI.run T pre m).trace = closeCalls m.trace ∧
      (SPI.step T (SPI.run T pre m) op).trace
        = (SPI.run T pre m).trace ++ [Call.SPI_CloseChannel (m.spi_mem p).handle] ∧
      closeCalls (SPI.run T ops m).trace
        = closeCalls m.trace ++ [Call.SPI_CloseChannel (m.spi_mem p).handle] ∧
      (SPI.channel_gc T p (SPI.run T ops m)).2.trace = (SPI.run T ops m).trace := by
    intro pre op post hops' hpre hop
    subst hops'
    have hpre_ops : ∀ o ∈ pre, o.argv 0 = .abstract SPI.channel_type p :=
      fun o ho => hops o (List.mem_append_left _ ho)
    have hop0 : op.argv 0 = .abstract SPI.channel_type p :=
      hops op (List.mem_append_right _ (List.mem_cons_self _ _))
    have hpost_ops : ∀ o ∈ post, o.argv 0 = .abstract SPI.channel_type p :=
      fun o ho => hops o (List.mem_append_right _ (List.mem_cons_of_mem _ ho))
    have k1 := spi_run_kept T p pre m hpre_ops (Or.inl hpre)
    have hh1 : ((SPI.run T pre m).spi_mem p).handle ≠ NULL := by rw [k1.1]; exact hh
    have k2 := spi_step_close T (SPI.run T pre m) op p hop0 hp hh1 hop
    rw [k1.1] at k2
    have k3 := spi_run_kept T p post (SPI.step T (SPI.run T pre m) op) hpost_ops (Or.inr k2.1)
    have hrun : SPI.run T (pre ++ op :: post) m
        = SPI.run T post (SPI.step T (SPI.run T pre m) op) := by
      simp [SPI.run, List.foldl_append]
    refine ⟨k1.2, k2.2, ?_, ?_⟩
    · rw [hrun, k3.2, k2.2]
      simp [closeCalls, List.filter_append, Call.isClose] at k1 ⊢
      exact k1.2
    · rw [hrun]
      exact (spi_gc_trace T p _).1 (k3.1.trans k2.1)
  have hnone : (∀ o ∈ ops, o.isCall1 "spi/close" = false) →
      closeCalls (SPI.run T ops m).trace = closeCalls m.trace ∧
      (SPI.channel_gc T p (SPI.run T ops m)).2.trace
        = (SPI.run T ops m).trace ++ [Call.SPI_CloseChannel (m.spi_mem p).handle] := by
    intro hno
    have k := spi_run_kept T p ops m hops (Or.inl hno)
    refine ⟨k.2, ?_⟩
    have := (spi_gc_trace T p (SPI.run T ops m)).2 hp (by rw [k.1]; exact hh)
    rw [k.1] at this
    exact this
  refine ⟨?_, hsplit, hnone, fun m' q hq => (spi_gc_trace T q m').1 hq⟩
  by_cases hex : ∀ o ∈ ops, o.isCall1 "spi/close" = false
  · obtain ⟨h1, h2⟩ := hnone hex
    rw [h2]
    simp [closeCalls, List.filter_append, Call.isClose] at h1 ⊢
    exact h1
  · -- split at the first explicit close
    have : ∃ pre op post, ops = pre ++ op :: post ∧
        (∀ o ∈ pre, o.isCall1 "spi/close" = false) ∧ op.isCall1 "spi/close" = true := by
      clear hsplit hnone hops
      induction ops with
      | nil => exact absurd (fun o ho => absurd ho (List.not_mem_nil o)) hex
      | cons a rest ih =>
        by_cases ha : a.isCall1 "spi/close" = true
        · exact ⟨[], a, rest, rfl, fun o ho => absurd ho (List.not_mem_nil o), ha⟩
        · have ha' : a.isCall1 "spi/close" = false := by simpa using ha
          have hrest : ¬ ∀ o ∈ rest, o.isCall1 "spi/close" = false := by
            intro hr
            apply hex
            intro o ho
            rcases List.mem_cons.mp ho with rfl | ho
            · exact ha'
            · exact hr o ho
          obtain ⟨pre, op, post, e, hpre, hop⟩ := ih hrest
          refine ⟨a :: pre, op, post, by rw [e]; rfl, ?_, hop⟩
          intro o ho
          rcases List.mem_cons.mp ho with rfl | ho
          · exact ha'
          · exact hpre o ho
    obtain ⟨pre, op, post, e, hpre, hop⟩ := this
    obtain ⟨_, _, h3, h4⟩ := hsplit pre op post e hpre hop
    rw [h4]; exact h3

/-- C3: for both families, take a handle returned by a successful `open` whose
native handle is non-null, run any finite sequence of registered functions
with that handle as first argument (panics included), then the finalizer
`channel_gc`.  The transport close is called exactly once, on that native
handle: by the first call of `close` with one argument if the sequence has
one (the calls before it make no close call, that call makes it, and the
finalizer then makes no transport call), otherwise by the finalizer; and the
finalizer of an object whose native handle is null makes no transport call. -/
theorem native_handle_closed_once (T : Transport)
    (m0 m : Machine) (argv0 : Nat → Janet) (p : Nat) (ops : List Op)
    (n0 n : Machine) (argw0 : Nat → Janet) (q : Nat) (ops' : List Op)
    (hopen : I2C.cfun_i2c_openchannel T 1 argv0 m0 = (.ret (.abstract I2C.channel_type p), m))
    (hh : (m.i2c_mem p).handle ≠ NULL)
    (hops : ∀ op ∈ ops, op.argv 0 = .abstract I2C.channel_type p)
    (hopen' : SPI.cfun_spi_openchannel T 1 argw0 n0 = (.ret (.abstract SPI.channel_type q), n))
    (hh' : (n.spi_mem q).handle ≠ NULL)
    (hops' : ∀ op ∈ ops', op.argv 0 = .abstract SPI.channel_type q) :
    ((closeCalls (I2C.channel_gc T p (I2C.run T ops m)).2.trace
        = closeCalls m.trace ++ [Call.I2C_CloseChannel (m.i2c_mem p).handle]) ∧
     (∀ pre op post, ops = pre ++ op :: post →
        (∀ o ∈ pre, o.isCall1 "i2c/close" = false) → op.isCall1 "i2c/close" = true →
        closeCalls (I2C.run T pre m).trace = closeCalls m.trace ∧
        (I2C.step T (I2C.run T pre m) op).trace
          = (I2C.run T pre m).trace ++ [Call.I2C_CloseChannel (m.i2c_mem p).handle] ∧
        closeCalls (I2C.run T ops m).trace
          = closeCalls m.trace ++ [Call.I2C_CloseChannel (m.i2c_mem p).handle] ∧
        (I2C.channel_gc T p (I2C.run T ops m)).2.trace = (I2C.run T ops m).trace) ∧
     ((∀ o ∈ ops, o.isCall1 "i2c/close" = false) →
        closeCalls (I2C.run T ops m).trace = closeCalls m.trace ∧
        (I2C.channel_gc T p (I2C.run T ops m)).2.trace
          = (I2C.run T ops m).trace ++ [Call.I2C_CloseChannel (m.i2c_mem p).handle]) ∧
     (∀ (x : Machine) (r : Nat), (x.i2c_mem r).handle = NULL →
        (I2C.channel_gc T r x).2.trace = x.trace)) ∧
    ((closeCalls (SPI.channel_gc T q (SPI.run T ops' n)).2.trace
        = closeCalls n.trace ++ [Call.SPI_CloseChannel (n.spi_mem q).handle]) ∧
     (∀ pre op post, ops' = pre ++ op :: post →
        (∀ o ∈ pre, o.isCall1 "spi/close" = false) → op.isCall1 "spi/close" = true →
        closeCalls (SPI.run T pre n).trace = closeCalls n.trace ∧
        (SPI.step T (SPI.run T pre n) op).trace
          = (SPI.run T pre n).trace ++ [Call.SPI_CloseChannel (n.spi_mem q).handle] ∧
        closeCalls (SPI.run T ops' n).trace
          = closeCalls n.trace ++ [Call.SPI_CloseChannel (n.spi_mem q).handle] ∧
        (SPI.channel_gc T q (SPI.run T ops' n)).2.trace = (SPI.run T ops' n).trace) ∧
     ((∀ o ∈ ops', o.isCall1 "spi/close" = false) →
        closeCalls (SPI.run T ops' n).trace = closeCalls n.trace ∧
        (SPI.channel_gc T q (SPI.run T ops' n)).2.trace
          = (SPI.run T ops' n).trace ++ [Call.SPI_CloseChannel (n.spi_mem q).handle]) ∧
     (∀ (x : Machine) (r : Nat), (x.spi_mem r).handle = NULL →
        (SPI.channel_gc T r x).2.trace = x.trace)) :=
  ⟨i2c_handle_closed_once T m0 m argv0 p ops hopen hh hops,
   spi_handle_closed_once T n0 n argw0 q ops' hopen' hh' hops'⟩

/-- Witness of C3 on the concrete machine: channel 1 is opened (the object is
at address 3), then read, closed, written to and finalized. -/
theorem native_handle_closed_once_witness :
    closeCalls (I2C.channel_gc demoTransport 3
        (I2C.run demoTransport demoI2cOps
          (I2C.cfun_i2c_openchannel demoTransport 1 (argvOf [.number 1]) demoMachine).2)).2.trace
      = [Call.I2C_CloseChannel 7] ∧
    closeCalls (SPI.channel_gc demoTransport 3
        (SPI.run demoTransport demoSpiOps
          (SPI.cfun_spi_openchannel demoTransport 1 (argvOf [.number 1]) demoMachine).2)).2.trace
      = [Call.SPI_CloseChannel 7] :=
  ⟨(native_handle_closed_once demoTransport
      demoMachine (I2C.cfun_i2c_openchannel demoTransport 1 (argvOf [.number 1]) demoMachine).2
      (argvOf [.number 1]) 3 demoI2cOps
      demoMachine (SPI.cfun_spi_openchannel demoTransport 1 (argvOf [.number 1]) demoMachine).2
      (argvOf [.number 1]) 3 demoSpiOps
      rfl (by decide) (by intro op h; simp [demoI2cOps, demoSpiOps] at h; rcases h with rfl | rfl | rfl <;> rfl)
      rfl (by decide)
      (by intro op h; simp [demoI2cOps, demoSpiOps] at h; rcases h with rfl | rfl | rfl <;> rfl)).1.1,
   (native_handle_closed_once demoTransport
      demoMachine (I2C.cfun_i2c_openchannel demoTransport 1 (argvOf [.number 1]) demoMachine).2
      (argvOf [.number 1]) 3 demoI2cOps
      demoMachine (SPI.cfun_spi_openchannel demoTransport 1 (argvOf [.number 1]) demoMachine).2
      (argvOf [.number 1]) 3 demoSpiOps
      rfl (by decide) (by intro op h; simp [demoI2cOps, demoSpiOps] at h; rcases h with rfl | rfl | rfl <;> rfl)
      rfl (by decide)
      (by intro op h; simp [demoI2cOps, demoSpiOps] at h; rcases h with rfl | rfl | rfl <;> rfl)).2.1⟩

/-! ## After close -/

/-- C11: `cfun_i2c_initchannel` takes a numeric clock from argument slot 2, the
latency slot, not from slot 1.  On the open channel of the concrete machine
`(i2c/init chan 4000000 16)` does not panic: it returns true, stores clock
rate 16 and latency 16 and calls the transport init with them. -/
theorem i2c_init_clock_above_bound_accepted :
    (I2C.cfun_i2c_initchannel demoTransport 3
        (argvOf [.abstract I2C.channel_type 1, .number 4000000, .number 16]) demoMachine).1
      = .ret (.boolean true) ∧
    (I2C.cfun_i2c_initchannel demoTransport 3
        (argvOf [.abstract I2C.channel_type 1, .number 4000000, .number 16]) demoMachine).2.trace
      = [Call.I2C_InitChannel 7 ⟨16, 16, 0⟩] ∧
    ((I2C.cfun_i2c_initchannel demoTransport 3
        (argvOf [.abstract I2C.channel_type 1, .number 4000000, .number 16])
        demoMachine).2.i2c_mem 1).config = ⟨16, 16, 0⟩ ∧
    (demoMachine.i2c_mem 1).config = ⟨0, 0, 0⟩ := by
  decide

/-- C12: both `init` functions take the numeric clock from argument slot 2, the
latency slot.  On the open channels of the concrete machine
`(i2c/init chan 100000 16)` and `(spi/init chan 1000000 16)` hand the
transport a config with clock rate 16, and `(spi/init chan 40000000 16)`,
whose clock is above the SPI bound, is accepted. -/
theorem init_clock_read_from_latency_slot :
    (I2C.cfun_i2c_initchannel demoTransport 3
        (argvOf [.abstract I2C.channel_type 1, .number 100000, .number 16]) demoMachine).2.trace
      = [Call.I2C_InitChannel 7 ⟨16, 16, 0⟩] ∧
    (SPI.cfun_spi_initchannel demoTransport 3
        (argvOf [.abstract SPI.channel_type 1, .number 1000000, .number 16]) demoMachine).2.trace
      = [Call.SPI_InitChannel 7 ⟨16, 16, 0⟩] ∧
    (SPI.cfun_spi_initchannel demoTransport 3
        (argvOf [.abstract SPI.channel_type 1, .number 40000000, .number 16]) demoMachine).1
      = .ret (.boolean true) ∧
    (SPI.cfun_spi_initchannel demoTransport 3
        (argvOf [.abstract SPI.channel_type 1, .number 40000000, .number 16]) demoMachine).2.trace
      = [Call.SPI_InitChannel 7 ⟨16, 16, 0⟩] := by
  decide

/-- C13, as stated, fails: the SPI `init` accepts latency 0 (its documented
range is 0 to 255) and hands it to the transport; and the I2C `init` accepts
latency 257, which it stores as 1, because the latency is cut to 8 bits before
it is checked. -/
theorem init_latency_counterexample :
    (SPI.cfun_spi_initchannel demoTransport 3
        (argvOf [.abstract SPI.channel_type 1, .number 1000, .number 0]) demoMachine).1
      = .ret (.boolean true) ∧
    (SPI.cfun_spi_initchannel demoTransport 3
        (argvOf [.abstract SPI.channel_type 1, .number 1000, .number 0]) demoMachine).2.trace
      = [Call.SPI_InitChannel 7 ⟨0, 0, 0⟩] ∧
    (I2C.cfun_i2c_initchannel demoTransport 3
        (argvOf [.abstract I2C.channel_type 1, .keyword "fast", .number 257]) demoMachine).2.trace
      = [Call.I2C_InitChannel 7 ⟨400000, 1, 0⟩] := by
  decide

/-- C13, amended: the I2C `init` with latency 0 panics without a transport
call; the SPI `init` on an open handle accepts latency 0; on an open handle
both accept every latency in 1..255, store it unchanged and hand the
transport a config with that latency; and the I2C `init` on an open handle,
called without a latency argument and with a clock slot that holds no
number, stores latency 255 and hands it to the transport. -/
theorem init_latency_range (T : Transport) (m : Machine) (argv argv' : Nat → Janet)
    (argc c c' : Nat) (l : Nat)
    (h0 : argv 0 = .abstract I2C.channel_type c) (hh : (m.i2c_mem c).handle ≠ NULL)
    (h0' : argv' 0 = .abstract SPI.channel_type c') (hh' : (m.spi_mem c').handle ≠ NULL) :
    (argv 2 = .number 0 →
      (I2C.cfun_i2c_initchannel T 3 argv m).1.isPanic = true ∧
      (I2C.cfun_i2c_initchannel T 3 argv m).2.trace = m.trace) ∧
    (argv' 2 = .number 0 →
      (SPI.cfun_spi_initchannel T 3 argv' m).1.isPanic = false ∧
      ∃ clock, (SPI.cfun_spi_initchannel T 3 argv' m).2.trace
        = m.trace ++ [Call.SPI_InitChannel (m.spi_mem c').handle
            ⟨clock, 0, (m.spi_mem c').config.configOptions⟩]) ∧
    (1 ≤ l → l ≤ 255 → argv 2 = .number l →
      (I2C.cfun_i2c_initchannel T 3 argv m).1.isPanic = false ∧
      ((I2C.cfun_i2c_initchannel T 3 argv m).2.i2c_mem c).config.LatencyTimer = l ∧
      ∃ clock, (I2C.cfun_i2c_initchannel T 3 argv m).2.trace
        = m.trace ++ [Call.I2C_InitChannel (m.i2c_mem c).handle
            ⟨clock, l, (m.i2c_mem c).config.Options⟩]) ∧
    (1 ≤ l → l ≤ 255 → argv' 2 = .number l →
      (SPI.cfun_spi_initchannel T 3 argv' m).1.isPanic = false ∧
      ((SPI.cfun_spi_initchannel T 3 argv' m).2.spi_mem c').config.LatencyTimer = l ∧
      ∃ clock, (SPI.cfun_spi_initchannel T 3 argv' m).2.trace
        = m.trace ++ [Call.SPI_InitChannel (m.spi_mem c').handle
            ⟨clock, l, (m.spi_mem c').config.configOptions⟩]) ∧
    (1 ≤ argc → argc ≤ 2 → janet_checktype (argv 1) JANET_NUMBER = false →
      (I2C.cfun_i2c_initchannel T argc argv m).1.isPanic = false ∧
      ((I2C.cfun_i2c_initchannel T argc argv m).2.i2c_mem c).config.LatencyTimer = 255 ∧
      ∃ clock, (I2C.cfun_i2c_initchannel T argc argv m).2.trace
        = m.trace ++ [Call.I2C_InitChannel (m.i2c_mem c).handle
            ⟨clock, 255, (m.i2c_mem c).config.Options⟩]) := by
  have e1 : ¬ (NULL = (m.i2c_mem c).handle) := fun h => hh h.symm
  have e2 : ¬ (NULL = (m.spi_mem c').handle) := fun h => hh' h.symm
  refine ⟨?_, ?_, ?_, ?_, ?_⟩
  · intro h2
    cases hr : I2C.initchannel_rate 3 argv with
    | error msg =>
      simp [I2C.cfun_i2c_initchannel, janet_arity, janet_getabstract, h0, hr, Outcome.isPanic]
    | ok rate =>
      simp [I2C.cfun_i2c_initchannel, janet_arity, janet_getabstract, h0, hr, janet_optinteger,
        janet_getinteger, h2, toUInt8, Outcome.isPanic, Machine.set_i2c]
  · intro h2
    simp [SPI.cfun_spi_initchannel, janet_arity, janet_getabstract, h0', janet_getuinteger,
      janet_optinteger, janet_getinteger, h2, toUInt8, Outcome.isPanic, Machine.set_spi,
      Machine.call, ret, SPI.set_status_dyn, janet_setdyn, e2]
  · intro hl1 hl2 h2
    have hlz : (l : Int) ≠ 0 := by omega
    have hl3 : (l : Int) ≤ 4294967295 := by omega
    have hl4 : (l : Int) ≤ 2147483647 := by omega
    have hl5 : (-2147483648 : Int) ≤ l := by omega
    have hl6 : ¬ (3400000 < l) := by omega
    have hu : toUInt8 (l : Int) = l := by simp only [toUInt8]; omega
    have hl7 : ¬ (l < 1) := by omega
    have hl8 : ¬ (255 < l) := by omega
    obtain ⟨rate, hr⟩ : ∃ rate, I2C.initchannel_rate 3 argv = .ok rate := by
      cases h1 : argv 1 <;>
        simp [I2C.initchannel_rate, janet_checktype, janet_type, h1, janet_optkeyword,
          janet_getkeyword, janet_getuinteger, h2, hl3, hl6]
      split_ifs <;> exact ⟨_, rfl⟩
    simp [I2C.cfun_i2c_initchannel, janet_arity, janet_getabstract, h0, hr, janet_optinteger,
      janet_getinteger, h2, hu, hlz, hl4, hl5, hl7, hl8, Outcome.isPanic, Machine.set_i2c,
      Machine.call, ret, I2C.set_status_dyn, janet_setdyn, e1]
  · intro hl1 hl2 h2
    have hlz : (l : Int) ≠ 0 := by omega
    have hl3 : (l : Int) ≤ 4294967295 := by omega
    have hl4 : (l : Int) ≤ 2147483647 := by omega
    have hl5 : (-2147483648 : Int) ≤ l := by omega
    have hl6 : ¬ (30000000 < l) := by omega
    have hl9 : ¬ ((l : Int) < 0) := by omega
    have hu : toUInt8 (l : Int) = l := by simp only [toUInt8]; omega
    have hl8 : ¬ (255 < l) := by omega
    simp [SPI.cfun_spi_initchannel, janet_arity, janet_getabstract, h0', janet_getuinteger,
      janet_optinteger, janet_getinteger, h2, hu, hlz, hl3, hl4, hl5, hl6, hl8, hl9, Outcome.isPanic,
      Machine.set_spi, Machine.call, ret, SPI.set_status_dyn, janet_setdyn, e2]
  · intro ha1 ha2 hn
    have hu : toUInt8 (255 : Int) = 255 := by decide
    have ha3 : janet_arity argc 1 3 = true := by simp [janet_arity]; omega
    obtain ⟨rate, hr⟩ : ∃ rate, I2C.initchannel_rate argc argv = .ok rate := by
      have hn' : janet_type (argv 1) ≠ JANET_NUMBER := by
        simpa [janet_checktype] using hn
      cases h1 : argv 1 <;>
        simp [I2C.initchannel_rate, janet_checktype, janet_type, h1, janet_optkeyword,
          janet_getkeyword] at hn' ⊢
      split_ifs <;> first | exact ⟨_, rfl⟩ | (dsimp only; split_ifs <;> exact ⟨_, rfl⟩)
    have ho : janet_optinteger argv argc 2 255 = some 255 := by
      simp [janet_optinteger, ha2]
    simp [I2C.cfun_i2c_initchannel, ha3, janet_getabstract, h0, hr, ho, hu,
      Outcome.isPanic, Machine.set_i2c, Machine.call, ret, I2C.set_status_dyn, janet_setdyn, e1]

/-- Witness of amended C13 on the concrete machine: latency 0, latency 16 and
an omitted latency after the keyword `:fast`. -/
theorem init_latency_range_witness :
    ((I2C.cfun_i2c_initchannel demoTransport 3
        (argvOf [.abstract I2C.channel_type 1, .keyword "fast", .number 0]) demoMachine).1.isPanic
        = true ∧
      (I2C.cfun_i2c_initchannel demoTransport 3
        (argvOf [.abstract I2C.channel_type 1, .keyword "fast", .number 0]) demoMachine).2.trace
        = demoMachine.trace) ∧
    ((SPI.cfun_spi_initchannel demoTransport 3
        (argvOf [.abstract SPI.channel_type 1, .number 1000, .number 16])
        demoMachine).2.spi_mem 1).config.LatencyTimer = 16 ∧
    ((I2C.cfun_i2c_initchannel demoTransport 2
        (argvOf [.abstract I2C.channel_type 1, .keyword "fast"])
        demoMachine).2.i2c_mem 1).config.LatencyTimer = 255 :=
  ⟨(init_latency_range demoTransport demoMachine
      (argvOf [.abstract I2C.channel_type 1, .keyword "fast", .number 0])
      (argvOf [.abstract SPI.channel_type 1, .number 1000, .number 0]) 2 1 1 16
      (by decide) (by decide) (by decide) (by decide)).1 (by decide),
   ((init_latency_range demoTransport demoMachine
      (argvOf [.abstract I2C.channel_type 1, .keyword "fast", .number 16])
      (argvOf [.abstract SPI.channel_type 1, .number 1000, .number 16]) 2 1 1 16
      (by decide) (by decide) (by decide) (by decide)).2.2.2.1
      (by decide) (by decide) (by decide)).2.1,
   ((init_latency_range demoTransport demoMachine
      (argvOf [.abstract I2C.channel_type 1, .keyword "fast"])
      (argvOf [.abstract SPI.channel_type 1, .number 1000, .number 16]) 2 1 1 16
      (by decide) (by decide) (by decide) (by decide)).2.2.2.2
      (by decide) (by decide) (by decide)).2.1⟩

/-- The keyword presets of `cfun_i2c_initchannel`: with at least two arguments
and a keyword in the clock slot, the clock rate it stores is 400,000 for
`fast`, 1,000,000 for `fast-plus`, 3,400,000 for `high-speed` and 100,000 for
every other keyword, `standard` included. -/
theorem i2c_init_keyword_presets (argc : Nat) (argv : Nat → Janet) (clock : String)
    (hargc : 2 ≤ argc) (h1 : argv 1 = .keyword clock) :
    I2C.initchannel_rate argc argv
      = .ok (if clock = "fast" then 400000
             else if clock = "fast-plus" then 1000000
             else if clock = "high-speed" then 3400000
             else 100000) := by
  have ha : ¬ (argc ≤ 1) := by omega
  simp only [I2C.initchannel_rate, janet_checktype, janet_type, h1, janet_optkeyword,
    janet_getkeyword, ha]
  simp
  split_ifs <;> rfl

/-- C14: `cfun_i2c_initchannel` looks at `argv[1]` (and then `argv[2]`) without
asking whether the call has that many arguments.  Called with the handle
alone while the stack slots after it still hold the numbers 80 and 2 (the
arguments of an earlier read), it stores clock rate 2, not 100,000, and hands
it to the transport; with nil in those slots it stores 100,000. -/
theorem i2c_init_default_clock_reads_past_arguments :
    (I2C.cfun_i2c_initchannel demoTransport 1
        (argvOf [.abstract I2C.channel_type 1, .number 80, .number 2]) demoMachine).2.trace
      = [Call.I2C_InitChannel 7 ⟨2, 255, 0⟩] ∧
    (I2C.cfun_i2c_initchannel demoTransport 1
        (argvOf [.abstract I2C.channel_type 1]) demoMachine).2.trace
      = [Call.I2C_InitChannel 7 ⟨100000, 255, 0⟩] ∧
    (I2C.cfun_i2c_initchannel demoTransport 2
        (argvOf [.abstract I2C.channel_type 1, .keyword "fast-plus"]) demoMachine).2.trace
      = [Call.I2C_InitChannel 7 ⟨1000000, 255, 0⟩] := by
  decide

/-! ## Static config tokens -/

/-- C17: `cfun_i2c_set_config_options` compares the token with
`enable-drive-only`, not with the documented `enable-drive-only-zero`.  On the
concrete machine `(i2c/config chan :enable-drive-only-zero)` panics and
changes nothing, while the undocumented `:enable-drive-only` sets bit 0x0002. -/
theorem i2c_config_documented_token_rejected :
    I2C.cfun_i2c_set_config_options demoTransport 2
        (argvOf [.abstract I2C.channel_type 1, .keyword "enable-drive-only-zero"]) demoMachine
      = (.panic "invalid I2C config option %p, in slot #%d", demoMachine) ∧
    (I2C.cfun_i2c_set_config_options demoTransport 3
        (argvOf [.abstract I2C.channel_type 1, .keyword "disable-3phase-clocking",
          .keyword "enable-drive-only-zero"]) demoMachine).1.isPanic = true ∧
    ((I2C.cfun_i2c_set_config_options demoTransport 2
        (argvOf [.abstract I2C.channel_type 1, .keyword "enable-drive-only"])
        demoMachine).2.i2c_mem 1).config.Options = 0x0002 :=
  ⟨rfl, by decide, by decide⟩

/-! ## Option tokens -/

theorem i2c_transfer_loop_ok_iff (T : Transport) (argv : Nat → Janet) (rw : Nat) :
    ∀ (n i o : Nat), (∃ mask, I2C.transfer_option_loop T argv rw n i o = .ok mask) ↔
      ∀ j, j < n → ∃ t, argv (i + j) = .keyword t ∧ I2C.inVocabulary rw t := by
  intro n
  induction n with
  | zero =>
    intro i o
    simp [I2C.transfer_option_loop]
  | succ n ih =>
    intro i o
    have shift : (∀ j, j < n → ∃ t, argv (i + 1 + j) = .keyword t ∧ I2C.inVocabulary rw t) ↔
        (∀ j, 1 ≤ j → j < n + 1 → ∃ t, argv (i + j) = .keyword t ∧ I2C.inVocabulary rw t) := by
      constructor
      · intro h j h1 h2
        have := h (j - 1) (by omega)
        rwa [show i + 1 + (j - 1) = i + j by omega] at this
      · intro h j hj
        have := h (j + 1) (by omega) (by omega)
        rwa [show i + (j + 1) = i + 1 + j by omega] at this
    have split0 : (∀ j, j < n + 1 → ∃ t, argv (i + j) = .keyword t ∧ I2C.inVocabulary rw t) ↔
        ((∃ t, argv i = .keyword t ∧ I2C.inVocabulary rw t) ∧
         (∀ j, 1 ≤ j → j < n + 1 → ∃ t, argv (i + j) = .keyword t ∧ I2C.inVocabulary rw t)) := by
      constructor
      · intro h
        exact ⟨by simpa using h 0 (by omega), fun j _ h2 => h j h2⟩
      · rintro ⟨h0, h⟩ j hj
        rcases Nat.eq_zero_or_pos j with rfl | hpos
        · simpa using h0
        · exact h j hpos hj
    rw [split0, ← shift]
    unfold I2C.transfer_option_loop
    cases hv : argv i with
    | keyword opt =>
      dsimp only
      simp only [Janet.keyword.injEq, exists_eq_left']
      split_ifs with h1 h2 h3 h4 h5 h6 h7
      all_goals first
        | (rw [ih]; simp_all [I2C.inVocabulary])
        | (simp_all [I2C.inVocabulary])
    | _ => simp

/-- C16: the I2C option composer accepts the tokens in the slots `1 .. argc - 1`
exactly when each of them is a keyword of the vocabulary of the direction `rw`:
start, stop, fast-transfer-bits, fast-transfer-bytes and no-address for both
directions, break-on-nak for write only, nak-last-byte for read only.  So
nak-last-byte for write and break-on-nak for read are refused, and the setters
panic on them and leave the machine as it was. -/
theorem i2c_composer_accepts_exactly_vocabulary (T : Transport) (argc : Nat)
    (argv : Nat → Janet) (rw : Nat) (x : Janet) :
    ((∃ mask, I2C.transfer_option_keywords T argc argv rw = .ok mask) ↔
      ∀ i, 1 ≤ i → i < argc → ∃ t, argv i = .keyword t ∧
        (t = "start" ∨ t = "stop" ∨ t = "fast-transfer-bits" ∨ t = "fast-transfer-bytes" ∨
         t = "no-address" ∨ (rw = I2C.WRITE_TRANSFER_OPT ∧ t = "break-on-nak") ∨
         (rw = I2C.READ_TRANSFER_OPT ∧ t = "nak-last-byte"))) ∧
    I2C.transfer_option_keywords T 2 (tokenArgv x ["nak-last-byte"]) I2C.WRITE_TRANSFER_OPT
      = .error "invalid I2C transfer option %p" ∧
    I2C.transfer_option_keywords T 2 (tokenArgv x ["break-on-nak"]) I2C.READ_TRANSFER_OPT
      = .error "invalid I2C transfer option %p" ∧
    I2C.cfun_i2c_set_write_options demoTransport 2
        (tokenArgv (.abstract I2C.channel_type 3) ["nak-last-byte"]) demoMachine
      = (.panic "invalid I2C transfer option %p", demoMachine) ∧
    I2C.cfun_i2c_set_read_options demoTransport 2
        (tokenArgv (.abstract I2C.channel_type 3) ["break-on-nak"]) demoMachine
      = (.panic "invalid I2C transfer option %p", demoMachine) := by
  refine ⟨?_, ?_, ?_, rfl, rfl⟩
  · rw [I2C.transfer_option_keywords, i2c_transfer_loop_ok_iff]
    constructor
    · intro h i h1 h2
      have := h (i - 1) (by omega)
      rwa [show 1 + (i - 1) = i by omega] at this
    · intro h j hj
      exact h (1 + j) (by omega) (by omega)
  · simp [I2C.transfer_option_keywords, I2C.transfer_option_loop, tokenArgv, argvOf,
      I2C.WRITE_TRANSFER_OPT, I2C.READ_TRANSFER_OPT]
  · simp [I2C.transfer_option_keywords, I2C.transfer_option_loop, tokenArgv, argvOf,
      I2C.WRITE_TRANSFER_OPT, I2C.READ_TRANSFER_OPT]

theorem tokenArgv_succ (x : Janet) (l : List String) (j : Nat) (h : j < l.length) :
    tokenArgv x l (1 + j) = .keyword (l.get ⟨j, h⟩) := by
  simp [tokenArgv, argvOf, Nat.add_comm 1 j, List.getD_eq_getElem?_getD, h]

theorem i2c_transfer_loop_eq (T : Transport) (argv : Nat → Janet) (rw : Nat) :
    ∀ (l : List String) (i o : Nat),
      (∀ j (h : j < l.length), argv (i + j) = .keyword (l.get ⟨j, h⟩)) →
      I2C.transfer_option_loop T argv rw l.length i o
        = composeBits (I2C.transfer_option_bit T rw) "invalid I2C transfer option %p" l o := by
  intro l
  induction l with
  | nil => intro i o _; rfl
  | cons t ts ih =>
    intro i o h
    have h0 : argv i = .keyword t := by simpa using h 0 (by simp)
    have hs : ∀ j (hj : j < ts.length), argv (i + 1 + j) = .keyword (ts.get ⟨j, hj⟩) := by
      intro j hj
      have := h (j + 1) (by simp; omega)
      rw [show i + (j + 1) = i + 1 + j by omega] at this
      simpa using this
    simp only [List.length_cons, I2C.transfer_option_loop, h0, composeBits,
      I2C.transfer_option_bit]
    split_ifs <;> first | exact ih _ _ hs | rfl

theorem composeBits_eq (bit : String → Option Nat) (err : String) :
    ∀ (l : List String) (o : Nat),
      composeBits bit err l o
        = if l.all (fun t => (bit t).isSome) then .ok (o ||| orBits bit l) else .error err := by
  intro l
  induction l with
  | nil => intro o; simp [composeBits, orBits]
  | cons t ts ih =>
    intro o
    cases hb : bit t with
    | none => simp [composeBits, hb]
    | some b =>
      simp only [composeBits, hb, ih, List.all_cons, Option.isSome_some, Bool.true_and, orBits,
        List.foldr_cons, Option.getD_some]
      split_ifs
      · rw [Nat.lor_assoc]
      · rfl

theorem orBits_testBit (bit : String → Option Nat) (l : List String) (k : Nat) :
    (orBits bit l).testBit k = l.any (fun t => ((bit t).getD 0).testBit k) := by
  induction l with
  | nil => simp [orBits]
  | cons t ts ih =>
    simp only [orBits, List.foldr_cons, Nat.testBit_lor, List.any_cons] at ih ⊢
    rw [ih]

theorem orBits_congr (bit : String → Option Nat) (l1 l2 : List String)
    (h : ∀ t, t ∈ l1 ↔ t ∈ l2) : orBits bit l1 = orBits bit l2 := by
  apply Nat.eq_of_testBit_eq
  intro k
  rw [orBits_testBit, orBits_testBit, Bool.eq_iff_iff]
  simp only [List.any_eq_true]
  constructor
  · rintro ⟨t, ht, hp⟩; exact ⟨t, (h t).mp ht, hp⟩
  · rintro ⟨t, ht, hp⟩; exact ⟨t, (h t).mpr ht, hp⟩

theorem composeBits_congr (bit : String → Option Nat) (err : String) (l1 l2 : List String)
    (h : ∀ t, t ∈ l1 ↔ t ∈ l2) :
    composeBits bit err l1 0 = composeBits bit err l2 0 := by
  have ha : l1.all (fun t => (bit t).isSome) = l2.all (fun t => (bit t).isSome) := by
    rw [Bool.eq_iff_iff]
    simp only [List.all_eq_true]
    constructor
    · intro hh t ht; exact hh t ((h t).mpr ht)
    · intro hh t ht; exact hh t ((h t).mp ht)
  rw [composeBits_eq, composeBits_eq, ha, orBits_congr bit l1 l2 h]


theorem spi_transfer_loop_eq (T : Transport) (argv : Nat → Janet) :
    ∀ (l : List String) (i o : Nat),
      (∀ j (h : j < l.length), argv (i + j) = .keyword (l.get ⟨j, h⟩)) →
      SPI.spi_transfer_option_loop T argv l.length i o
        = composeBits (SPI.spi_transfer_option_bit T) "invalid SPI transfer option %p" l o := by
  intro l
  induction l with
  | nil => intro i o _; rfl
  | cons t ts ih =>
    intro i o h
    have h0 : argv i = .keyword t := by simpa using h 0 (by simp)
    have hs : ∀ j (hj : j < ts.length), argv (i + 1 + j) = .keyword (ts.get ⟨j, hj⟩) := by
      intro j hj
      have := h (j + 1) (by simp; omega)
      rw [show i + (j + 1) = i + 1 + j by omega] at this
      simpa using this
    simp only [List.length_cons, SPI.spi_transfer_option_loop, h0, composeBits,
      SPI.spi_transfer_option_bit]
    split_ifs <;> first | exact ih _ _ hs | rfl

theorem i2c_config_loop_eq (T : Transport) (argv : Nat → Janet) :
    ∀ (l : List String) (i o : Nat),
      (∀ j (h : j < l.length), argv (i + j) = .keyword (l.get ⟨j, h⟩)) →
      I2C.config_option_loop T argv l.length i o
        = composeBits (I2C.config_option_bit T) "invalid I2C config option %p, in slot #%d" l o := by
  intro l
  induction l with
  | nil => intro i o _; rfl
  | cons t ts ih =>
    intro i o h
    have h0 : argv i = .keyword t := by simpa using h 0 (by simp)
    have hs : ∀ j (hj : j < ts.length), argv (i + 1 + j) = .keyword (ts.get ⟨j, hj⟩) := by
      intro j hj
      have := h (j + 1) (by simp; omega)
      rw [show i + (j + 1) = i + 1 + j by omega] at this
      simpa using this
    simp only [List.length_cons, I2C.config_option_loop, h0, composeBits,
      I2C.config_option_bit]
    split_ifs <;> first | exact ih _ _ hs | rfl

theorem spi_config_loop_eq (T : Transport) (argv : Nat → Janet) :
    ∀ (l : List String) (i o : Nat),
      (∀ j (h : j < l.length), argv (i + j) = .keyword (l.get ⟨j, h⟩)) →
      SPI.config_option_loop T argv l.length i o
        = composeBits (SPI.config_option_bit T) "invalid SPI config option %p, in slot #%d" l o := by
  intro l
  induction l with
  | nil => intro i o _; rfl
  | cons t ts ih =>
    intro i o h
    have h0 : argv i = .keyword t := by simpa using h 0 (by simp)
    have hs : ∀ j (hj : j < ts.length), argv (i + 1 + j) = .keyword (ts.get ⟨j, hj⟩) := by
      intro j hj
      have := h (j + 1) (by simp; omega)
      rw [show i + (j + 1) = i + 1 + j by omega] at this
      simpa using this
    simp only [List.length_cons, SPI.config_option_loop, h0, composeBits,
      SPI.config_option_bit]
    by_cases c0 : t = "mode0"
    · rw [if_pos c0, if_pos c0]; exact ih _ _ hs
    rw [if_neg c0, if_neg c0]
    by_cases c1 : t = "mode1"
    · rw [if_pos c1, if_pos c1]; exact ih _ _ hs
    rw [if_neg c1, if_neg c1]
    by_cases c2 : t = "mode2"
    · rw [if_pos c2, if_pos c2]; exact ih _ _ hs
    rw [if_neg c2, if_neg c2]
    by_cases c3 : t = "mode3"
    · rw [if_pos c3, if_pos c3]; exact ih _ _ hs
    rw [if_neg c3, if_neg c3]
    by_cases c4 : t = "bus3"
    · rw [if_pos c4, if_pos c4]; exact ih _ _ hs
    rw [if_neg c4, if_neg c4]
    by_cases c5 : t = "bus4"
    · rw [if_pos c5, if_pos c5]; exact ih _ _ hs
    rw [if_neg c5, if_neg c5]
    by_cases c6 : t = "bus5"
    · rw [if_pos c6, if_pos c6]; exact ih _ _ hs
    rw [if_neg c6, if_neg c6]
    by_cases c7 : t = "bus6"
    · rw [if_pos c7, if_pos c7]; exact ih _ _ hs
    rw [if_neg c7, if_neg c7]
    by_cases c8 : t = "bus7"
    · rw [if_pos c8, if_pos c8]; exact ih _ _ hs
    rw [if_neg c8, if_neg c8]
    by_cases c9 : t = "active-low"
    · rw [if_pos c9, if_pos c9]; exact ih _ _ hs
    rw [if_neg c9, if_neg c9]

/-- C15: option composition depends only on the set of tokens.  For two token
lists with the same members (so for every permutation of a list, and for every
list that repeats entries of it), each of the composers (the I2C transfer
options of either direction `rw`, the SPI transfer options, the I2C and the SPI
static config loops) yields a mask for the one list exactly when it yields the
same mask for the other; and both `start, stop` and `stop, start` compose to
the or of the start bit and the stop bit. -/
theorem option_composition_order_independent_idempotent (T : Transport) (x : Janet) (rw : Nat)
    (l1 l2 : List String) (h : ∀ t, t ∈ l1 ↔ t ∈ l2) :
    (∀ mask, I2C.transfer_option_keywords T (l1.length + 1) (tokenArgv x l1) rw = .ok mask ↔
      I2C.transfer_option_keywords T (l2.length + 1) (tokenArgv x l2) rw = .ok mask) ∧
    (∀ mask, SPI.spi_transfer_option_keywords T (l1.length + 1) (tokenArgv x l1) = .ok mask ↔
      SPI.spi_transfer_option_keywords T (l2.length + 1) (tokenArgv x l2) = .ok mask) ∧
    (∀ mask, I2C.config_option_loop T (tokenArgv x l1) l1.length 1 0 = .ok mask ↔
      I2C.config_option_loop T (tokenArgv x l2) l2.length 1 0 = .ok mask) ∧
    (∀ mask, SPI.config_option_loop T (tokenArgv x l1) l1.length 1 0 = .ok mask ↔
      SPI.config_option_loop T (tokenArgv x l2) l2.length 1 0 = .ok mask) ∧
    I2C.transfer_option_keywords T 3 (tokenArgv x ["start", "stop"]) rw
      = .ok (T.I2C_TRANSFER_OPTIONS_START_BIT ||| T.I2C_TRANSFER_OPTIONS_STOP_BIT) ∧
    I2C.transfer_option_keywords T 3 (tokenArgv x ["stop", "start"]) rw
      = .ok (T.I2C_TRANSFER_OPTIONS_START_BIT ||| T.I2C_TRANSFER_OPTIONS_STOP_BIT) := by
  refine ⟨?_, ?_, ?_, ?_, ?_, ?_⟩
  · intro mask
    simp only [I2C.transfer_option_keywords, Nat.add_sub_cancel]
    rw [i2c_transfer_loop_eq T _ rw l1 1 0 (tokenArgv_succ x l1),
      i2c_transfer_loop_eq T _ rw l2 1 0 (tokenArgv_succ x l2),
      composeBits_congr _ _ l1 l2 h]
  · intro mask
    simp only [SPI.spi_transfer_option_keywords, Nat.add_sub_cancel]
    rw [spi_transfer_loop_eq T _ l1 1 0 (tokenArgv_succ x l1),
      spi_transfer_loop_eq T _ l2 1 0 (tokenArgv_succ x l2),
      composeBits_congr _ _ l1 l2 h]
  · intro mask
    rw [i2c_config_loop_eq T _ l1 1 0 (tokenArgv_succ x l1),
      i2c_config_loop_eq T _ l2 1 0 (tokenArgv_succ x l2),
      composeBits_congr _ _ l1 l2 h]
  · intro mask
    rw [spi_config_loop_eq T _ l1 1 0 (tokenArgv_succ x l1),
      spi_config_loop_eq T _ l2 1 0 (tokenArgv_succ x l2),
      composeBits_congr _ _ l1 l2 h]
  · simp [I2C.transfer_option_keywords, I2C.transfer_option_loop, tokenArgv, argvOf]
  · simp [I2C.transfer_option_keywords, I2C.transfer_option_loop, tokenArgv, argvOf,
      Nat.lor_comm]

theorem option_composition_order_independent_idempotent_witness :
    (∀ t, t ∈ ["start", "stop"] ↔ t ∈ ["stop", "start", "stop"]) ∧
    I2C.transfer_option_keywords demoTransport 3 (tokenArgv .nil ["start", "stop"])
      I2C.WRITE_TRANSFER_OPT = .ok 3 ∧
    I2C.transfer_option_keywords demoTransport 4 (tokenArgv .nil ["stop", "start", "stop"])
      I2C.WRITE_TRANSFER_OPT = .ok 3 :=
  ⟨by intro t; simp; tauto, rfl,
    ((option_composition_order_independent_idempotent demoTransport .nil I2C.WRITE_TRANSFER_OPT
      ["start", "stop"] ["stop", "start", "stop"] (by intro t; simp; tauto)).1 3).mp
      rfl⟩

/-! ## The status registry -/

theorem dynKept_refl (k : String) (m : Machine) : DynKept k m m := rfl

theorem ite_dynKept (k : String) (m : Machine) (b : Bool) (a c : Outcome × Machine)
    (ha : DynKept k m a.2) (hc : DynKept k m c.2) :
    DynKept k m (if b = true then a else c).2 := by
  cases b
  · exact hc
  · exact ha

theorem i2c_find_loop_dyn (T : Transport) (filter id : Nat) (str : String) (chans : Nat)
    (k : String) (hk : k ≠ "i2c-err") :
    ∀ (fuel i : Nat) (m0 m : Machine), DynKept k m0 m →
      DynKept k m0 (I2C.find_loop T filter id str chans fuel i m).2 := by
  intro fuel
  induction fuel with
  | zero =>
    intro i m0 m h
    simpa [DynKept, I2C.find_loop, ret, I2C.set_status_dyn, janet_setdyn,
      Function.update_noteq hk] using h
  | succ fuel ih =>
    intro i m0 m h
    unfold I2C.find_loop
    dsimp only
    split
    · split
      · simpa [DynKept, ret, I2C.set_status_dyn, janet_setdyn, Machine.call,
          Function.update_noteq hk] using h
      · apply ite_dynKept
        · simpa [DynKept, ret, I2C.set_status_dyn, janet_setdyn, Machine.call,
            Function.update_noteq hk] using h
        · exact ih _ _ _ h
    · simpa [DynKept, ret, I2C.set_status_dyn, janet_setdyn, Function.update_noteq hk] using h

theorem i2c_dyn_other (T : Transport) (argc : Nat) (argv : Nat → Janet) (m : Machine)
    (k : String) (hk : k ≠ "i2c-err") (f : CFun)
    (hf : f = I2C.cfun_i2c_get_err ∨ f = I2C.cfun_i2c_channelcount ∨
       f = I2C.cfun_i2c_getchannelinfo ∨ f = I2C.cfun_i2c_find ∨ f = I2C.cfun_i2c_get_id ∨
       f = I2C.cfun_i2c_set_read_options ∨ f = I2C.cfun_i2c_set_write_options ∨
       f = I2C.cfun_i2c_set_config_options ∨ f = I2C.cfun_i2c_openchannel ∨
       f = I2C.cfun_i2c_is_open ∨ f = I2C.cfun_i2c_initchannel ∨ f = I2C.cfun_i2c_deviceread ∨
       f = I2C.cfun_i2c_devicewrite ∨ f = I2C.cfun_ft_gpio_read ∨ f = I2C.cfun_ft_gpio_write) :
    DynKept k m (f T argc argv m).2 := by
  rcases hf with h | h | h | h | h | h | h | h | h | h | h | h | h | h | h <;> subst h
  · unfold I2C.cfun_i2c_get_err
    repeat' split
    all_goals first
      | exact dynKept_refl k m
      | exact i2c_find_loop_dyn T _ _ _ _ k hk _ _ _ _ rfl
      | simp [DynKept, ret, I2C.set_status_dyn, janet_setdyn, Machine.call, Machine.set_i2c,
          Machine.buffer_grow, Function.update_noteq hk]
  · unfold I2C.cfun_i2c_channelcount
    dsimp only
    repeat' split
    all_goals first
      | exact dynKept_refl k m
      | exact i2c_find_loop_dyn T _ _ _ _ k hk _ _ _ _ rfl
      | simp [DynKept, ret, I2C.set_status_dyn, janet_setdyn, Machine.call, Machine.set_i2c,
          Machine.buffer_grow, Function.update_noteq hk]
  · unfold I2C.cfun_i2c_getchannelinfo I2C.getchannelinfo_query
    dsimp only
    repeat' split
    all_goals first
      | exact dynKept_refl k m
      | exact i2c_find_loop_dyn T _ _ _ _ k hk _ _ _ _ rfl
      | simp [DynKept, ret, I2C.set_status_dyn, janet_setdyn, Machine.call, Machine.set_i2c,
          Machine.buffer_grow, Function.update_noteq hk]
  · unfold I2C.cfun_i2c_find
    dsimp only
    repeat' split
    all_goals first
      | exact dynKept_refl k m
      | exact i2c_find_loop_dyn T _ _ _ _ k hk _ _ _ _ rfl
      | simp [DynKept, ret, I2C.set_status_dyn, janet_setdyn, Machine.call, Machine.set_i2c,
          Machine.buffer_grow, Function.update_noteq hk]
  · unfold I2C.cfun_i2c_get_id
    repeat' split
    all_goals first
      | exact dynKept_refl k m
      | exact i2c_find_loop_dyn T _ _ _ _ k hk _ _ _ _ rfl
      | simp [DynKept, ret, I2C.set_status_dyn, janet_setdyn, Machine.call, Machine.set_i2c,
          Machine.buffer_grow, Function.update_noteq hk]
  · unfold I2C.cfun_i2c_set_read_options
    dsimp only
    repeat' split
    all_goals first
      | exact dynKept_refl k m
      | exact i2c_find_loop_dyn T _ _ _ _ k hk _ _ _ _ rfl
      | simp [DynKept, ret, I2C.set_status_dyn, janet_setdyn, Machine.call, Machine.set_i2c,
          Machine.buffer_grow, Function.update_noteq hk]
  · unfold I2C.cfun_i2c_set_write_options
    dsimp only
    repeat' split
    all_goals first
      | exact dynKept_refl k m
      | exact i2c_find_loop_dyn T _ _ _ _ k hk _ _ _ _ rfl
      | simp [DynKept, ret, I2C.set_status_dyn, janet_setdyn, Machine.call, Machine.set_i2c,
          Machine.buffer_grow, Function.update_noteq hk]
  · unfold I2C.cfun_i2c_set_config_options
    dsimp only
    repeat' split
    all_goals first
      | exact dynKept_refl k m
      | exact i2c_find_loop_dyn T _ _ _ _ k hk _ _ _ _ rfl
      | simp [DynKept, ret, I2C.set_status_dyn, janet_setdyn, Machine.call, Machine.set_i2c,
          Machine.buffer_grow, Function.update_noteq hk]
  · unfold I2C.cfun_i2c_openchannel
    dsimp only
    repeat' split
    all_goals first
      | exact dynKept_refl k m
      | exact i2c_find_loop_dyn T _ _ _ _ k hk _ _ _ _ rfl
      | simp [DynKept, ret, I2C.set_status_dyn, janet_setdyn, Machine.call, Machine.set_i2c,
          Machine.buffer_grow, Function.update_noteq hk]
  · unfold I2C.cfun_i2c_is_open I2C.is_open_query
    dsimp only
    repeat' split
    all_goals first
      | exact dynKept_refl k m
      | exact i2c_find_loop_dyn T _ _ _ _ k hk _ _ _ _ rfl
      | simp [DynKept, ret, I2C.set_status_dyn, janet_setdyn, Machine.call, Machine.set_i2c,
          Machine.buffer_grow, Function.update_noteq hk]
  · unfold I2C.cfun_i2c_initchannel
    dsimp only
    repeat' split
    all_goals first
      | exact dynKept_refl k m
      | exact i2c_find_loop_dyn T _ _ _ _ k hk _ _ _ _ rfl
      | simp [DynKept, ret, I2C.set_status_dyn, janet_setdyn, Machine.call, Machine.set_i2c,
          Machine.buffer_grow, Function.update_noteq hk]
  · unfold I2C.cfun_i2c_deviceread
    dsimp only
    repeat' split
    all_goals first
      | exact dynKept_refl k m
      | exact i2c_find_loop_dyn T _ _ _ _ k hk _ _ _ _ rfl
      | simp [DynKept, ret, I2C.set_status_dyn, janet_setdyn, Machine.call, Machine.set_i2c,
          Machine.buffer_grow, Function.update_noteq hk]
  · unfold I2C.cfun_i2c_devicewrite
    dsimp only
    repeat' split
    all_goals first
      | exact dynKept_refl k m
      | exact i2c_find_loop_dyn T _ _ _ _ k hk _ _ _ _ rfl
      | simp [DynKept, ret, I2C.set_status_dyn, janet_setdyn, Machine.call, Machine.set_i2c,
          Machine.buffer_grow, Function.update_noteq hk]
  · unfold I2C.cfun_ft_gpio_read
    dsimp only
    repeat' split
    all_goals first
      | exact dynKept_refl k m
      | exact i2c_find_loop_dyn T _ _ _ _ k hk _ _ _ _ rfl
      | simp [DynKept, ret, I2C.set_status_dyn, janet_setdyn, Machine.call, Machine.set_i2c,
          Machine.buffer_grow, Function.update_noteq hk]
  · unfold I2C.cfun_ft_gpio_write
    dsimp only
    repeat' split
    all_goals first
      | exact dynKept_refl k m
      | exact i2c_find_loop_dyn T _ _ _ _ k hk _ _ _ _ rfl
      | simp [DynKept, ret, I2C.set_status_dyn, janet_setdyn, Machine.call, Machine.set_i2c,
          Machine.buffer_grow, Function.update_noteq hk]

theorem i2c_dyn_close (T : Transport) (argc : Nat) (argv : Nat → Janet) (m : Machine)
    (k : String) (hk : k ≠ "i2c-err") :
    DynKept k m (I2C.cfun_i2c_closechannel T argc argv m).2 := by
  unfold I2C.cfun_i2c_closechannel
  dsimp only
  repeat' split
  all_goals first
    | exact dynKept_refl k m
    | simp [DynKept, ret, I2C.set_status_dyn, janet_setdyn, Machine.call, Machine.set_i2c,
        Function.update_noteq hk]

theorem i2c_step_dyn (T : Transport) (m : Machine) (op : Op) (k : String)
    (hk : k ≠ "i2c-err") : (I2C.step T m op).dyn k = m.dyn k := by
  unfold I2C.step
  cases hl : I2C.cfuns.lookup op.name with
  | none => rfl
  | some f =>
    rcases i2c_lookup _ _ hl with ⟨_, rfl⟩ | ⟨_, hf⟩
    · exact i2c_dyn_close T _ _ m k hk
    · exact i2c_dyn_other T _ _ m k hk f hf

theorem i2c_run_dyn (T : Transport) (k : String) (hk : k ≠ "i2c-err") :
    ∀ (ops : List Op) (m : Machine), (I2C.run T ops m).dyn k = m.dyn k := by
  intro ops
  induction ops with
  | nil => intro m; rfl
  | cons op ops ih =>
    intro m
    simp only [I2C.run, List.foldl_cons] at ih ⊢
    rw [ih, i2c_step_dyn T m op k hk]

theorem i2c_gc_dyn (T : Transport) (p : Nat) (m : Machine) (k : String) (hk : k ≠ "i2c-err") :
    (I2C.channel_gc T p m).2.dyn k = m.dyn k := by
  unfold I2C.channel_gc
  dsimp only
  split <;> simp [I2C.set_status_dyn, janet_setdyn, Machine.call, Machine.set_i2c,
    Function.update_noteq hk]

theorem spi_find_loop_dyn (T : Transport) (filter id : Nat) (str : String) (chans : Nat)
    (k : String) (hk : k ≠ "ft-err") :
    ∀ (fuel i : Nat) (m0 m : Machine), DynKept k m0 m →
      DynKept k m0 (SPI.find_loop T filter id str chans fuel i m).2 := by
  intro fuel
  induction fuel with
  | zero =>
    intro i m0 m h
    simpa [DynKept, SPI.find_loop, ret, SPI.set_status_dyn, janet_setdyn,
      Function.update_noteq hk] using h
  | succ fuel ih =>
    intro i m0 m h
    unfold SPI.find_loop
    dsimp only
    split
    · split
      · simpa [DynKept, ret, SPI.set_status_dyn, janet_setdyn, Machine.call,
          Function.update_noteq hk] using h
      · apply ite_dynKept
        · simpa [DynKept, ret, SPI.set_status_dyn, janet_setdyn, Machine.call,
            Function.update_noteq hk] using h
        · exact ih _ _ _ h
    · simpa [DynKept, ret, SPI.set_status_dyn, janet_setdyn, Function.update_noteq hk] using h

theorem spi_dyn_other (T : Transport) (argc : Nat) (argv : Nat → Janet) (m : Machine)
    (k : String) (hk : k ≠ "ft-err") (f : CFun)
    (hf : f = SPI.cfun_spi_get_err ∨ f = SPI.cfun_spi_channelcount ∨
       f = SPI.cfun_spi_getchannelinfo ∨ f = SPI.cfun_spi_find ∨ f = SPI.cfun_spi_get_id ∨
       f = SPI.cfun_spi_set_read_options ∨ f = SPI.cfun_spi_set_write_options ∨
       f = SPI.cfun_spi_set_config_options ∨ f = SPI.cfun_spi_openchannel ∨
       f = SPI.cfun_spi_is_open ∨ f = SPI.cfun_spi_initchannel ∨ f = SPI.cfun_spi_deviceread ∨
       f = SPI.cfun_spi_devicewrite ∨ f = SPI.cfun_spi_gpio_read ∨ f = SPI.cfun_spi_gpio_write ∨
       f = SPI.cfun_spi_is_busy ∨ f = SPI.cfun_spi_readwrite) :
    DynKept k m (f T argc argv m).2 := by
  rcases hf with h | h | h | h | h | h | h | h | h | h | h | h | h | h | h | h | h <;> subst h
  · unfold SPI.cfun_spi_get_err
    repeat' split
    all_goals first
      | exact dynKept_refl k m
      | exact spi_find_loop_dyn T _ _ _ _ k hk _ _ _ _ rfl
      | simp [DynKept, ret, SPI.set_status_dyn, janet_setdyn, Machine.call, Machine.set_spi,
          Machine.buffer_grow, Function.update_noteq hk]
  · unfold SPI.cfun_spi_channelcount
    dsimp only
    repeat' split
    all_goals first
      | exact dynKept_refl k m
      | exact spi_find_loop_dyn T _ _ _ _ k hk _ _ _ _ rfl
      | simp [DynKept, ret, SPI.set_status_dyn, janet_setdyn, Machine.call, Machine.set_spi,
          Machine.buffer_grow, Function.update_noteq hk]
  · unfold SPI.cfun_spi_getchannelinfo SPI.getchannelinfo_query
    dsimp only
    repeat' split
    all_goals first
      | exact dynKept_refl k m
      | exact spi_find_loop_dyn T _ _ _ _ k hk _ _ _ _ rfl
      | simp [DynKept, ret, SPI.set_status_dyn, janet_setdyn, Machine.call, Machine.set_spi,
          Machine.buffer_grow, Function.update_noteq hk]
  · unfold SPI.cfun_spi_find
    dsimp only
    repeat' split
    all_goals first
      | exact dynKept_refl k m
      | exact spi_find_loop_dyn T _ _ _ _ k hk _ _ _ _ rfl
      | simp [DynKept, ret, SPI.set_status_dyn, janet_setdyn, Machine.call, Machine.set_spi,
          Machine.buffer_grow, Function.update_noteq hk]
  · unfold SPI.cfun_spi_get_id
    repeat' split
    all_goals first
      | exact dynKept_refl k m
      | exact spi_find_loop_dyn T _ _ _ _ k hk _ _ _ _ rfl
      | simp [DynKept, ret, SPI.set_status_dyn, janet_setdyn, Machine.call, Machine.set_spi,
          Machine.buffer_grow, Function.update_noteq hk]
  · unfold SPI.cfun_spi_set_read_options
    dsimp only
    repeat' split
    all_goals first
      | exact dynKept_refl k m
      | exact spi_find_loop_dyn T _ _ _ _ k hk _ _ _ _ rfl
      | simp [DynKept, ret, SPI.set_status_dyn, janet_setdyn, Machine.call, Machine.set_spi,
          Machine.buffer_grow, Function.update_noteq hk]
  · unfold SPI.cfun_spi_set_write_options
    dsimp only
    repeat' split
    all_goals first
      | exact dynKept_refl k m
      | exact spi_find_loop_dyn T _ _ _ _ k hk _ _ _ _ rfl
      | simp [DynKept, ret, SPI.set_status_dyn, janet_setdyn, Machine.call, Machine.set_spi,
          Machine.buffer_grow, Function.update_noteq hk]
  · unfold SPI.cfun_spi_set_config_options
    dsimp only
    repeat' split
    all_goals first
      | exact dynKept_refl k m
      | exact spi_find_loop_dyn T _ _ _ _ k hk _ _ _ _ rfl
      | simp [DynKept, ret, SPI.set_status_dyn, janet_setdyn, Machine.call, Machine.set_spi,
          Machine.buffer_grow, Function.update_noteq hk]
  · unfold SPI.cfun_spi_openchannel
    dsimp only
    repeat' split
    all_goals first
      | exact dynKept_refl k m
      | exact spi_find_loop_dyn T _ _ _ _ k hk _ _ _ _ rfl
      | simp [DynKept, ret, SPI.set_status_dyn, janet_setdyn, Machine.call, Machine.set_spi,
          Machine.buffer_grow, Function.update_noteq hk]
  · unfold SPI.cfun_spi_is_open SPI.is_open_query
    dsimp only
    repeat' split
    all_goals first
      | exact dynKept_refl k m
      | exact spi_find_loop_dyn T _ _ _ _ k hk _ _ _ _ rfl
      | simp [DynKept, ret, SPI.set_status_dyn, janet_setdyn, Machine.call, Machine.set_spi,
          Machine.buffer_grow, Function.update_noteq hk]
  · unfold SPI.cfun_spi_initchannel
    dsimp only
    repeat' split
    all_goals first
      | exact dynKept_refl k m
      | exact spi_find_loop_dyn T _ _ _ _ k hk _ _ _ _ rfl
      | simp [DynKept, ret, SPI.set_status_dyn, janet_setdyn, Machine.call, Machine.set_spi,
          Machine.buffer_grow, Function.update_noteq hk]
  · unfold SPI.cfun_spi_deviceread
    dsimp only
    repeat' split
    all_goals first
      | exact dynKept_refl k m
      | exact spi_find_loop_dyn T _ _ _ _ k hk _ _ _ _ rfl
      | simp [DynKept, ret, SPI.set_status_dyn, janet_setdyn, Machine.call, Machine.set_spi,
          Machine.buffer_grow, Function.update_noteq hk]
  · unfold SPI.cfun_spi_devicewrite
    dsimp only
    repeat' split
    all_goals first
      | exact dynKept_refl k m
      | exact spi_find_loop_dyn T _ _ _ _ k hk _ _ _ _ rfl
      | simp [DynKept, ret, SPI.set_status_dyn, janet_setdyn, Machine.call, Machine.set_spi,
          Machine.buffer_grow, Function.update_noteq hk]
  · unfold SPI.cfun_spi_gpio_read
    dsimp only
    repeat' split
    all_goals first
      | exact dynKept_refl k m
      | exact spi_find_loop_dyn T _ _ _ _ k hk _ _ _ _ rfl
      | simp [DynKept, ret, SPI.set_status_dyn, janet_setdyn, Machine.call, Machine.set_spi,
          Machine.buffer_grow, Function.update_noteq hk]
  · unfold SPI.cfun_spi_gpio_write
    dsimp only
    repeat' split
    all_goals first
      | exact dynKept_refl k m
      | exact spi_find_loop_dyn T _ _ _ _ k hk _ _ _ _ rfl
      | simp [DynKept, ret, SPI.set_status_dyn, janet_setdyn, Machine.call, Machine.set_spi,
          Machine.buffer_grow, Function.update_noteq hk]
  · unfold SPI.cfun_spi_is_busy
    dsimp only
    repeat' split
    all_goals first
      | exact dynKept_refl k m
      | exact spi_find_loop_dyn T _ _ _ _ k hk _ _ _ _ rfl
      | simp [DynKept, ret, SPI.set_status_dyn, janet_setdyn, Machine.call, Machine.set_spi,
          Machine.buffer_grow, Function.update_noteq hk]
  · unfold SPI.cfun_spi_readwrite
    dsimp only
    repeat' split
    all_goals first
      | exact dynKept_refl k m
      | exact spi_find_loop_dyn T _ _ _ _ k hk _ _ _ _ rfl
      | simp [DynKept, ret, SPI.set_status_dyn, janet_setdyn, Machine.call, Machine.set_spi,
          Machine.buffer_grow, Function.update_noteq hk]

theorem spi_dyn_close (T : Transport) (argc : Nat) (argv : Nat → Janet) (m : Machine)
    (k : String) (hk : k ≠ "ft-err") :
    DynKept k m (SPI.cfun_spi_closechannel T argc argv m).2 := by
  unfold SPI.cfun_spi_closechannel
  dsimp only
  repeat' split
  all_goals first
    | exact dynKept_refl k m
    | simp [DynKept, ret, SPI.set_status_dyn, janet_setdyn, Machine.call, Machine.set_spi,
        Function.update_noteq hk]

theorem spi_step_dyn (T : Transport) (m : Machine) (op : Op) (k : String)
    (hk : k ≠ "ft-err") : (SPI.step T m op).dyn k = m.dyn k := by
  unfold SPI.step
  cases hl : SPI.cfuns.lookup op.name with
  | none => rfl
  | some f =>
    rcases spi_lookup _ _ hl with ⟨_, rfl⟩ | ⟨_, hf⟩
    · exact spi_dyn_close T _ _ m k hk
    · exact spi_dyn_other T _ _ m k hk f hf

theorem spi_run_dyn (T : Transport) (k : String) (hk : k ≠ "ft-err") :
    ∀ (ops : List Op) (m : Machine), (SPI.run T ops m).dyn k = m.dyn k := by
  intro ops
  induction ops with
  | nil => intro m; rfl
  | cons op ops ih =>
    intro m
    simp only [SPI.run, List.foldl_cons] at ih ⊢
    rw [ih, spi_step_dyn T m op k hk]

theorem spi_gc_dyn (T : Transport) (p : Nat) (m : Machine) (k : String) (hk : k ≠ "ft-err") :
    (SPI.channel_gc T p m).2.dyn k = m.dyn k := by
  unfold SPI.channel_gc
  dsimp only
  split <;> simp [SPI.set_status_dyn, janet_setdyn, Machine.call, Machine.set_spi,
    Function.update_noteq hk]

theorem ft_status_name_injective (s s' : FT_STATUS) (h : ft_status_name s = ft_status_name s') :
    s = s' := by
  cases s <;> cases s' <;> first | rfl | exact absurd h (by decide)

/-- C19: the status registry of each family.  Recording a status `s` with a
value `v` hands `v` back, and the family's query for the last status (called
with or without a channel) then returns the keyword at position `s` of
`ft_status_string`; it still does after any calls of registered functions of the
other family and after the other family's finalizer, since I2C records under
`i2c-err` and SPI under `ft-err`.  The enumeration has the 20 codes 0..19, the
table is the list of the glossary, and its 20 keywords are pairwise distinct. -/
theorem status_recorded_then_read_back (T : Transport) (s : FT_STATUS) (v : Janet) (m : Machine)
    (argv : Nat → Janet) (ops : List Op) (p : Nat) :
    (I2C.set_status_dyn s v m).1 = v ∧
    (SPI.set_status_dyn s v m).1 = v ∧
    I2C.cfun_i2c_get_err T 0 argv (I2C.set_status_dyn s v m).2
      = (.ret (.keyword (ft_status_name s)), (I2C.set_status_dyn s v m).2) ∧
    I2C.cfun_i2c_get_err T 1 argv (I2C.set_status_dyn s v m).2
      = (.ret (.keyword (ft_status_name s)), (I2C.set_status_dyn s v m).2) ∧
    SPI.cfun_spi_get_err T 0 argv (SPI.set_status_dyn s v m).2
      = (.ret (.keyword (ft_status_name s)), (SPI.set_status_dyn s v m).2) ∧
    SPI.cfun_spi_get_err T 1 argv (SPI.set_status_dyn s v m).2
      = (.ret (.keyword (ft_status_name s)), (SPI.set_status_dyn s v m).2) ∧
    (I2C.cfun_i2c_get_err T 0 argv (SPI.run T ops (I2C.set_status_dyn s v m).2)).1
      = .ret (.keyword (ft_status_name s)) ∧
    (SPI.cfun_spi_get_err T 0 argv (I2C.run T ops (SPI.set_status_dyn s v m).2)).1
      = .ret (.keyword (ft_status_name s)) ∧
    (I2C.cfun_i2c_get_err T 0 argv (SPI.channel_gc T p (I2C.set_status_dyn s v m).2).2).1
      = .ret (.keyword (ft_status_name s)) ∧
    (SPI.cfun_spi_get_err T 0 argv (I2C.channel_gc T p (SPI.set_status_dyn s v m).2).2).1
      = .ret (.keyword (ft_status_name s)) ∧
    s.toNat < 20 ∧
    ft_status_string[s.toNat]? = some (ft_status_name s) ∧
    ft_status_string =
      ["ok", "invalid-handle", "device-not-found", "device-not-opened", "io-error",
       "insufficient-resources", "invalid-parameter", "invalid-baud-rate",
       "device-not-opened-for-erase", "device-not-opened-for-write", "failed-to-write-device",
       "eeprom-read-failed", "eeprom-write-failed", "eeprom-erase-failed", "eeprom-not-present",
       "eeprom-not-programmed", "invalid-args", "not-supported", "other-error",
       "device-list-not-ready"] ∧
    ft_status_string.Nodup ∧
    (∀ s', ft_status_name s = ft_status_name s' → s = s') := by
  have hi : (I2C.set_status_dyn s v m).2.dyn "i2c-err" = .keyword (ft_status_name s) := by
    simp [I2C.set_status_dyn, janet_setdyn, janet_ckeywordv]
  have hs : (SPI.set_status_dyn s v m).2.dyn "ft-err" = .keyword (ft_status_name s) := by
    simp [SPI.set_status_dyn, janet_setdyn, janet_ckeywordv]
  refine ⟨rfl, rfl, ?_, ?_, ?_, ?_, ?_, ?_, ?_, ?_, ?_, ?_, rfl, by decide, ?_⟩
  · simp [I2C.cfun_i2c_get_err, janet_arity, janet_dyn, hi]
  · simp [I2C.cfun_i2c_get_err, janet_arity, janet_dyn, hi]
  · simp [SPI.cfun_spi_get_err, janet_arity, janet_dyn, hs]
  · simp [SPI.cfun_spi_get_err, janet_arity, janet_dyn, hs]
  · simp only [I2C.cfun_i2c_get_err, janet_arity, janet_dyn]
    rw [spi_run_dyn T "i2c-err" (by decide), hi]
    rfl
  · simp only [SPI.cfun_spi_get_err, janet_arity, janet_dyn]
    rw [i2c_run_dyn T "ft-err" (by decide), hs]
    rfl
  · simp only [I2C.cfun_i2c_get_err, janet_arity, janet_dyn]
    rw [spi_gc_dyn T p _ "i2c-err" (by decide), hi]
    rfl
  · simp only [SPI.cfun_spi_get_err, janet_arity, janet_dyn]
    rw [i2c_gc_dyn T p _ "ft-err" (by decide), hs]
    rfl
  · cases s <;> decide
  · cases s <;> rfl
  · exact fun s' h => ft_status_name_injective s s' h

/-! ## Find -/

theorem i2c_find_loop_skip (T : Transport) (filter id : Nat) (str : String) (chans : Nat)
    (tr : List Call) (j : Nat) (hj : j ≤ chans)
    (hskip : ∀ i, i < j → (T.I2C_GetChannelInfo (I2C.scan_trace tr i) i).1 = FT_OK ∧
      I2C.find_test filter id str (T.I2C_GetChannelInfo (I2C.scan_trace tr i) i).2 = false) :
    ∀ (fuel i : Nat) (m : Machine), i ≤ j → chans ≤ i + fuel → m.trace = I2C.scan_trace tr i →
      I2C.find_loop T filter id str chans fuel i m
        = I2C.find_loop T filter id str chans (fuel - (j - i)) j
            { m with trace := I2C.scan_trace tr j } := by
  intro fuel
  induction fuel with
  | zero =>
    intro i m hi hc ht
    have : i = j := by omega
    subst this
    simp only [Nat.sub_self, Nat.sub_zero, ← ht]
  | succ fuel ih =>
    intro i m hi hc ht
    rcases Nat.eq_or_lt_of_le hi with rfl | hlt
    · simp only [Nat.sub_self, Nat.sub_zero, ← ht]
    · have hic : i < chans := by omega
      have hs := hskip i hlt
      rw [← ht] at hs
      have hf : (if filter = I2C.KW_ID then (T.I2C_GetChannelInfo m.trace i).2.ID == id
          else if filter = I2C.KW_LOCID then (T.I2C_GetChannelInfo m.trace i).2.LocId == id
          else if filter = I2C.KW_TYPE then (T.I2C_GetChannelInfo m.trace i).2.Type_ == id
          else if filter = I2C.KW_SERIAL then
            (T.I2C_GetChannelInfo m.trace i).2.SerialNumber == str
          else if filter = I2C.KW_DESC then (T.I2C_GetChannelInfo m.trace i).2.Description == str
          else true) = false := hs.2
      have hstep : I2C.find_loop T filter id str chans (fuel + 1) i m
          = I2C.find_loop T filter id str chans fuel (i + 1) (m.call (.I2C_GetChannelInfo i)) := by
        rw [I2C.find_loop]
        simp only [hic, ↓reduceIte, hs.1, ne_eq, not_true_eq_false, hf, Bool.false_eq_true]
      rw [hstep, ih (i + 1) _ (by omega) (by omega)
        (by simp [Machine.call, ht, I2C.scan_trace, List.range_succ])]
      rw [show fuel + 1 - (j - i) = fuel - (j - (i + 1)) by omega]
      rfl

theorem i2c_find_loop_stop (T : Transport) (filter id : Nat) (str : String) (chans : Nat)
    (fuel j : Nat) (m : Machine) (hf : chans ≤ j + fuel) :
    I2C.find_loop T filter id str chans fuel j m
      = if j < chans then
          if (T.I2C_GetChannelInfo m.trace j).1 ≠ FT_OK then
            ret (I2C.set_status_dyn (T.I2C_GetChannelInfo m.trace j).1 janet_wrap_nil
              (m.call (.I2C_GetChannelInfo j)))
          else if I2C.find_test filter id str (T.I2C_GetChannelInfo m.trace j).2 = true then
            ret (I2C.set_status_dyn FT_OK (janet_wrap_integer ((j : Int) + 1))
              (m.call (.I2C_GetChannelInfo j)))
          else I2C.find_loop T filter id str chans (fuel - 1) (j + 1)
              (m.call (.I2C_GetChannelInfo j))
        else ret (I2C.set_status_dyn FT_DEVICE_NOT_FOUND janet_wrap_nil m) := by
  cases fuel with
  | zero =>
    have : ¬ j < chans := by omega
    simp [I2C.find_loop, this]
  | succ fuel =>
    rw [I2C.find_loop]
    rfl

theorem i2c_find_enters_loop (T : Transport) (m : Machine) (argv : Nat → Janet) (kw : String)
    (value : Janet) (n : Nat) (h0 : argv 0 = .keyword kw) (h1 : argv 1 = value)
    (hv : findArgs kw value) (hc : T.I2C_GetNumChannels m.trace = (FT_OK, n)) :
    ∃ filter id str,
      I2C.cfun_i2c_find T 2 argv m
        = I2C.find_loop T filter id str n n 0 (m.call .I2C_GetNumChannels) ∧
      ∀ d, I2C.find_test filter id str d = descriptorMatches kw value d := by
  have tu : ∀ v : Nat, v ≤ 2147483647 → toUInt32 (v : Int) = v := by
    intro v hv
    simp only [toUInt32]
    omega
  rcases hv with ⟨hk, v, hv, rfl⟩ | ⟨hk, s, rfl⟩
  · have r1 : (v : Int) ≤ 2147483647 := by omega
    have r2 : (-2147483648 : Int) ≤ v := by omega
    rcases hk with rfl | rfl | rfl
    · refine ⟨I2C.KW_ID, v, "", ?_, ?_⟩
      · simp [I2C.cfun_i2c_find, janet_fixarity, janet_checktype, janet_type, h0, h1, hc,
          janet_getkeyword, janet_getinteger, r1, r2, tu v hv]
      · intro d
        simp [I2C.find_test, descriptorMatches, eq_comm]
    · refine ⟨I2C.KW_LOCID, v, "", ?_, ?_⟩
      · simp [I2C.cfun_i2c_find, janet_fixarity, janet_checktype, janet_type, h0, h1, hc,
          janet_getkeyword, janet_getinteger, r1, r2, tu v hv]
      · intro d
        simp [I2C.find_test, descriptorMatches, I2C.KW_ID, I2C.KW_LOCID, eq_comm]
    · refine ⟨I2C.KW_TYPE, v, "", ?_, ?_⟩
      · simp [I2C.cfun_i2c_find, janet_fixarity, janet_checktype, janet_type, h0, h1, hc,
          janet_getkeyword, janet_getinteger, r1, r2, tu v hv]
      · intro d
        simp [I2C.find_test, descriptorMatches, I2C.KW_ID, I2C.KW_LOCID, I2C.KW_TYPE, eq_comm]
  · rcases hk with rfl | rfl
    · refine ⟨I2C.KW_SERIAL, 0, s, ?_, ?_⟩
      · simp [I2C.cfun_i2c_find, janet_fixarity, janet_checktype, janet_type, h0, h1, hc,
          janet_getkeyword, janet_getstring]
      · intro d
        simp [I2C.find_test, descriptorMatches, I2C.KW_ID, I2C.KW_LOCID, I2C.KW_TYPE,
          I2C.KW_SERIAL, eq_comm]
    · refine ⟨I2C.KW_DESC, 0, s, ?_, ?_⟩
      · simp [I2C.cfun_i2c_find, janet_fixarity, janet_checktype, janet_type, h0, h1, hc,
          janet_getkeyword, janet_getstring]
      · intro d
        simp [I2C.find_test, descriptorMatches, I2C.KW_ID, I2C.KW_LOCID, I2C.KW_TYPE,
          I2C.KW_SERIAL, I2C.KW_DESC, eq_comm]

/-- The scan of `cfun_i2c_find` on well typed arguments when the count query succeeds
with `n` channels and the channels before `j` are queried with success and do not match:
the call is the scan from channel `j` on. -/
theorem i2c_find_scan (T : Transport) (m : Machine) (argv : Nat → Janet) (kw : String)
    (value : Janet) (n j : Nat) (h0 : argv 0 = .keyword kw) (h1 : argv 1 = value)
    (hv : findArgs kw value) (hc : T.I2C_GetNumChannels m.trace = (FT_OK, n)) (hj : j ≤ n)
    (hskip : ∀ i, i < j →
      (T.I2C_GetChannelInfo (I2C.scan_trace (m.trace ++ [.I2C_GetNumChannels]) i) i).1 = FT_OK ∧
      descriptorMatches kw value
        (T.I2C_GetChannelInfo (I2C.scan_trace (m.trace ++ [.I2C_GetNumChannels]) i) i).2
        = false) :
    ∃ filter id str,
      I2C.cfun_i2c_find T 2 argv m
        = I2C.find_loop T filter id str n (n - j) j
            { m with trace := I2C.scan_trace (m.trace ++ [.I2C_GetNumChannels]) j } ∧
      ∀ d, I2C.find_test filter id str d = descriptorMatches kw value d := by
  obtain ⟨filter, id, str, e, ht⟩ := i2c_find_enters_loop T m argv kw value n h0 h1 hv hc
  refine ⟨filter, id, str, ?_, ht⟩
  rw [e, i2c_find_loop_skip T filter id str n (m.trace ++ [.I2C_GetNumChannels]) j hj
    (fun i hi => ⟨(hskip i hi).1, by rw [ht]; exact (hskip i hi).2⟩) n 0 _ (by omega) (by omega)
    (by simp [Machine.call, I2C.scan_trace])]
  rfl

/-- The results of `cfun_i2c_find` on well typed arguments when the count query succeeds
with `n` channels and the channels before `j` are queried with success and do not match:
a match at `j`, a failing query at `j`, and the end of the scan. -/
theorem i2c_find_result (T : Transport) (m : Machine) (argv : Nat → Janet) (kw : String)
    (value : Janet) (n j : Nat) (h0 : argv 0 = .keyword kw) (h1 : argv 1 = value)
    (hv : findArgs kw value) (hc : T.I2C_GetNumChannels m.trace = (FT_OK, n)) (hj : j ≤ n)
    (hn : n ≤ 2147483647)
    (hskip : ∀ i, i < j →
      (T.I2C_GetChannelInfo (I2C.scan_trace (m.trace ++ [.I2C_GetNumChannels]) i) i).1 = FT_OK ∧
      descriptorMatches kw value
        (T.I2C_GetChannelInfo (I2C.scan_trace (m.trace ++ [.I2C_GetNumChannels]) i) i).2
        = false) :
    (j < n →
      (T.I2C_GetChannelInfo (I2C.scan_trace (m.trace ++ [.I2C_GetNumChannels]) j) j).1 = FT_OK →
      descriptorMatches kw value
        (T.I2C_GetChannelInfo (I2C.scan_trace (m.trace ++ [.I2C_GetNumChannels]) j) j).2 = true →
      (I2C.cfun_i2c_find T 2 argv m).1 = .ret (.number ((j : Int) + 1)) ∧
      (I2C.cfun_i2c_find T 2 argv m).2.dyn "i2c-err" = .keyword "ok") ∧
    (j < n →
      (T.I2C_GetChannelInfo (I2C.scan_trace (m.trace ++ [.I2C_GetNumChannels]) j) j).1 ≠ FT_OK →
      (I2C.cfun_i2c_find T 2 argv m).1 = .ret .nil ∧
      (I2C.cfun_i2c_find T 2 argv m).2.dyn "i2c-err" = .keyword (ft_status_name
        (T.I2C_GetChannelInfo (I2C.scan_trace (m.trace ++ [.I2C_GetNumChannels]) j) j).1) ∧
      (I2C.cfun_i2c_find T 2 argv m).2.trace
        = I2C.scan_trace (m.trace ++ [.I2C_GetNumChannels]) (j + 1)) ∧
    (j = n →
      (I2C.cfun_i2c_find T 2 argv m).1 = .ret .nil ∧
      (I2C.cfun_i2c_find T 2 argv m).2.dyn "i2c-err" = .keyword "device-not-found") := by
  obtain ⟨filter, id, str, e, ht⟩ := i2c_find_scan T m argv kw value n j h0 h1 hv hc hj hskip
  rw [e, i2c_find_loop_stop T filter id str n (n - j) j _ (by omega)]
  refine ⟨?_, ?_, ?_⟩
  · intro hlt hok hm
    have hm' := hm
    rw [← ht] at hm'
    have e32 : toInt32 ((j : Int) + 1) = (j : Int) + 1 := by
      have := toInt32_small (j + 1) (by omega)
      push_cast at this
      exact this
    simp only [hlt, ↓reduceIte, hok, ne_eq, not_true_eq_false, hm']
    simp [ret, I2C.set_status_dyn, janet_setdyn, janet_wrap_integer, e32, janet_ckeywordv,
      Machine.call]
    rfl
  · intro hlt hs
    simp only [hlt, ↓reduceIte, ne_eq, hs, not_false_eq_true]
    simp [ret, I2C.set_status_dyn, janet_setdyn, janet_wrap_nil, janet_ckeywordv, Machine.call,
      I2C.scan_trace, List.range_succ]
  · intro hjn
    have : ¬ j < n := by omega
    simp only [this, ↓reduceIte]
    simp [ret, I2C.set_status_dyn, janet_setdyn, janet_wrap_nil, janet_ckeywordv]
    rfl

theorem spi_find_loop_skip (T : Transport) (filter id : Nat) (str : String) (chans : Nat)
    (tr : List Call) (j : Nat) (hj : j ≤ chans)
    (hskip : ∀ i, i < j → (T.SPI_GetChannelInfo (SPI.scan_trace tr i) i).1 = FT_OK ∧
      SPI.find_test filter id str (T.SPI_GetChannelInfo (SPI.scan_trace tr i) i).2 = false) :
    ∀ (fuel i : Nat) (m : Machine), i ≤ j → chans ≤ i + fuel → m.trace = SPI.scan_trace tr i →
      SPI.find_loop T filter id str chans fuel i m
        = SPI.find_loop T filter id str chans (fuel - (j - i)) j
            { m with trace := SPI.scan_trace tr j } := by
  intro fuel
  induction fuel with
  | zero =>
    intro i m hi hc ht
    have : i = j := by omega
    subst this
    simp only [Nat.sub_self, Nat.sub_zero, ← ht]
  | succ fuel ih =>
    intro i m hi hc ht
    rcases Nat.eq_or_lt_of_le hi with rfl | hlt
    · simp only [Nat.sub_self, Nat.sub_zero, ← ht]
    · have hic : i < chans := by omega
      have hs := hskip i hlt
      rw [← ht] at hs
      have hf : (if filter = SPI.KW_ID then (T.SPI_GetChannelInfo m.trace i).2.ID == id
          else if filter = SPI.KW_LOCID then (T.SPI_GetChannelInfo m.trace i).2.LocId == id
          else if filter = SPI.KW_TYPE then (T.SPI_GetChannelInfo m.trace i).2.Type_ == id
          else if filter = SPI.KW_SERIAL then
            (T.SPI_GetChannelInfo m.trace i).2.SerialNumber == str
          else if filter = SPI.KW_DESC then (T.SPI_GetChannelInfo m.trace i).2.Description == str
          else true) = false := hs.2
      have hstep : SPI.find_loop T filter id str chans (fuel + 1) i m
          = SPI.find_loop T filter id str chans fuel (i + 1) (m.call (.SPI_GetChannelInfo i)) := by
        rw [SPI.find_loop]
        simp only [hic, ↓reduceIte, hs.1, ne_eq, not_true_eq_false, hf, Bool.false_eq_true]
      rw [hstep, ih (i + 1) _ (by omega) (by omega)
        (by simp [Machine.call, ht, SPI.scan_trace, List.range_succ])]
      rw [show fuel + 1 - (j - i) = fuel - (j - (i + 1)) by omega]
      rfl

theorem spi_find_loop_stop (T : Transport) (filter id : Nat) (str : String) (chans : Nat)
    (fuel j : Nat) (m : Machine) (hf : chans ≤ j + fuel) :
    SPI.find_loop T filter id str chans fuel j m
      = if j < chans then
          if (T.SPI_GetChannelInfo m.trace j).1 ≠ FT_OK then
            ret (SPI.set_status_dyn (T.SPI_GetChannelInfo m.trace j).1 janet_wrap_nil
              (m.call (.SPI_GetChannelInfo j)))
          else if SPI.find_test filter id str (T.SPI_GetChannelInfo m.trace j).2 = true then
            ret (SPI.set_status_dyn FT_OK (janet_wrap_integer ((j : Int) + 1))
              (m.call (.SPI_GetChannelInfo j)))
          else SPI.find_loop T filter id str chans (fuel - 1) (j + 1)
              (m.call (.SPI_GetChannelInfo j))
        else ret (SPI.set_status_dyn FT_DEVICE_NOT_FOUND janet_wrap_nil m) := by
  cases fuel with
  | zero =>
    have : ¬ j < chans := by omega
    simp [SPI.find_loop, this]
  | succ fuel =>
    rw [SPI.find_loop]
    rfl

theorem spi_find_enters_loop (T : Transport) (m : Machine) (argv : Nat → Janet) (kw : String)
    (value : Janet) (n : Nat) (h0 : argv 0 = .keyword kw) (h1 : argv 1 = value)
    (hv : findArgs kw value) (hc : T.SPI_GetNumChannels m.trace = (FT_OK, n)) :
    ∃ filter id str,
      SPI.cfun_spi_find T 2 argv m
        = SPI.find_loop T filter id str n n 0 (m.call .SPI_GetNumChannels) ∧
      ∀ d, SPI.find_test filter id str d = descriptorMatches kw value d := by
  have tu : ∀ v : Nat, v ≤ 2147483647 → toUInt32 (v : Int) = v := by
    intro v hv
    simp only [toUInt32]
    omega
  rcases hv with ⟨hk, v, hv, rfl⟩ | ⟨hk, s, rfl⟩
  · have r1 : (v : Int) ≤ 2147483647 := by omega
    have r2 : (-2147483648 : Int) ≤ v := by omega
    rcases hk with rfl | rfl | rfl
    · refine ⟨SPI.KW_ID, v, "", ?_, ?_⟩
      · simp [SPI.cfun_spi_find, janet_fixarity, janet_checktype, janet_type, h0, h1, hc,
          janet_getkeyword, janet_getinteger, r1, r2, tu v hv]
      · intro d
        simp [SPI.find_test, descriptorMatches, eq_comm]
    · refine ⟨SPI.KW_LOCID, v, "", ?_, ?_⟩
      · simp [SPI.cfun_spi_find, janet_fixarity, janet_checktype, janet_type, h0, h1, hc,
          janet_getkeyword, janet_getinteger, r1, r2, tu v hv]
      · intro d
        simp [SPI.find_test, descriptorMatches, SPI.KW_ID, SPI.KW_LOCID, eq_comm]
    · refine ⟨SPI.KW_TYPE, v, "", ?_, ?_⟩
      · simp [SPI.cfun_spi_find, janet_fixarity, janet_checktype, janet_type, h0, h1, hc,
          janet_getkeyword, janet_getinteger, r1, r2, tu v hv]
      · intro d
        simp [SPI.find_test, descriptorMatches, SPI.KW_ID, SPI.KW_LOCID, SPI.KW_TYPE, eq_comm]
  · rcases hk with rfl | rfl
    · refine ⟨SPI.KW_SERIAL, 0, s, ?_, ?_⟩
      · simp [SPI.cfun_spi_find, janet_fixarity, janet_checktype, janet_type, h0, h1, hc,
          janet_getkeyword, janet_getstring]
      · intro d
        simp [SPI.find_test, descriptorMatches, SPI.KW_ID, SPI.KW_LOCID, SPI.KW_TYPE,
          SPI.KW_SERIAL, eq_comm]
    · refine ⟨SPI.KW_DESC, 0, s, ?_, ?_⟩
      · simp [SPI.cfun_spi_find, janet_fixarity, janet_checktype, janet_type, h0, h1, hc,
          janet_getkeyword, janet_getstring]
      · intro d
        simp [SPI.find_test, descriptorMatches, SPI.KW_ID, SPI.KW_LOCID, SPI.KW_TYPE,
          SPI.KW_SERIAL, SPI.KW_DESC, eq_comm]

/-- The scan of `cfun_spi_find` on well typed arguments when the count query succeeds
with `n` channels and the channels before `j` are queried with success and do not match:
the call is the scan from channel `j` on. -/
theorem spi_find_scan (T : Transport) (m : Machine) (argv : Nat → Janet) (kw : String)
    (value : Janet) (n j : Nat) (h0 : argv 0 = .keyword kw) (h1 : argv 1 = value)
    (hv : findArgs kw value) (hc : T.SPI_GetNumChannels m.trace = (FT_OK, n)) (hj : j ≤ n)
    (hskip : ∀ i, i < j →
      (T.SPI_GetChannelInfo (SPI.scan_trace (m.trace ++ [.SPI_GetNumChannels]) i) i).1 = FT_OK ∧
      descriptorMatches kw value
        (T.SPI_GetChannelInfo (SPI.scan_trace (m.trace ++ [.SPI_GetNumChannels]) i) i).2
        = false) :
    ∃ filter id str,
      SPI.cfun_spi_find T 2 argv m
        = SPI.find_loop T filter id str n (n - j) j
            { m with trace := SPI.scan_trace (m.trace ++ [.SPI_GetNumChannels]) j } ∧
      ∀ d, SPI.find_test filter id str d = descriptorMatches kw value d := by
  obtain ⟨filter, id, str, e, ht⟩ := spi_find_enters_loop T m argv kw value n h0 h1 hv hc
  refine ⟨filter, id, str, ?_, ht⟩
  rw [e, spi_find_loop_skip T filter id str n (m.trace ++ [.SPI_GetNumChannels]) j hj
    (fun i hi => ⟨(hskip i hi).1, by rw [ht]; exact (hskip i hi).2⟩) n 0 _ (by omega) (by omega)
    (by simp [Machine.call, SPI.scan_trace])]
  rfl

/-- The results of `cfun_spi_find` on well typed arguments when the count query succeeds
with `n` channels and the channels before `j` are queried with success and do not match:
a match at `j`, a failing query at `j`, and the end of the scan. -/
theorem spi_find_result (T : Transport) (m : Machine) (argv : Nat → Janet) (kw : String)
    (value : Janet) (n j : Nat) (h0 : argv 0 = .keyword kw) (h1 : argv 1 = value)
    (hv : findArgs kw value) (hc : T.SPI_GetNumChannels m.trace = (FT_OK, n)) (hj : j ≤ n)
    (hn : n ≤ 2147483647)
    (hskip : ∀ i, i < j →
      (T.SPI_GetChannelInfo (SPI.scan_trace (m.trace ++ [.SPI_GetNumChannels]) i) i).1 = FT_OK ∧
      descriptorMatches kw value
        (T.SPI_GetChannelInfo (SPI.scan_trace (m.trace ++ [.SPI_GetNumChannels]) i) i).2
        = false) :
    (j < n →
      (T.SPI_GetChannelInfo (SPI.scan_trace (m.trace ++ [.SPI_GetNumChannels]) j) j).1 = FT_OK →
      descriptorMatches kw value
        (T.SPI_GetChannelInfo (SPI.scan_trace (m.trace ++ [.SPI_GetNumChannels]) j) j).2 = true →
      (SPI.cfun_spi_find T 2 argv m).1 = .ret (.number ((j : Int) + 1)) ∧
      (SPI.cfun_spi_find T 2 argv m).2.dyn "ft-err" = .keyword "ok") ∧
    (j < n →
      (T.SPI_GetChannelInfo (SPI.scan_trace (m.trace ++ [.SPI_GetNumChannels]) j) j).1 ≠ FT_OK →
      (SPI.cfun_spi_find T 2 argv m).1 = .ret .nil ∧
      (SPI.cfun_spi_find T 2 argv m).2.dyn "ft-err" = .keyword (ft_status_name
        (T.SPI_GetChannelInfo (SPI.scan_trace (m.trace ++ [.SPI_GetNumChannels]) j) j).1) ∧
      (SPI.cfun_spi_find T 2 argv m).2.trace
        = SPI.scan_trace (m.trace ++ [.SPI_GetNumChannels]) (j + 1)) ∧
    (j = n →
      (SPI.cfun_spi_find T 2 argv m).1 = .ret .nil ∧
      (SPI.cfun_spi_find T 2 argv m).2.dyn "ft-err" = .keyword "device-not-found") := by
  obtain ⟨filter, id, str, e, ht⟩ := spi_find_scan T m argv kw value n j h0 h1 hv hc hj hskip
  rw [e, spi_find_loop_stop T filter id str n (n - j) j _ (by omega)]
  refine ⟨?_, ?_, ?_⟩
  · intro hlt hok hm
    have hm' := hm
    rw [← ht] at hm'
    have e32 : toInt32 ((j : Int) + 1) = (j : Int) + 1 := by
      have := toInt32_small (j + 1) (by omega)
      push_cast at this
      exact this
    simp only [hlt, ↓reduceIte, hok, ne_eq, not_true_eq_false, hm']
    simp [ret, SPI.set_status_dyn, janet_setdyn, janet_wrap_integer, e32, janet_ckeywordv,
      Machine.call]
    rfl
  · intro hlt hs
    simp only [hlt, ↓reduceIte, ne_eq, hs, not_false_eq_true]
    simp [ret, SPI.set_status_dyn, janet_setdyn, janet_wrap_nil, janet_ckeywordv, Machine.call,
      SPI.scan_trace, List.range_succ]
  · intro hjn
    have : ¬ j < n := by omega
    simp only [this, ↓reduceIte]
    simp [ret, SPI.set_status_dyn, janet_setdyn, janet_wrap_nil, janet_ckeywordv]
    rfl

/-- C18: `find` returns the first match.  For well typed arguments (one of the five
keywords id, locid, type, serial, description with a value of its type), when the
count query succeeds with `n` channels and the info query of every channel succeeds:
if channel `j` is the first whose descriptor field equals the value, the result is
the 1-based index `j + 1` with last status ok; and the result is nil with last status
device-not-found exactly when no channel matches.  For both families. -/
theorem find_returns_first_match (T : Transport) (m : Machine) (argv : Nat → Janet)
    (kw : String) (value : Janet) (n n' : Nat)
    (h0 : argv 0 = .keyword kw) (h1 : argv 1 = value) (hv : findArgs kw value)
    (hc : T.I2C_GetNumChannels m.trace = (FT_OK, n)) (hn : n ≤ 2147483647)
    (hq : ∀ i, i < n →
      (T.I2C_GetChannelInfo (I2C.scan_trace (m.trace ++ [.I2C_GetNumChannels]) i) i).1 = FT_OK)
    (hc' : T.SPI_GetNumChannels m.trace = (FT_OK, n')) (hn' : n' ≤ 2147483647)
    (hq' : ∀ i, i < n' →
      (T.SPI_GetChannelInfo (SPI.scan_trace (m.trace ++ [.SPI_GetNumChannels]) i) i).1
        = FT_OK) :
    (∀ j, j < n →
      descriptorMatches kw value
        (T.I2C_GetChannelInfo (I2C.scan_trace (m.trace ++ [.I2C_GetNumChannels]) j) j).2 = true →
      (∀ i, i < j → descriptorMatches kw value
        (T.I2C_GetChannelInfo (I2C.scan_trace (m.trace ++ [.I2C_GetNumChannels]) i) i).2
          = false) →
      (I2C.cfun_i2c_find T 2 argv m).1 = .ret (.number ((j : Int) + 1)) ∧
      (I2C.cfun_i2c_find T 2 argv m).2.dyn "i2c-err" = .keyword "ok") ∧
    (((I2C.cfun_i2c_find T 2 argv m).1 = .ret .nil ∧
      (I2C.cfun_i2c_find T 2 argv m).2.dyn "i2c-err" = .keyword "device-not-found") ↔
      ∀ i, i < n → descriptorMatches kw value
        (T.I2C_GetChannelInfo (I2C.scan_trace (m.trace ++ [.I2C_GetNumChannels]) i) i).2
          = false) ∧
    (∀ j, j < n' →
      descriptorMatches kw value
        (T.SPI_GetChannelInfo (SPI.scan_trace (m.trace ++ [.SPI_GetNumChannels]) j) j).2 = true →
      (∀ i, i < j → descriptorMatches kw value
        (T.SPI_GetChannelInfo (SPI.scan_trace (m.trace ++ [.SPI_GetNumChannels]) i) i).2
          = false) →
      (SPI.cfun_spi_find T 2 argv m).1 = .ret (.number ((j : Int) + 1)) ∧
      (SPI.cfun_spi_find T 2 argv m).2.dyn "ft-err" = .keyword "ok") ∧
    (((SPI.cfun_spi_find T 2 argv m).1 = .ret .nil ∧
      (SPI.cfun_spi_find T 2 argv m).2.dyn "ft-err" = .keyword "device-not-found") ↔
      ∀ i, i < n' → descriptorMatches kw value
        (T.SPI_GetChannelInfo (SPI.scan_trace (m.trace ++ [.SPI_GetNumChannels]) i) i).2
          = false) := by
  have a1 : ∀ j, j < n →
      descriptorMatches kw value
        (T.I2C_GetChannelInfo (I2C.scan_trace (m.trace ++ [.I2C_GetNumChannels]) j) j).2 = true →
      (∀ i, i < j → descriptorMatches kw value
        (T.I2C_GetChannelInfo (I2C.scan_trace (m.trace ++ [.I2C_GetNumChannels]) i) i).2
          = false) →
      (I2C.cfun_i2c_find T 2 argv m).1 = .ret (.number ((j : Int) + 1)) ∧
      (I2C.cfun_i2c_find T 2 argv m).2.dyn "i2c-err" = .keyword "ok" := by
    intro j hj hm hmin
    exact (i2c_find_result T m argv kw value n j h0 h1 hv hc (by omega) hn
      (fun i hi => ⟨hq i (by omega), hmin i hi⟩)).1 hj (hq j hj) hm
  have a2 : ∀ j, j < n' →
      descriptorMatches kw value
        (T.SPI_GetChannelInfo (SPI.scan_trace (m.trace ++ [.SPI_GetNumChannels]) j) j).2 = true →
      (∀ i, i < j → descriptorMatches kw value
        (T.SPI_GetChannelInfo (SPI.scan_trace (m.trace ++ [.SPI_GetNumChannels]) i) i).2
          = false) →
      (SPI.cfun_spi_find T 2 argv m).1 = .ret (.number ((j : Int) + 1)) ∧
      (SPI.cfun_spi_find T 2 argv m).2.dyn "ft-err" = .keyword "ok" := by
    intro j hj hm hmin
    exact (spi_find_result T m argv kw value n' j h0 h1 hv hc' (by omega) hn'
      (fun i hi => ⟨hq' i (by omega), hmin i hi⟩)).1 hj (hq' j hj) hm
  refine ⟨a1, ⟨?_, ?_⟩, a2, ⟨?_, ?_⟩⟩
  · intro hnil
    by_contra hex
    have hex' : ∃ j, j < n ∧ descriptorMatches kw value
        (T.I2C_GetChannelInfo (I2C.scan_trace (m.trace ++ [.I2C_GetNumChannels]) j) j).2
          = true := by
      by_contra hno
      apply hex
      intro i hi
      by_contra hne
      exact hno ⟨i, hi, by simpa using hne⟩
    have hmin : ∀ i, i < Nat.find hex' → descriptorMatches kw value
        (T.I2C_GetChannelInfo (I2C.scan_trace (m.trace ++ [.I2C_GetNumChannels]) i) i).2
          = false := by
      intro i hi
      have hlt : i < n := lt_trans hi (Nat.find_spec hex').1
      have := Nat.find_min hex' hi
      by_contra hne
      exact this ⟨hlt, by simpa using hne⟩
    have := (a1 _ (Nat.find_spec hex').1 (Nat.find_spec hex').2 hmin).1
    rw [hnil.1] at this
    cases this
  · intro hno
    exact (i2c_find_result T m argv kw value n n h0 h1 hv hc (le_refl n) hn
      (fun i hi => ⟨hq i hi, hno i hi⟩)).2.2 rfl
  · intro hnil
    by_contra hex
    have hex' : ∃ j, j < n' ∧ descriptorMatches kw value
        (T.SPI_GetChannelInfo (SPI.scan_trace (m.trace ++ [.SPI_GetNumChannels]) j) j).2
          = true := by
      by_contra hno
      apply hex
      intro i hi
      by_contra hne
      exact hno ⟨i, hi, by simpa using hne⟩
    have hmin : ∀ i, i < Nat.find hex' → descriptorMatches kw value
        (T.SPI_GetChannelInfo (SPI.scan_trace (m.trace ++ [.SPI_GetNumChannels]) i) i).2
          = false := by
      intro i hi
      have hlt : i < n' := lt_trans hi (Nat.find_spec hex').1
      have := Nat.find_min hex' hi
      by_contra hne
      exact this ⟨hlt, by simpa using hne⟩
    have := (a2 _ (Nat.find_spec hex').1 (Nat.find_spec hex').2 hmin).1
    rw [hnil.1] at this
    cases this
  · intro hno
    exact (spi_find_result T m argv kw value n' n' h0 h1 hv hc' (le_refl n') hn'
      (fun i hi => ⟨hq' i hi, hno i hi⟩)).2.2 rfl

theorem find_returns_first_match_witness :
    findArgs "serial" (.string "FT2") ∧
    (I2C.cfun_i2c_getchannelinfo twoChannelTransport 1 (argvOf [.number 1]) demoMachine).1
      = .ret (.struct "FT1" "cable" 11 22 7 8 1) ∧
    (I2C.cfun_i2c_getchannelinfo twoChannelTransport 1 (argvOf [.number 2]) demoMachine).1
      = .ret (.struct "FT2" "cable" 12 22 7 8 1) ∧
    (I2C.cfun_i2c_find twoChannelTransport 2 (argvOf [.keyword "serial", .string "FT2"])
      demoMachine).1 = .ret (.number 2) ∧
    (SPI.cfun_spi_find twoChannelTransport 2 (argvOf [.keyword "serial", .string "FT2"])
      demoMachine).1 = .ret (.number 2) :=
  have hv : findArgs "serial" (.string "FT2") := Or.inr ⟨Or.inl rfl, "FT2", rfl⟩
  have key := find_returns_first_match twoChannelTransport demoMachine
    (argvOf [.keyword "serial", .string "FT2"]) "serial" (.string "FT2") 2 2 rfl rfl hv
    rfl (by decide) (fun _ _ => rfl) rfl (by decide) (fun _ _ => rfl)
  ⟨hv, by decide, by decide,
    (key.1 1 (by decide) (by decide)
      (by intro i hi; have : i = 0 := by omega
          subst this; decide)).1,
    (key.2.2.1 1 (by decide) (by decide)
      (by intro i hi; have : i = 0 := by omega
          subst this; decide)).1⟩

/-- C20: `find` aborts on the first failing info query.  For well typed arguments,
when the count query succeeds with `n` channels, the info queries of the channels
before `k` succeed without a match and the info query of channel `k` fails with the
status `s`: the result is nil, the last status is `s`, and the trace ends with the
query of channel `k`, so no later channel is queried or returned.  For both families. -/
theorem find_aborts_on_failed_query (T : Transport) (m : Machine) (argv : Nat → Janet)
    (kw : String) (value : Janet) (n k n' k' : Nat)
    (h0 : argv 0 = .keyword kw) (h1 : argv 1 = value) (hv : findArgs kw value)
    (hc : T.I2C_GetNumChannels m.trace = (FT_OK, n)) (hn : n ≤ 2147483647) (hk : k < n)
    (hbefore : ∀ i, i < k →
      (T.I2C_GetChannelInfo (I2C.scan_trace (m.trace ++ [.I2C_GetNumChannels]) i) i).1 = FT_OK ∧
      descriptorMatches kw value
        (T.I2C_GetChannelInfo (I2C.scan_trace (m.trace ++ [.I2C_GetNumChannels]) i) i).2
        = false)
    (hfail :
      (T.I2C_GetChannelInfo (I2C.scan_trace (m.trace ++ [.I2C_GetNumChannels]) k) k).1 ≠ FT_OK)
    (hc' : T.SPI_GetNumChannels m.trace = (FT_OK, n')) (hn' : n' ≤ 2147483647) (hk' : k' < n')
    (hbefore' : ∀ i, i < k' →
      (T.SPI_GetChannelInfo (SPI.scan_trace (m.trace ++ [.SPI_GetNumChannels]) i) i).1 = FT_OK ∧
      descriptorMatches kw value
        (T.SPI_GetChannelInfo (SPI.scan_trace (m.trace ++ [.SPI_GetNumChannels]) i) i).2
        = false)
    (hfail' :
      (T.SPI_GetChannelInfo (SPI.scan_trace (m.trace ++ [.SPI_GetNumChannels]) k') k').1
        ≠ FT_OK) :
    ((I2C.cfun_i2c_find T 2 argv m).1 = .ret .nil ∧
      (I2C.cfun_i2c_find T 2 argv m).2.dyn "i2c-err" = .keyword (ft_status_name
        (T.I2C_GetChannelInfo (I2C.scan_trace (m.trace ++ [.I2C_GetNumChannels]) k) k).1) ∧
      (I2C.cfun_i2c_find T 2 argv m).2.trace
        = m.trace ++ [.I2C_GetNumChannels] ++ (List.range (k + 1)).map Call.I2C_GetChannelInfo) ∧
    ((SPI.cfun_spi_find T 2 argv m).1 = .ret .nil ∧
      (SPI.cfun_spi_find T 2 argv m).2.dyn "ft-err" = .keyword (ft_status_name
        (T.SPI_GetChannelInfo (SPI.scan_trace (m.trace ++ [.SPI_GetNumChannels]) k') k').1) ∧
      (SPI.cfun_spi_find T 2 argv m).2.trace
        = m.trace ++ [.SPI_GetNumChannels]
            ++ (List.range (k' + 1)).map Call.SPI_GetChannelInfo) :=
  ⟨(i2c_find_result T m argv kw value n k h0 h1 hv hc (by omega) hn hbefore).2.1 hk hfail,
   (spi_find_result T m argv kw value n' k' h0 h1 hv hc' (by omega) hn' hbefore').2.1 hk' hfail'⟩

theorem find_aborts_on_failed_query_witness :
    findArgs "id" (.number 11) ∧
    descriptorMatches "id" (.number 11)
      (failingInfoTransport.I2C_GetChannelInfo [.I2C_GetNumChannels, .I2C_GetChannelInfo 0] 1).2
      = true ∧
    I2C.cfun_i2c_find failingInfoTransport 2 (argvOf [.keyword "id", .number 11]) demoMachine
      = (.ret .nil,
         { demoMachine with
           trace := [.I2C_GetNumChannels, .I2C_GetChannelInfo 0]
           dyn := Function.update demoMachine.dyn "i2c-err" (.keyword "io-error") }) ∧
    (SPI.cfun_spi_find failingInfoTransport 2 (argvOf [.keyword "id", .number 11])
      demoMachine).2.trace = [.SPI_GetNumChannels, .SPI_GetChannelInfo 0] :=
  have hv : findArgs "id" (.number 11) := Or.inl ⟨Or.inl rfl, 11, by decide, rfl⟩
  have key := find_aborts_on_failed_query failingInfoTransport demoMachine
    (argvOf [.keyword "id", .number 11]) "id" (.number 11) 2 0 2 0 rfl rfl hv
    rfl (by decide) (by decide) (fun i hi => absurd hi (Nat.not_lt_zero i)) (by decide)
    rfl (by decide) (by decide) (fun i hi => absurd hi (Nat.not_lt_zero i)) (by decide)
  ⟨hv, by decide, rfl, key.2.2.2⟩

/-! ## Open -/

/-- C21: `open` with an index of at least 1, for both families.  If the transport
open succeeds and the info query that follows fails, the call panics (so no handle
is returned), the trace grows by the open, the info query and one close of the
native handle that the open delivered, and the new object (at the address after
`brk`) holds the null handle.  If the transport open fails with status `s`, the
call returns nil with last status `s` and the trace grows by the open call only. -/
theorem open_bails_out_after_failed_info (T : Transport) (m : Machine) (argv : Nat → Janet)
    (idx : Nat) (h0 : argv 0 = .number idx) (h1 : 1 ≤ idx) (h2 : idx ≤ 4294967295) :
    ((T.I2C_OpenChannel m.trace (idx - 1)).1 = FT_OK →
      (T.I2C_GetChannelInfo (m.trace ++ [.I2C_OpenChannel (idx - 1)]) (idx - 1)).1 ≠ FT_OK →
      (I2C.cfun_i2c_openchannel T 1 argv m).1.isPanic = true ∧
      (I2C.cfun_i2c_openchannel T 1 argv m).2.trace
        = m.trace ++ [.I2C_OpenChannel (idx - 1), .I2C_GetChannelInfo (idx - 1),
            .I2C_CloseChannel (T.I2C_OpenChannel m.trace (idx - 1)).2] ∧
      ((I2C.cfun_i2c_openchannel T 1 argv m).2.i2c_mem (m.brk + 1)).handle = NULL) ∧
    ((T.I2C_OpenChannel m.trace (idx - 1)).1 ≠ FT_OK →
      (I2C.cfun_i2c_openchannel T 1 argv m).1 = .ret .nil ∧
      (I2C.cfun_i2c_openchannel T 1 argv m).2.dyn "i2c-err"
        = .keyword (ft_status_name (T.I2C_OpenChannel m.trace (idx - 1)).1) ∧
      (I2C.cfun_i2c_openchannel T 1 argv m).2.trace
        = m.trace ++ [.I2C_OpenChannel (idx - 1)]) ∧
    ((T.SPI_OpenChannel m.trace (idx - 1)).1 = FT_OK →
      (T.SPI_GetChannelInfo (m.trace ++ [.SPI_OpenChannel (idx - 1)]) (idx - 1)).1 ≠ FT_OK →
      (SPI.cfun_spi_openchannel T 1 argv m).1.isPanic = true ∧
      (SPI.cfun_spi_openchannel T 1 argv m).2.trace
        = m.trace ++ [.SPI_OpenChannel (idx - 1), .SPI_GetChannelInfo (idx - 1),
            .SPI_CloseChannel (T.SPI_OpenChannel m.trace (idx - 1)).2] ∧
      ((SPI.cfun_spi_openchannel T 1 argv m).2.spi_mem (m.brk + 1)).handle = NULL) ∧
    ((T.SPI_OpenChannel m.trace (idx - 1)).1 ≠ FT_OK →
      (SPI.cfun_spi_openchannel T 1 argv m).1 = .ret .nil ∧
      (SPI.cfun_spi_openchannel T 1 argv m).2.dyn "ft-err"
        = .keyword (ft_status_name (T.SPI_OpenChannel m.trace (idx - 1)).1) ∧
      (SPI.cfun_spi_openchannel T 1 argv m).2.trace
        = m.trace ++ [.SPI_OpenChannel (idx - 1)]) := by
  have r1 : (idx : Int) ≤ 4294967295 := by omega
  have r2 : ¬ idx < 1 := by omega
  have r3 : ¬ idx = 0 := by omega
  refine ⟨?_, ?_, ?_, ?_⟩
  · intro ho hi
    simp [I2C.cfun_i2c_openchannel, janet_fixarity, janet_getuinteger, h0, r1, r2, r3, ho, hi,
      Machine.call, Machine.set_i2c, Outcome.isPanic]
  · intro ho
    simp [I2C.cfun_i2c_openchannel, janet_fixarity, janet_getuinteger, h0, r1, r2, r3, ho,
      Machine.call, Machine.set_i2c, ret, I2C.set_status_dyn, janet_setdyn, janet_wrap_nil,
      janet_ckeywordv]
  · intro ho hi
    simp [SPI.cfun_spi_openchannel, janet_fixarity, janet_getuinteger, h0, r1, r2, r3, ho, hi,
      Machine.call, Machine.set_spi, Outcome.isPanic]
  · intro ho
    simp [SPI.cfun_spi_openchannel, janet_fixarity, janet_getuinteger, h0, r1, r2, r3, ho,
      Machine.call, Machine.set_spi, ret, SPI.set_status_dyn, janet_setdyn, janet_wrap_nil,
      janet_ckeywordv]

theorem open_bails_out_after_failed_info_witness :
    (I2C.cfun_i2c_openchannel failingInfoTransport 1 (argvOf [.number 1]) demoMachine).2.trace
      = [.I2C_OpenChannel 0, .I2C_GetChannelInfo 0, .I2C_CloseChannel 7] ∧
    ((I2C.cfun_i2c_openchannel failingInfoTransport 1 (argvOf [.number 1])
      demoMachine).2.i2c_mem 3).handle = NULL ∧
    (SPI.cfun_spi_openchannel failingInfoTransport 1 (argvOf [.number 1]) demoMachine).2.trace
      = [.SPI_OpenChannel 0, .SPI_GetChannelInfo 0, .SPI_CloseChannel 7] ∧
    (I2C.cfun_i2c_openchannel failingOpenTransport 1 (argvOf [.number 1]) demoMachine).1
      = .ret .nil ∧
    (I2C.cfun_i2c_openchannel failingOpenTransport 1 (argvOf [.number 1]) demoMachine).2.trace
      = [.I2C_OpenChannel 0] ∧
    (SPI.cfun_spi_openchannel failingOpenTransport 1 (argvOf [.number 1]) demoMachine).2.trace
      = [.SPI_OpenChannel 0] :=
  have a := open_bails_out_after_failed_info failingInfoTransport demoMachine
    (argvOf [.number 1]) 1 rfl (by decide) (by decide)
  have b := open_bails_out_after_failed_info failingOpenTransport demoMachine
    (argvOf [.number 1]) 1 rfl (by decide) (by decide)
  ⟨(a.1 rfl (by decide)).2.1, (a.1 rfl (by decide)).2.2, (a.2.2.1 rfl (by decide)).2.1,
    (b.2.1 (by decide)).1, (b.2.1 (by decide)).2.2, (b.2.2.2 (by decide)).2.2⟩

/-! ## Is-open and is-busy -/

theorem bne_zero_eq (x : Nat) : (x != 0) = !decide (x = 0) := by
  by_cases h : x = 0 <;> simp [h]

/-- C22: `is_open`, for both families.  On a channel object whose native handle is
null, and on the index 0, it returns false and leaves the machine as it was (no
transport call, last status untouched).  On an index `i` of at least 1, and on a
channel object with a non-null native handle and the index `i`, it queries the
descriptor of the zero-based index `i - 1`, records the status of that query, and
returns true exactly when the query succeeds and the descriptor has the opened
flag. -/
theorem is_open_reads_opened_flag (T : Transport) (m : Machine)
    (argvC argvO argvC' argvO' argvZ argvI : Nat → Janet) (c o c' o' i : Nat)
    (hC : argvC 0 = .abstract I2C.channel_type c) (hCn : (m.i2c_mem c).handle = NULL)
    (hO : argvO 0 = .abstract I2C.channel_type o) (hOn : (m.i2c_mem o).handle ≠ NULL)
    (hOi : (m.i2c_mem o).index = i)
    (hC' : argvC' 0 = .abstract SPI.channel_type c') (hCn' : (m.spi_mem c').handle = NULL)
    (hO' : argvO' 0 = .abstract SPI.channel_type o') (hOn' : (m.spi_mem o').handle ≠ NULL)
    (hOi' : (m.spi_mem o').index = i)
    (hZ : argvZ 0 = .number 0)
    (hI : argvI 0 = .number i) (hi : 1 ≤ i) (hi' : i ≤ 4294967295) :
    I2C.cfun_i2c_is_open T 1 argvC m = (.ret (.boolean false), m) ∧
    I2C.cfun_i2c_is_open T 1 argvZ m = (.ret (.boolean false), m) ∧
    I2C.cfun_i2c_is_open T 1 argvI m
      = (.ret (.boolean (decide ((T.I2C_GetChannelInfo m.trace (i - 1)).1 = FT_OK ∧
            (T.I2C_GetChannelInfo m.trace (i - 1)).2.Flags &&& T.FT_FLAGS_OPENED ≠ 0))),
         janet_setdyn "i2c-err"
           (.keyword (ft_status_name (T.I2C_GetChannelInfo m.trace (i - 1)).1))
           (m.call (.I2C_GetChannelInfo (i - 1)))) ∧
    I2C.cfun_i2c_is_open T 1 argvO m = I2C.cfun_i2c_is_open T 1 argvI m ∧
    SPI.cfun_spi_is_open T 1 argvC' m = (.ret (.boolean false), m) ∧
    SPI.cfun_spi_is_open T 1 argvZ m = (.ret (.boolean false), m) ∧
    SPI.cfun_spi_is_open T 1 argvI m
      = (.ret (.boolean (decide ((T.SPI_GetChannelInfo m.trace (i - 1)).1 = FT_OK ∧
            (T.SPI_GetChannelInfo m.trace (i - 1)).2.Flags &&& T.FT_FLAGS_OPENED ≠ 0))),
         janet_setdyn "ft-err"
           (.keyword (ft_status_name (T.SPI_GetChannelInfo m.trace (i - 1)).1))
           (m.call (.SPI_GetChannelInfo (i - 1)))) ∧
    SPI.cfun_spi_is_open T 1 argvO' m = SPI.cfun_spi_is_open T 1 argvI m := by
  have r1 : (i : Int) ≤ 4294967295 := by omega
  have r3 : ¬ i = 0 := by omega
  have r4 : 0 < i := by omega
  have e1 : ¬ (NULL = (m.i2c_mem o).handle) := fun h => hOn h.symm
  have e1' : ¬ (NULL = (m.spi_mem o').handle) := fun h => hOn' h.symm
  have qI : I2C.cfun_i2c_is_open T 1 argvI m
      = (.ret (.boolean (decide ((T.I2C_GetChannelInfo m.trace (i - 1)).1 = FT_OK ∧
            (T.I2C_GetChannelInfo m.trace (i - 1)).2.Flags &&& T.FT_FLAGS_OPENED ≠ 0))),
         janet_setdyn "i2c-err"
           (.keyword (ft_status_name (T.I2C_GetChannelInfo m.trace (i - 1)).1))
           (m.call (.I2C_GetChannelInfo (i - 1)))) := by
    by_cases hs : (T.I2C_GetChannelInfo m.trace (i - 1)).1 = FT_OK
    · simp [I2C.cfun_i2c_is_open, I2C.is_open_query, janet_fixarity, janet_checktype,
        janet_type, janet_getuinteger, hI, r1, r3, hs, ret, I2C.set_status_dyn,
        janet_wrap_boolean, janet_ckeywordv]
      exact bne_zero_eq _
    · simp [I2C.cfun_i2c_is_open, I2C.is_open_query, janet_fixarity, janet_checktype,
        janet_type, janet_getuinteger, hI, r1, r3, hs, ret, I2C.set_status_dyn,
        janet_wrap_boolean, janet_ckeywordv]
  have qS : SPI.cfun_spi_is_open T 1 argvI m
      = (.ret (.boolean (decide ((T.SPI_GetChannelInfo m.trace (i - 1)).1 = FT_OK ∧
            (T.SPI_GetChannelInfo m.trace (i - 1)).2.Flags &&& T.FT_FLAGS_OPENED ≠ 0))),
         janet_setdyn "ft-err"
           (.keyword (ft_status_name (T.SPI_GetChannelInfo m.trace (i - 1)).1))
           (m.call (.SPI_GetChannelInfo (i - 1)))) := by
    by_cases hs : (T.SPI_GetChannelInfo m.trace (i - 1)).1 = FT_OK
    · simp [SPI.cfun_spi_is_open, SPI.is_open_query, janet_fixarity, janet_checktype,
        janet_type, janet_getuinteger, hI, r1, r3, hs, ret, SPI.set_status_dyn,
        janet_wrap_boolean, janet_ckeywordv]
      exact bne_zero_eq _
    · simp [SPI.cfun_spi_is_open, SPI.is_open_query, janet_fixarity, janet_checktype,
        janet_type, janet_getuinteger, hI, r1, r3, hs, ret, SPI.set_status_dyn,
        janet_wrap_boolean, janet_ckeywordv]
  refine ⟨?_, ?_, qI, ?_, ?_, ?_, qS, ?_⟩
  · simp [I2C.cfun_i2c_is_open, janet_fixarity, janet_checktype, janet_type, janet_getabstract,
      hC, hCn, janet_wrap_boolean]
  · simp [I2C.cfun_i2c_is_open, I2C.is_open_query, janet_fixarity, janet_checktype, janet_type,
      janet_getuinteger, hZ, janet_wrap_boolean]
  · rw [qI]
    by_cases hs : (T.I2C_GetChannelInfo m.trace (i - 1)).1 = FT_OK
    · simp [I2C.cfun_i2c_is_open, I2C.is_open_query, janet_fixarity, janet_checktype,
        janet_type, janet_getabstract, hO, e1, hOi, r3, r4, hs, ret, I2C.set_status_dyn,
        janet_wrap_boolean, janet_ckeywordv]
      exact bne_zero_eq _
    · simp [I2C.cfun_i2c_is_open, I2C.is_open_query, janet_fixarity, janet_checktype,
        janet_type, janet_getabstract, hO, e1, hOi, r3, r4, hs, ret, I2C.set_status_dyn,
        janet_wrap_boolean, janet_ckeywordv]
  · simp [SPI.cfun_spi_is_open, janet_fixarity, janet_checktype, janet_type, janet_getabstract,
      hC', hCn', janet_wrap_boolean]
  · simp [SPI.cfun_spi_is_open, SPI.is_open_query, janet_fixarity, janet_checktype, janet_type,
      janet_getuinteger, hZ, janet_wrap_boolean]
  · rw [qS]
    by_cases hs : (T.SPI_GetChannelInfo m.trace (i - 1)).1 = FT_OK
    · simp [SPI.cfun_spi_is_open, SPI.is_open_query, janet_fixarity, janet_checktype,
        janet_type, janet_getabstract, hO', e1', hOi', r3, r4, hs, ret, SPI.set_status_dyn,
        janet_wrap_boolean, janet_ckeywordv]
      exact bne_zero_eq _
    · simp [SPI.cfun_spi_is_open, SPI.is_open_query, janet_fixarity, janet_checktype,
        janet_type, janet_getabstract, hO', e1', hOi', r3, r4, hs, ret, SPI.set_status_dyn,
        janet_wrap_boolean, janet_ckeywordv]

theorem is_open_reads_opened_flag_witness :
    I2C.cfun_i2c_is_open demoTransport 1 (argvOf [.abstract I2C.channel_type 2]) demoMachine
      = (.ret (.boolean false), demoMachine) ∧
    (I2C.cfun_i2c_is_open demoTransport 1 (argvOf [.number 1]) demoMachine).1
      = .ret (.boolean true) ∧
    (I2C.cfun_i2c_is_open demoTransport 1 (argvOf [.abstract I2C.channel_type 3])
      demoMachine).2.trace = [.I2C_GetChannelInfo 0] ∧
    (SPI.cfun_spi_is_open demoTransport 1 (argvOf [.abstract SPI.channel_type 3])
      demoMachine).1 = .ret (.boolean true) :=
  have key := is_open_reads_opened_flag demoTransport demoMachine
    (argvOf [.abstract I2C.channel_type 2]) (argvOf [.abstract I2C.channel_type 3])
    (argvOf [.abstract SPI.channel_type 2]) (argvOf [.abstract SPI.channel_type 3])
    (argvOf [.number 0]) (argvOf [.number 1]) 2 3 2 3 1
    rfl rfl rfl (by decide) rfl rfl rfl rfl (by decide) rfl rfl rfl (by decide) (by decide)
  ⟨key.1, by rw [key.2.2.1]; decide, by rw [key.2.2.2.1, key.2.2.1]; rfl,
    by rw [key.2.2.2.2.2.2.2, key.2.2.2.2.2.2.1]; decide⟩

/-- C23: `cfun_spi_is_busy` on a channel object whose native handle is null returns
`janet_wrap_integer(0)`, the number 0, not the boolean false that it returns for
an idle open channel.  It records device-not-opened and makes no transport call. -/
theorem spi_is_busy_closed_returns_number :
    SPI.cfun_spi_is_busy demoTransport 1 (argvOf [.abstract SPI.channel_type 2]) demoMachine
      = (.ret (.number 0),
         { demoMachine with
           dyn := Function.update demoMachine.dyn "ft-err" (.keyword "device-not-opened") }) ∧
    (SPI.cfun_spi_is_busy demoTransport 1 (argvOf [.abstract SPI.channel_type 2]) demoMachine).1
      ≠ .ret (.boolean false) ∧
    (SPI.cfun_spi_is_busy demoTransport 1 (argvOf [.abstract SPI.channel_type 3]) demoMachine).1
      = .ret (.boolean false) ∧
    (SPI.cfun_spi_is_busy demoTransport 1 (argvOf [.abstract SPI.channel_type 3])
      demoMachine).2.trace = [.SPI_IsBusy 7] :=
  ⟨rfl, by decide, by decide, by decide⟩

/-! ## Static config -/

theorem janet_getabstract_some (argv : Nat → Janet) (n : Nat) (t : String) (c : Nat)
    (h : janet_getabstract argv n t = some c) : argv n = .abstract t c := by
  unfold janet_getabstract at h
  cases ha : argv n <;> simp [ha] at h
  obtain ⟨rfl, rfl⟩ := h
  rfl

/-- C24: a successful `configure_static`, for both families, stores the composed
option bits in the static config of its channel and changes nothing else: the
trace is as before (no transport call), every channel object keeps its index,
unique id, native handle, clock rate, latency, read options and write options,
and the objects of the other family and the buffers are as before. -/
theorem config_replaces_option_bits_only (T : Transport) (m : Machine) (argc argc' : Nat)
    (argv argv' : Nat → Janet) (v v' : Janet)
    (hs : (I2C.cfun_i2c_set_config_options T argc argv m).1 = .ret v)
    (hs' : (SPI.cfun_spi_set_config_options T argc' argv' m).1 = .ret v') :
    (∃ c mask, argv 0 = .abstract I2C.channel_type c ∧
      I2C.config_option_loop T argv (argc - 1) 1 0 = .ok mask ∧
      ((I2C.cfun_i2c_set_config_options T argc argv m).2.i2c_mem c).config.Options = mask) ∧
    (I2C.cfun_i2c_set_config_options T argc argv m).2.trace = m.trace ∧
    (I2C.cfun_i2c_set_config_options T argc argv m).2.spi_mem = m.spi_mem ∧
    (I2C.cfun_i2c_set_config_options T argc argv m).2.buf_mem = m.buf_mem ∧
    (∀ p, ((I2C.cfun_i2c_set_config_options T argc argv m).2.i2c_mem p).index
        = (m.i2c_mem p).index ∧
      ((I2C.cfun_i2c_set_config_options T argc argv m).2.i2c_mem p).id = (m.i2c_mem p).id ∧
      ((I2C.cfun_i2c_set_config_options T argc argv m).2.i2c_mem p).handle
        = (m.i2c_mem p).handle ∧
      ((I2C.cfun_i2c_set_config_options T argc argv m).2.i2c_mem p).config.ClockRate
        = (m.i2c_mem p).config.ClockRate ∧
      ((I2C.cfun_i2c_set_config_options T argc argv m).2.i2c_mem p).config.LatencyTimer
        = (m.i2c_mem p).config.LatencyTimer ∧
      ((I2C.cfun_i2c_set_config_options T argc argv m).2.i2c_mem p).read_options
        = (m.i2c_mem p).read_options ∧
      ((I2C.cfun_i2c_set_config_options T argc argv m).2.i2c_mem p).write_options
        = (m.i2c_mem p).write_options) ∧
    (∃ c mask, argv' 0 = .abstract SPI.channel_type c ∧
      SPI.config_option_loop T argv' (argc' - 1) 1 0 = .ok mask ∧
      ((SPI.cfun_spi_set_config_options T argc' argv' m).2.spi_mem c).config.configOptions
        = mask) ∧
    (SPI.cfun_spi_set_config_options T argc' argv' m).2.trace = m.trace ∧
    (SPI.cfun_spi_set_config_options T argc' argv' m).2.i2c_mem = m.i2c_mem ∧
    (SPI.cfun_spi_set_config_options T argc' argv' m).2.buf_mem = m.buf_mem ∧
    (∀ p, ((SPI.cfun_spi_set_config_options T argc' argv' m).2.spi_mem p).index
        = (m.spi_mem p).index ∧
      ((SPI.cfun_spi_set_config_options T argc' argv' m).2.spi_mem p).id = (m.spi_mem p).id ∧
      ((SPI.cfun_spi_set_config_options T argc' argv' m).2.spi_mem p).handle
        = (m.spi_mem p).handle ∧
      ((SPI.cfun_spi_set_config_options T argc' argv' m).2.spi_mem p).config.ClockRate
        = (m.spi_mem p).config.ClockRate ∧
      ((SPI.cfun_spi_set_config_options T argc' argv' m).2.spi_mem p).config.LatencyTimer
        = (m.spi_mem p).config.LatencyTimer ∧
      ((SPI.cfun_spi_set_config_options T argc' argv' m).2.spi_mem p).read_options
        = (m.spi_mem p).read_options ∧
      ((SPI.cfun_spi_set_config_options T argc' argv' m).2.spi_mem p).write_options
        = (m.spi_mem p).write_options) := by
  have frame_i : ∀ (c : Nat) (opts : Nat) (p : Nat),
      (Function.update m.i2c_mem c
        { m.i2c_mem c with config := { (m.i2c_mem c).config with Options := opts } } p).index
        = (m.i2c_mem p).index ∧
      (Function.update m.i2c_mem c
        { m.i2c_mem c with config := { (m.i2c_mem c).config with Options := opts } } p).id
        = (m.i2c_mem p).id ∧
      (Function.update m.i2c_mem c
        { m.i2c_mem c with config := { (m.i2c_mem c).config with Options := opts } } p).handle
        = (m.i2c_mem p).handle ∧
      (Function.update m.i2c_mem c
        { m.i2c_mem c with config := { (m.i2c_mem c).config with Options := opts } }
          p).config.ClockRate = (m.i2c_mem p).config.ClockRate ∧
      (Function.update m.i2c_mem c
        { m.i2c_mem c with config := { (m.i2c_mem c).config with Options := opts } }
          p).config.LatencyTimer = (m.i2c_mem p).config.LatencyTimer ∧
      (Function.update m.i2c_mem c
        { m.i2c_mem c with config := { (m.i2c_mem c).config with Options := opts } }
          p).read_options = (m.i2c_mem p).read_options ∧
      (Function.update m.i2c_mem c
        { m.i2c_mem c with config := { (m.i2c_mem c).config with Options := opts } }
          p).write_options = (m.i2c_mem p).write_options := by
    intro c opts p
    by_cases hp : p = c
    · subst hp; simp
    · simp [Function.update_noteq hp]
  have frame_s : ∀ (c : Nat) (opts : Nat) (p : Nat),
      (Function.update m.spi_mem c
        { m.spi_mem c with config := { (m.spi_mem c).config with configOptions := opts } }
          p).index = (m.spi_mem p).index ∧
      (Function.update m.spi_mem c
        { m.spi_mem c with config := { (m.spi_mem c).config with configOptions := opts } } p).id
        = (m.spi_mem p).id ∧
      (Function.update m.spi_mem c
        { m.spi_mem c with config := { (m.spi_mem c).config with configOptions := opts } }
          p).handle = (m.spi_mem p).handle ∧
      (Function.update m.spi_mem c
        { m.spi_mem c with config := { (m.spi_mem c).config with configOptions := opts } }
          p).config.ClockRate = (m.spi_mem p).config.ClockRate ∧
      (Function.update m.spi_mem c
        { m.spi_mem c with config := { (m.spi_mem c).config with configOptions := opts } }
          p).config.LatencyTimer = (m.spi_mem p).config.LatencyTimer ∧
      (Function.update m.spi_mem c
        { m.spi_mem c with config := { (m.spi_mem c).config with configOptions := opts } }
          p).read_options = (m.spi_mem p).read_options ∧
      (Function.update m.spi_mem c
        { m.spi_mem c with config := { (m.spi_mem c).config with configOptions := opts } }
          p).write_options = (m.spi_mem p).write_options := by
    intro c opts p
    by_cases hp : p = c
    · subst hp; simp
    · simp [Function.update_noteq hp]
  have hi : (∃ c mask, argv 0 = .abstract I2C.channel_type c ∧
      I2C.config_option_loop T argv (argc - 1) 1 0 = .ok mask ∧
      (I2C.cfun_i2c_set_config_options T argc argv m).2
        = janet_setdyn "i2c-err" (janet_ckeywordv (ft_status_name FT_OK))
            (m.set_i2c c
              { m.i2c_mem c with config := { (m.i2c_mem c).config with Options := mask } })) := by
    unfold I2C.cfun_i2c_set_config_options at hs ⊢
    by_cases h1 : (!janet_arity argc 1 3) = true
    · simp [h1] at hs
    · cases hg : janet_getabstract argv 0 I2C.channel_type with
      | none => simp [h1, hg] at hs
      | some c =>
        cases hl : I2C.config_option_loop T argv (argc - 1) 1 0 with
        | error e => simp [h1, hg, hl] at hs
        | ok mask =>
          exact ⟨c, mask, janet_getabstract_some argv 0 _ c hg, rfl,
            by simp [h1, ret, I2C.set_status_dyn]⟩
  have hsp : (∃ c mask, argv' 0 = .abstract SPI.channel_type c ∧
      SPI.config_option_loop T argv' (argc' - 1) 1 0 = .ok mask ∧
      (SPI.cfun_spi_set_config_options T argc' argv' m).2
        = janet_setdyn "ft-err" (janet_ckeywordv (ft_status_name FT_OK))
            (m.set_spi c
              { m.spi_mem c with
                config := { (m.spi_mem c).config with configOptions := mask } })) := by
    unfold SPI.cfun_spi_set_config_options at hs' ⊢
    by_cases h1 : (!janet_arity argc' 1 4) = true
    · simp [h1] at hs'
    · cases hg : janet_getabstract argv' 0 SPI.channel_type with
      | none => simp [h1, hg] at hs'
      | some c =>
        cases hl : SPI.config_option_loop T argv' (argc' - 1) 1 0 with
        | error e => simp [h1, hg, hl] at hs'
        | ok mask =>
          exact ⟨c, mask, janet_getabstract_some argv' 0 _ c hg, rfl,
            by simp [h1, ret, SPI.set_status_dyn]⟩
  obtain ⟨c, mask, a0, al, e⟩ := hi
  obtain ⟨c', mask', a0', al', e'⟩ := hsp
  rw [e, e']
  refine ⟨⟨c, mask, a0, al, by simp [janet_setdyn, Machine.set_i2c]⟩, rfl, rfl, rfl,
    fun p => frame_i c mask p,
    ⟨c', mask', a0', al', by simp [janet_setdyn, Machine.set_spi]⟩, rfl, rfl, rfl,
    fun p => frame_s c' mask' p⟩

theorem config_replaces_option_bits_only_witness :
    ((I2C.cfun_i2c_set_config_options demoTransport 2
        (argvOf [.abstract I2C.channel_type 3, .keyword "disable-3phase-clocking"])
        demoMachine).2.i2c_mem 3).config = ⟨0, 0, 1⟩ ∧
    ((SPI.cfun_spi_set_config_options demoTransport 3
        (argvOf [.abstract SPI.channel_type 3, .keyword "mode1", .keyword "bus4"])
        demoMachine).2.spi_mem 3).config = ⟨0, 0, 5⟩ ∧
    (demoMachine.i2c_mem 3).config = ⟨0, 0, 0⟩ ∧
    (I2C.cfun_i2c_set_config_options demoTransport 2
        (argvOf [.abstract I2C.channel_type 3, .keyword "disable-3phase-clocking"])
        demoMachine).2.trace = demoMachine.trace ∧
    (SPI.cfun_spi_set_config_options demoTransport 3
        (argvOf [.abstract SPI.channel_type 3, .keyword "mode1", .keyword "bus4"])
        demoMachine).2.trace = demoMachine.trace :=
  have key := config_replaces_option_bits_only demoTransport demoMachine 2 3
    (argvOf [.abstract I2C.channel_type 3, .keyword "disable-3phase-clocking"])
    (argvOf [.abstract SPI.channel_type 3, .keyword "mode1", .keyword "bus4"]) .nil .nil
    rfl rfl
  ⟨by decide, by decide, by decide, key.2.1, key.2.2.2.2.2.2.1⟩

/-! ## Initialize on failure -/

/-- C25, as stated, fails: `init` stores the clock rate before it checks the latency
and stores the latency before it tests the native handle.  On the concrete machine
`(i2c/init chan :fast 0)` panics on the latency with the clock rate already
replaced by 400,000, and `(i2c/init chan :fast 16)` and `(spi/init chan 1000 16)` on
the closed channel report device-not-opened with the clock rate and the latency
replaced. -/
theorem init_failure_counterexample :
    (I2C.cfun_i2c_initchannel demoTransport 3
        (argvOf [.abstract I2C.channel_type 3, .keyword "fast", .number 0]) demoMachine).1
      = .panic "latency %d out of range. expected 1 to 255" ∧
    ((I2C.cfun_i2c_initchannel demoTransport 3
        (argvOf [.abstract I2C.channel_type 3, .keyword "fast", .number 0])
        demoMachine).2.i2c_mem 3).config = ⟨400000, 0, 0⟩ ∧
    (demoMachine.i2c_mem 3).config = ⟨0, 0, 0⟩ ∧
    (I2C.cfun_i2c_initchannel demoTransport 3
        (argvOf [.abstract I2C.channel_type 2, .keyword "fast", .number 16]) demoMachine).1
      = .ret (.boolean false) ∧
    (I2C.cfun_i2c_initchannel demoTransport 3
        (argvOf [.abstract I2C.channel_type 2, .keyword "fast", .number 16])
        demoMachine).2.dyn "i2c-err" = .keyword "device-not-opened" ∧
    ((I2C.cfun_i2c_initchannel demoTransport 3
        (argvOf [.abstract I2C.channel_type 2, .keyword "fast", .number 16])
        demoMachine).2.i2c_mem 2).config = ⟨400000, 16, 0⟩ ∧
    (demoMachine.i2c_mem 2).config = ⟨0, 0, 0⟩ ∧
    (SPI.cfun_spi_initchannel demoTransport 3
        (argvOf [.abstract SPI.channel_type 2, .number 1000, .number 16]) demoMachine).1
      = .ret (.boolean false) ∧
    ((SPI.cfun_spi_initchannel demoTransport 3
        (argvOf [.abstract SPI.channel_type 2, .number 1000, .number 16])
        demoMachine).2.spi_mem 2).config = ⟨16, 16, 0⟩ ∧
    (demoMachine.spi_mem 2).config = ⟨0, 0, 0⟩ := by
  decide

theorem toUInt8_le (l : Int) : toUInt8 l ≤ 255 := by
  simp only [toUInt8]
  omega

/-- C25, amended: what a failing `init` leaves in the static config.  A failure before
the first store (a clock that is refused) leaves the machine as it was.  After
that the I2C `init` (with the clock rate `rate` it computed and the latency
argument `l`) fails on the latency with the clock rate replaced by `rate`; and both
families fail on a null native handle (device-not-opened, no transport call) and
in the transport init with the clock rate and the latency replaced by the new
values.  The option bits are the old ones in every case. -/
theorem init_failure_keeps_option_bits_only (T : Transport) (m : Machine) (argc argc' : Nat)
    (argv argv' : Nat → Janet) (c c' rate clk : Nat) (l l' : Int)
    (ha : 1 ≤ argc) (ha' : argc ≤ 3) (h0 : argv 0 = .abstract I2C.channel_type c)
    (hr : I2C.initchannel_rate argc argv = .ok rate)
    (hl : janet_optinteger argv argc 2 255 = some l)
    (hb : 1 ≤ argc') (hb' : argc' ≤ 3) (h0' : argv' 0 = .abstract SPI.channel_type c')
    (hc : janet_getuinteger argv' 2 = some clk) (hle : clk ≤ 30000000)
    (hl' : janet_optinteger argv' argc' 2 255 = some l') :
    (∀ a v msg, I2C.initchannel_rate a v = .error msg →
      (I2C.cfun_i2c_initchannel T a v m).1.isPanic = true ∧
      (I2C.cfun_i2c_initchannel T a v m).2 = m) ∧
    (∀ a v, (∀ k, janet_getuinteger v 2 = some k → 30000000 < k) →
      (SPI.cfun_spi_initchannel T a v m).1.isPanic = true ∧
      (SPI.cfun_spi_initchannel T a v m).2 = m) ∧
    (toUInt8 l < 1 →
      I2C.cfun_i2c_initchannel T argc argv m
        = (.panic "latency %d out of range. expected 1 to 255",
           m.set_i2c c { m.i2c_mem c with
             config := ⟨rate, (m.i2c_mem c).config.LatencyTimer,
               (m.i2c_mem c).config.Options⟩ })) ∧
    (1 ≤ toUInt8 l → (m.i2c_mem c).handle = NULL →
      I2C.cfun_i2c_initchannel T argc argv m
        = (.ret (.boolean false),
           janet_setdyn "i2c-err" (.keyword "device-not-opened")
             (m.set_i2c c { m.i2c_mem c with
               config := ⟨rate, toUInt8 l, (m.i2c_mem c).config.Options⟩ }))) ∧
    (1 ≤ toUInt8 l → (m.i2c_mem c).handle ≠ NULL →
      T.I2C_InitChannel m.trace (m.i2c_mem c).handle
        ⟨rate, toUInt8 l, (m.i2c_mem c).config.Options⟩ ≠ FT_OK →
      I2C.cfun_i2c_initchannel T argc argv m
        = (.ret (.boolean false),
           janet_setdyn "i2c-err" (.keyword (ft_status_name
               (T.I2C_InitChannel m.trace (m.i2c_mem c).handle
                 ⟨rate, toUInt8 l, (m.i2c_mem c).config.Options⟩)))
             ((m.set_i2c c { m.i2c_mem c with
               config := ⟨rate, toUInt8 l, (m.i2c_mem c).config.Options⟩ }).call
               (.I2C_InitChannel (m.i2c_mem c).handle
                 ⟨rate, toUInt8 l, (m.i2c_mem c).config.Options⟩)))) ∧
    ((m.spi_mem c').handle = NULL →
      SPI.cfun_spi_initchannel T argc' argv' m
        = (.ret (.boolean false),
           janet_setdyn "ft-err" (.keyword "device-not-opened")
             (m.set_spi c' { m.spi_mem c' with
               config := ⟨clk, toUInt8 l', (m.spi_mem c').config.configOptions⟩ }))) ∧
    ((m.spi_mem c').handle ≠ NULL →
      T.SPI_InitChannel m.trace (m.spi_mem c').handle
        ⟨clk, toUInt8 l', (m.spi_mem c').config.configOptions⟩ ≠ FT_OK →
      SPI.cfun_spi_initchannel T argc' argv' m
        = (.ret (.boolean false),
           janet_setdyn "ft-err" (.keyword (ft_status_name
               (T.SPI_InitChannel m.trace (m.spi_mem c').handle
                 ⟨clk, toUInt8 l', (m.spi_mem c').config.configOptions⟩)))
             ((m.set_spi c' { m.spi_mem c' with
               config := ⟨clk, toUInt8 l', (m.spi_mem c').config.configOptions⟩ }).call
               (.SPI_InitChannel (m.spi_mem c').handle
                 ⟨clk, toUInt8 l', (m.spi_mem c').config.configOptions⟩)))) := by
  have ar : janet_arity argc 1 3 = true := by simp [janet_arity, ha, ha']
  have ar' : janet_arity argc' 1 3 = true := by simp [janet_arity, hb, hb']
  have u1 : ¬ (toUInt8 l > 255) := by have := toUInt8_le l; omega
  have u2 : ¬ (toUInt8 l' > 255) := by have := toUInt8_le l'; omega
  have u3 : ¬ ((toUInt8 l' : Int) < 0) := by omega
  have c1 : ¬ (clk > 30000000) := by omega
  refine ⟨?_, ?_, ?_, ?_, ?_, ?_, ?_⟩
  · intro a v msg he
    unfold I2C.cfun_i2c_initchannel
    simp only [he]
    repeat' split
    all_goals exact ⟨rfl, rfl⟩
  · intro a v he
    unfold SPI.cfun_spi_initchannel
    split
    · exact ⟨rfl, rfl⟩
    split
    · exact ⟨rfl, rfl⟩
    split
    · exact ⟨rfl, rfl⟩
    · rename_i k hk
      have := he k hk
      simp only [gt_iff_lt, this, ↓reduceIte]
      exact ⟨rfl, trivial⟩
  · intro hlat
    simp [I2C.cfun_i2c_initchannel, ar, janet_getabstract, h0, hr, hl, hlat, Machine.set_i2c]
  · intro hlat hn
    have hlat' : ¬ (toUInt8 l < 1) := by omega
    have hz : ¬ (toUInt8 l = 0) := by omega
    simp [I2C.cfun_i2c_initchannel, ar, janet_getabstract, h0, hr, hl, hlat', hz, u1, hn,
      Machine.set_i2c, ret, I2C.set_status_dyn, janet_wrap_boolean, janet_ckeywordv,
      ft_status_name_not_opened]
  · intro hlat hn hf
    have hlat' : ¬ (toUInt8 l < 1) := by omega
    have hz : ¬ (toUInt8 l = 0) := by omega
    have e1 : ¬ (NULL = (m.i2c_mem c).handle) := fun h => hn h.symm
    simp [I2C.cfun_i2c_initchannel, ar, janet_getabstract, h0, hr, hl, hlat', hz, u1, e1, hf,
      Machine.set_i2c, Machine.call, ret, I2C.set_status_dyn, janet_wrap_boolean,
      janet_ckeywordv]
  · intro hn
    simp [SPI.cfun_spi_initchannel, ar', janet_getabstract, h0', hc, c1, hl', u2, u3, hn,
      Machine.set_spi, ret, SPI.set_status_dyn, janet_wrap_boolean, janet_ckeywordv,
      ft_status_name_not_opened]
  · intro hn hf
    have e1 : ¬ (NULL = (m.spi_mem c').handle) := fun h => hn h.symm
    simp [SPI.cfun_spi_initchannel, ar', janet_getabstract, h0', hc, c1, hl', u2, u3, e1, hf,
      Machine.set_spi, Machine.call, ret, SPI.set_status_dyn, janet_wrap_boolean,
      janet_ckeywordv]


theorem init_failure_keeps_option_bits_only_witness :
    ((I2C.cfun_i2c_initchannel demoTransport 3
        (argvOf [.abstract I2C.channel_type 3, .keyword "fast", .number 0])
        demoMachine).2.i2c_mem 3).config = ⟨400000, 0, 0⟩ ∧
    ((I2C.cfun_i2c_initchannel demoTransport 3
        (argvOf [.abstract I2C.channel_type 2, .keyword "fast", .number 16])
        demoMachine).2.i2c_mem 2).config = ⟨400000, 16, 0⟩ ∧
    ((SPI.cfun_spi_initchannel demoTransport 3
        (argvOf [.abstract SPI.channel_type 2, .number 1000, .number 16])
        demoMachine).2.spi_mem 2).config = ⟨16, 16, 0⟩ ∧
    (I2C.cfun_i2c_initchannel failingInitTransport 3
        (argvOf [.abstract I2C.channel_type 3, .keyword "fast", .number 16]) demoMachine).1
      = .ret (.boolean false) ∧
    ((I2C.cfun_i2c_initchannel failingInitTransport 3
        (argvOf [.abstract I2C.channel_type 3, .keyword "fast", .number 16])
        demoMachine).2.i2c_mem 3).config = ⟨400000, 16, 0⟩ ∧
    ((SPI.cfun_spi_initchannel failingInitTransport 3
        (argvOf [.abstract SPI.channel_type 3, .number 1000, .number 16])
        demoMachine).2.spi_mem 3).config = ⟨16, 16, 0⟩ :=
  have a := init_failure_keeps_option_bits_only demoTransport demoMachine 3 3
    (argvOf [.abstract I2C.channel_type 3, .keyword "fast", .number 0])
    (argvOf [.abstract SPI.channel_type 2, .number 1000, .number 16]) 3 2 400000 16 0 16
    (by decide) (by decide) rfl rfl rfl (by decide) (by decide) rfl rfl (by decide) rfl
  have b := init_failure_keeps_option_bits_only demoTransport demoMachine 3 3
    (argvOf [.abstract I2C.channel_type 2, .keyword "fast", .number 16])
    (argvOf [.abstract SPI.channel_type 2, .number 1000, .number 16]) 2 2 400000 16 16 16
    (by decide) (by decide) rfl rfl rfl (by decide) (by decide) rfl rfl (by decide) rfl
  have d := init_failure_keeps_option_bits_only failingInitTransport demoMachine 3 3
    (argvOf [.abstract I2C.channel_type 3, .keyword "fast", .number 16])
    (argvOf [.abstract SPI.channel_type 3, .number 1000, .number 16]) 3 3 400000 16 16 16
    (by decide) (by decide) rfl rfl rfl (by decide) (by decide) rfl rfl (by decide) rfl
  ⟨by rw [a.2.2.1 (by decide)]; decide,
   by rw [b.2.2.2.1 (by decide) rfl]; decide,
   by rw [b.2.2.2.2.2.1 rfl]; decide,
   by rw [d.2.2.2.2.1 (by decide) (by decide) (by decide)],
   by rw [d.2.2.2.2.1 (by decide) (by decide) (by decide)]; decide,
   by rw [d.2.2.2.2.2.2 (by decide) (by decide)]; decide⟩

/-! ## Setters on a bad token -/

theorem spi_transfer_loop_ok (T : Transport) (argv : Nat → Janet) :
    ∀ (n i o mask : Nat), SPI.spi_transfer_option_loop T argv n i o = .ok mask →
      ∀ j, j < n → ∃ t, argv (i + j) = .keyword t ∧
        (t = "size-in-bits" ∨ t = "cs") := by
  intro n
  induction n with
  | zero => intro i o mask _ j hj; omega
  | succ n ih =>
    intro i o mask h j hj
    unfold SPI.spi_transfer_option_loop at h
    cases hv : argv i with
    | keyword opt =>
      simp only [hv] at h
      rcases Nat.eq_zero_or_pos j with rfl | hpos
      · refine ⟨opt, by simpa using hv, ?_⟩
        by_contra hno
        simp only [not_or] at hno
        simp [hno] at h
      · have hrest : ∃ o', SPI.spi_transfer_option_loop T argv n (i + 1) o' = .ok mask := by
          split_ifs at h
          all_goals first
            | exact ⟨_, h⟩
            | (exfalso; simp at h)
        obtain ⟨o', ho'⟩ := hrest
        have := ih (i + 1) o' mask ho' (j - 1) (by omega)
        rwa [show i + 1 + (j - 1) = i + j by omega] at this
    | _ => simp [hv] at h

theorem i2c_config_loop_ok (T : Transport) (argv : Nat → Janet) :
    ∀ (n i o mask : Nat), I2C.config_option_loop T argv n i o = .ok mask →
      ∀ j, j < n → ∃ t, argv (i + j) = .keyword t ∧
        (t = "disable-3phase-clocking" ∨ t = "enable-drive-only") := by
  intro n
  induction n with
  | zero => intro i o mask _ j hj; omega
  | succ n ih =>
    intro i o mask h j hj
    unfold I2C.config_option_loop at h
    cases hv : argv i with
    | keyword opt =>
      simp only [hv] at h
      rcases Nat.eq_zero_or_pos j with rfl | hpos
      · refine ⟨opt, by simpa using hv, ?_⟩
        by_contra hno
        simp only [not_or] at hno
        simp [hno] at h
      · have hrest : ∃ o', I2C.config_option_loop T argv n (i + 1) o' = .ok mask := by
          split_ifs at h
          all_goals first
            | exact ⟨_, h⟩
            | (exfalso; simp at h)
        obtain ⟨o', ho'⟩ := hrest
        have := ih (i + 1) o' mask ho' (j - 1) (by omega)
        rwa [show i + 1 + (j - 1) = i + j by omega] at this
    | _ => simp [hv] at h

theorem spi_config_loop_ok (T : Transport) (argv : Nat → Janet) :
    ∀ (n i o mask : Nat), SPI.config_option_loop T argv n i o = .ok mask →
      ∀ j, j < n → ∃ t, argv (i + j) = .keyword t ∧
        (t = "mode0" ∨ t = "mode1" ∨ t = "mode2" ∨ t = "mode3" ∨ t = "bus3" ∨ t = "bus4" ∨
         t = "bus5" ∨ t = "bus6" ∨ t = "bus7" ∨ t = "active-low") := by
  intro n
  induction n with
  | zero => intro i o mask _ j hj; omega
  | succ n ih =>
    intro i o mask h j hj
    unfold SPI.config_option_loop at h
    cases hv : argv i with
    | keyword opt =>
      simp only [hv] at h
      rcases Nat.eq_zero_or_pos j with rfl | hpos
      · refine ⟨opt, by simpa using hv, ?_⟩
        by_contra hno
        simp only [not_or] at hno
        simp [hno] at h
      · have hrest : ∃ o', SPI.config_option_loop T argv n (i + 1) o' = .ok mask := by
          by_cases c0 : opt = "mode0"
          · rw [if_pos c0] at h; exact ⟨_, h⟩
          rw [if_neg c0] at h
          by_cases c1 : opt = "mode1"
          · rw [if_pos c1] at h; exact ⟨_, h⟩
          rw [if_neg c1] at h
          by_cases c2 : opt = "mode2"
          · rw [if_pos c2] at h; exact ⟨_, h⟩
          rw [if_neg c2] at h
          by_cases c3 : opt = "mode3"
          · rw [if_pos c3] at h; exact ⟨_, h⟩
          rw [if_neg c3] at h
          by_cases c4 : opt = "bus3"
          · rw [if_pos c4] at h; exact ⟨_, h⟩
          rw [if_neg c4] at h
          by_cases c5 : opt = "bus4"
          · rw [if_pos c5] at h; exact ⟨_, h⟩
          rw [if_neg c5] at h
          by_cases c6 : opt = "bus5"
          · rw [if_pos c6] at h; exact ⟨_, h⟩
          rw [if_neg c6] at h
          by_cases c7 : opt = "bus6"
          · rw [if_pos c7] at h; exact ⟨_, h⟩
          rw [if_neg c7] at h
          by_cases c8 : opt = "bus7"
          · rw [if_pos c8] at h; exact ⟨_, h⟩
          rw [if_neg c8] at h
          by_cases c9 : opt = "active-low"
          · rw [if_pos c9] at h; exact ⟨_, h⟩
          rw [if_neg c9] at h
          exact absurd h (by simp)
        obtain ⟨o', ho'⟩ := hrest
        have := ih (i + 1) o' mask ho' (j - 1) (by omega)
        rwa [show i + 1 + (j - 1) = i + j by omega] at this
    | _ => simp [hv] at h

/-- A panic of an option setter leaves the machine as it was. -/
theorem setter_panic_keeps_machine (T : Transport) (argc : Nat) (argv : Nat → Janet)
    (m : Machine) (f : CFun)
    (hf : f = I2C.cfun_i2c_set_read_options ∨ f = I2C.cfun_i2c_set_write_options ∨
      f = I2C.cfun_i2c_set_config_options ∨ f = SPI.cfun_spi_set_read_options ∨
      f = SPI.cfun_spi_set_write_options ∨ f = SPI.cfun_spi_set_config_options)
    (hp : (f T argc argv m).1.isPanic = true) : (f T argc argv m).2 = m := by
  have key : (f T argc argv m).2 = m ∨ (f T argc argv m).1.isPanic = false := by
    rcases hf with h | h | h | h | h | h <;> subst h
    · unfold I2C.cfun_i2c_set_read_options
      dsimp only
      repeat' split
      all_goals first
        | exact Or.inl rfl
        | exact Or.inr rfl
    · unfold I2C.cfun_i2c_set_write_options
      dsimp only
      repeat' split
      all_goals first
        | exact Or.inl rfl
        | exact Or.inr rfl
    · unfold I2C.cfun_i2c_set_config_options
      dsimp only
      repeat' split
      all_goals first
        | exact Or.inl rfl
        | exact Or.inr rfl
    · unfold SPI.cfun_spi_set_read_options
      dsimp only
      repeat' split
      all_goals first
        | exact Or.inl rfl
        | exact Or.inr rfl
    · unfold SPI.cfun_spi_set_write_options
      dsimp only
      repeat' split
      all_goals first
        | exact Or.inl rfl
        | exact Or.inr rfl
    · unfold SPI.cfun_spi_set_config_options
      dsimp only
      repeat' split
      all_goals first
        | exact Or.inl rfl
        | exact Or.inr rfl
  rcases key with h | h
  · exact h
  · rw [h] at hp
    cases hp

/-- C26: the option setters on a bad token, for both families.  When some slot `i`
after the channel holds a value that is not a keyword of the vocabulary that the
setter tests for (a non-keyword, an unknown keyword, or an I2C keyword of the other
direction), whatever the other slots hold, the setter panics and the machine is as
before the call: the stored read options, write options and static option bits are
unchanged, and tokens before the bad one are not applied. -/
theorem setters_atomic_on_bad_token (T : Transport) (m : Machine) (argc : Nat)
    (argv : Nat → Janet) (i : Nat) (hi : 1 ≤ i) (hlt : i < argc) :
    ((∀ t, argv i = .keyword t → ¬ I2C.inVocabulary I2C.READ_TRANSFER_OPT t) →
      ∃ msg, I2C.cfun_i2c_set_read_options T argc argv m = (.panic msg, m)) ∧
    ((∀ t, argv i = .keyword t → ¬ I2C.inVocabulary I2C.WRITE_TRANSFER_OPT t) →
      ∃ msg, I2C.cfun_i2c_set_write_options T argc argv m = (.panic msg, m)) ∧
    ((∀ t, argv i = .keyword t →
        ¬ (t = "disable-3phase-clocking" ∨ t = "enable-drive-only")) →
      ∃ msg, I2C.cfun_i2c_set_config_options T argc argv m = (.panic msg, m)) ∧
    ((∀ t, argv i = .keyword t → ¬ (t = "size-in-bits" ∨ t = "cs")) →
      (∃ msg, SPI.cfun_spi_set_read_options T argc argv m = (.panic msg, m)) ∧
      ∃ msg, SPI.cfun_spi_set_write_options T argc argv m = (.panic msg, m)) ∧
    ((∀ t, argv i = .keyword t →
        ¬ (t = "mode0" ∨ t = "mode1" ∨ t = "mode2" ∨ t = "mode3" ∨ t = "bus3" ∨ t = "bus4" ∨
           t = "bus5" ∨ t = "bus6" ∨ t = "bus7" ∨ t = "active-low")) →
      ∃ msg, SPI.cfun_spi_set_config_options T argc argv m = (.panic msg, m)) := by
  have hidx : 1 + (i - 1) = i := by omega
  refine ⟨?_, ?_, ?_, ?_, ?_⟩
  · intro hbad
    have hl : ∃ e, I2C.transfer_option_keywords T argc argv I2C.READ_TRANSFER_OPT
        = .error e := by
      cases h : I2C.transfer_option_keywords T argc argv I2C.READ_TRANSFER_OPT with
      | error e => exact ⟨e, rfl⟩
      | ok mask =>
        exfalso
        obtain ⟨t, ht, hv⟩ := (i2c_transfer_loop_ok_iff T argv _ (argc - 1) 1 0).mp ⟨mask, h⟩
          (i - 1) (by omega)
        rw [hidx] at ht
        exact hbad t ht hv
    obtain ⟨e, he⟩ := hl
    unfold I2C.cfun_i2c_set_read_options
    simp only [he]
    repeat' split
    all_goals exact ⟨_, rfl⟩
  · intro hbad
    have hl : ∃ e, I2C.transfer_option_keywords T argc argv I2C.WRITE_TRANSFER_OPT
        = .error e := by
      cases h : I2C.transfer_option_keywords T argc argv I2C.WRITE_TRANSFER_OPT with
      | error e => exact ⟨e, rfl⟩
      | ok mask =>
        exfalso
        obtain ⟨t, ht, hv⟩ := (i2c_transfer_loop_ok_iff T argv _ (argc - 1) 1 0).mp ⟨mask, h⟩
          (i - 1) (by omega)
        rw [hidx] at ht
        exact hbad t ht hv
    obtain ⟨e, he⟩ := hl
    unfold I2C.cfun_i2c_set_write_options
    simp only [he]
    repeat' split
    all_goals exact ⟨_, rfl⟩
  · intro hbad
    have hl : ∃ e, I2C.config_option_loop T argv (argc - 1) 1 0 = .error e := by
      cases h : I2C.config_option_loop T argv (argc - 1) 1 0 with
      | error e => exact ⟨e, rfl⟩
      | ok mask =>
        exfalso
        obtain ⟨t, ht, hv⟩ := i2c_config_loop_ok T argv (argc - 1) 1 0 mask h (i - 1) (by omega)
        rw [hidx] at ht
        exact hbad t ht hv
    obtain ⟨e, he⟩ := hl
    unfold I2C.cfun_i2c_set_config_options
    simp only [he]
    repeat' split
    all_goals exact ⟨_, rfl⟩
  · intro hbad
    have hl : ∃ e, SPI.spi_transfer_option_keywords T argc argv = .error e := by
      cases h : SPI.spi_transfer_option_keywords T argc argv with
      | error e => exact ⟨e, rfl⟩
      | ok mask =>
        exfalso
        obtain ⟨t, ht, hv⟩ := spi_transfer_loop_ok T argv (argc - 1) 1 0 mask h (i - 1)
          (by omega)
        rw [hidx] at ht
        exact hbad t ht hv
    obtain ⟨e, he⟩ := hl
    constructor
    · unfold SPI.cfun_spi_set_read_options
      simp only [he]
      repeat' split
      all_goals exact ⟨_, rfl⟩
    · unfold SPI.cfun_spi_set_write_options
      simp only [he]
      repeat' split
      all_goals exact ⟨_, rfl⟩
  · intro hbad
    have hl : ∃ e, SPI.config_option_loop T argv (argc - 1) 1 0 = .error e := by
      cases h : SPI.config_option_loop T argv (argc - 1) 1 0 with
      | error e => exact ⟨e, rfl⟩
      | ok mask =>
        exfalso
        obtain ⟨t, ht, hv⟩ := spi_config_loop_ok T argv (argc - 1) 1 0 mask h (i - 1) (by omega)
        rw [hidx] at ht
        exact hbad t ht hv
    obtain ⟨e, he⟩ := hl
    unfold SPI.cfun_spi_set_config_options
    simp only [he]
    repeat' split
    all_goals exact ⟨_, rfl⟩

theorem setters_atomic_on_bad_token_witness :
    I2C.cfun_i2c_set_write_options demoTransport 3
        (argvOf [.abstract I2C.channel_type 3, .keyword "start", .keyword "nak-last-byte"])
        demoMachine
      = (.panic "invalid I2C transfer option %p", demoMachine) ∧
    (∃ msg, I2C.cfun_i2c_set_read_options demoTransport 3
        (argvOf [.abstract I2C.channel_type 3, .keyword "start", .number 5]) demoMachine
      = (.panic msg, demoMachine)) ∧
    (∃ msg, SPI.cfun_spi_set_config_options demoTransport 3
        (argvOf [.abstract SPI.channel_type 3, .keyword "mode1", .keyword "mode9"]) demoMachine
      = (.panic msg, demoMachine)) ∧
    ((I2C.cfun_i2c_set_write_options demoTransport 2
        (argvOf [.abstract I2C.channel_type 3, .keyword "start"])
        demoMachine).2.i2c_mem 3).write_options = 1 :=
  ⟨rfl,
   (setters_atomic_on_bad_token demoTransport demoMachine 3
      (argvOf [.abstract I2C.channel_type 3, .keyword "start", .number 5]) 2
      (by decide) (by decide)).1 (by intro t h; cases h),
   (setters_atomic_on_bad_token demoTransport demoMachine 3
      (argvOf [.abstract SPI.channel_type 3, .keyword "mode1", .keyword "mode9"]) 2
      (by decide) (by decide)).2.2.2.2
      (by
        intro t h
        have ht : t = "mode9" := by
          simp only [argvOf, List.getD_eq_getElem?_getD] at h
          exact (Janet.keyword.inj h).symm
        subst ht
        decide),
   by decide⟩

/-! ## Conflicting SPI config tokens -/

/-- C27: the SPI `configure_static` never rejects conflicting tokens.  For every list
of at most three tokens (the arity of the function) from mode0..mode3, bus3..bus7
and active-low the call succeeds and stores the bitwise or of the constants of the
tokens; so mode1 with mode2 is accepted and stores `MODE1 ||| MODE2`, and with the
constants of the vendor header (those of the concrete transport) the call with
mode1 and mode2 ends in the same machine as the call with mode3 alone. -/
theorem spi_config_ors_conflicting_tokens (T : Transport) (m : Machine) (c : Nat)
    (l : List String) (hlen : l.length ≤ 3)
    (hv : ∀ t, t ∈ l → t ∈ ["mode0", "mode1", "mode2", "mode3", "bus3", "bus4", "bus5",
      "bus6", "bus7", "active-low"]) :
    SPI.cfun_spi_set_config_options T (l.length + 1)
        (tokenArgv (.abstract SPI.channel_type c) l) m
      = (.ret .nil,
         janet_setdyn "ft-err" (.keyword "ok")
           (m.set_spi c { m.spi_mem c with
             config := { (m.spi_mem c).config with
               configOptions := orBits (SPI.config_option_bit T) l } })) ∧
    orBits (SPI.config_option_bit T) ["mode1", "mode2"]
      = T.SPI_CONFIG_OPTION_MODE1 ||| T.SPI_CONFIG_OPTION_MODE2 ∧
    orBits (SPI.config_option_bit T) ["mode3"] = T.SPI_CONFIG_OPTION_MODE3 ∧
    SPI.cfun_spi_set_config_options demoTransport 3
        (tokenArgv (.abstract SPI.channel_type 3) ["mode1", "mode2"]) demoMachine
      = SPI.cfun_spi_set_config_options demoTransport 2
        (tokenArgv (.abstract SPI.channel_type 3) ["mode3"]) demoMachine := by
  have hall : l.all (fun t => (SPI.config_option_bit T t).isSome) = true := by
    rw [List.all_eq_true]
    intro t ht
    have := hv t ht
    simp only [List.mem_cons, List.mem_singleton, List.not_mem_nil, or_false] at this
    rcases this with h | h | h | h | h | h | h | h | h | h <;> subst h <;>
      simp [SPI.config_option_bit]
  have ar : janet_arity (l.length + 1) 1 4 = true := by
    simp only [janet_arity, decide_eq_true_eq]
    omega
  have h0 : tokenArgv (.abstract SPI.channel_type c) l 0 = .abstract SPI.channel_type c := rfl
  have hloop : SPI.config_option_loop T (tokenArgv (.abstract SPI.channel_type c) l)
      (l.length + 1 - 1) 1 0 = .ok (orBits (SPI.config_option_bit T) l) := by
    rw [Nat.add_sub_cancel, spi_config_loop_eq T _ l 1 0 (tokenArgv_succ _ l), composeBits_eq,
      hall]
    simp
  refine ⟨?_, ?_, ?_, ?_⟩
  · simp only [SPI.cfun_spi_set_config_options, ar, janet_getabstract, h0, hloop]
    simp [ret, SPI.set_status_dyn, janet_wrap_nil, janet_ckeywordv]
    rfl
  · simp [orBits, SPI.config_option_bit]
  · simp [orBits, SPI.config_option_bit]
  · rfl

theorem spi_config_ors_conflicting_tokens_witness :
    (∀ t, t ∈ ["mode1", "mode2"] → t ∈ ["mode0", "mode1", "mode2", "mode3", "bus3", "bus4",
      "bus5", "bus6", "bus7", "active-low"]) ∧
    ((SPI.cfun_spi_set_config_options demoTransport 3
        (tokenArgv (.abstract SPI.channel_type 3) ["mode1", "mode2"])
        demoMachine).2.spi_mem 3).config.configOptions = 3 ∧
    (SPI.cfun_spi_set_config_options demoTransport 3
        (tokenArgv (.abstract SPI.channel_type 3) ["mode1", "mode2"]) demoMachine).1
      = .ret .nil :=
  have hv : ∀ t, t ∈ ["mode1", "mode2"] → t ∈ ["mode0", "mode1", "mode2", "mode3", "bus3",
      "bus4", "bus5", "bus6", "bus7", "active-low"] := by
    intro t ht
    simp only [List.mem_cons, List.mem_singleton, List.not_mem_nil, or_false] at ht ⊢
    rcases ht with h | h <;> simp [h]
  have key := spi_config_ors_conflicting_tokens demoTransport demoMachine 3 ["mode1", "mode2"]
    (by decide) hv
  ⟨hv, by decide, congrArg Prod.fst key.1⟩

end Mpsse
